import Mathlib

/-!
# Goodix GT1x touchscreen driver core (`gt1x.c`)

A shallow embedding of the interrupt gate, the two-phase interrupt pipeline and
the probe-time resource handling of `drivers/input/touchscreen/gt1x_v1_6_revised/gt1x.c`.

Driver globals (`irq_disabled`, `vdd_ana`, `gt_pinctrl`, `input_dev`, the GPIO
numbers, ...) are the fields of one explicit state record `Dev`.  Every call the
driver makes into the kernel or into the other files of the driver is appended
to `Dev.log`, so that "which calls were issued, in which order" is a statement
about a list.  Values produced by those callees (return codes, looked-up
handles, the bytes of a report) are supplied by environment records.
-/

namespace Gt1x

/-! ## Data model -/

/-- A C pointer as the driver tests it: `NULL`, an `ERR_PTR(-errno)` value, or a
real object. -/
inductive Ptr where
  | null
  | err (errno : Nat)
  | valid (addr : Nat)
  deriving DecidableEq, Repr

/-- Kernel macro `IS_ERR_OR_NULL(p)`. -/
def IS_ERR_OR_NULL : Ptr → Bool
  | .valid _ => false
  | _ => true

/-- Kernel macro `IS_ERR(p)`. -/
def IS_ERR : Ptr → Bool
  | .err _ => true
  | _ => false

/-- Kernel macro `PTR_ERR(p)`: the pointer value read as a signed integer. -/
def PTR_ERR : Ptr → Int
  | .null => 0
  | .err e => -(e : Int)
  | .valid a => (a : Int)

/-- The four named pin-mux configurations of `struct goodix_pinctrl`. -/
inductive PinState where
  | wakeup
  | normal
  | poweroff
  | sleep
  deriving DecidableEq, Repr

/-- The two regulators looked up by `gt1x_parse_dt`. -/
inductive Rail where
  | vdd_ana
  | vcc_i2c
  deriving DecidableEq, Repr

/-- The absolute axes the driver declares and reports. -/
inductive AbsAxis where
  | ABS_MT_POSITION_X
  | ABS_MT_POSITION_Y
  | ABS_MT_PRESSURE
  | ABS_MT_TOUCH_MAJOR
  | ABS_MT_TRACKING_ID
  deriving DecidableEq, Repr

/-- The key codes `gt1x_touch_down` reports. -/
inductive KeyCode where
  | BTN_TOUCH
  deriving DecidableEq, Repr

/-- Calls leaving `gt1x.c`, in the order they are issued.  Arguments and, where
a later reader needs them, return values are recorded. -/
inductive Action where
  | enable_irq
  | disable_irq
  | disable_irq_nosync
  | synchronize_irq
  | gesture_event_handler
  | gt1x_i2c_read (addr : Nat) (len : Nat)
  | gt1x_power_reset
  | gt1x_request_event_handler
  | hotknot_event_handler (report : List Nat)
  | gt1x_prox_event_handler (report : List Nat)
  | gt1x_touch_event_handler (report : List Nat) (pen : Bool)
  | gt1x_i2c_write (addr : Nat) (data : List Nat)
  | of_get_named_gpio (gpio : Int)
  | regulator_get (rail : Rail)
  | regulator_enable (rail : Rail) (ret : Int)
  | regulator_disable (rail : Rail) (ret : Int)
  | regulator_set_load (rail : Rail) (load : Int)
  | regulator_put (rail : Rail)
  | kmalloc
  | devm_pinctrl_get
  | pinctrl_lookup_state (st : PinState)
  | pinctrl_select_state (st : PinState) (ret : Int)
  | devm_pinctrl_put
  | gpio_request (gpio : Int) (ret : Int)
  | gpio_direction_input (gpio : Int)
  | gpio_direction_output (gpio : Int) (value : Int)
  | gpio_to_irq (gpio : Int)
  | gpio_free (gpio : Int)
  | usleep_range (lo : Nat) (hi : Nat)
  | gt1x_reset_guitar (ret : Int)
  | gt1x_init
  | gt1x_deinit
  | input_allocate_device
  | input_register_device (ret : Int)
  | input_unregister_device
  | devm_request_threaded_irq (ret : Int)
  | gt1x_init_esd_protect
  | gt1x_esd_switch (state : Int)
  | kthread_run
  | gt1x_register_powermanger
  | input_report_key (code : KeyCode) (value : Int)
  | input_mt_slot (slot : Int)
  | input_mt_report_slot_state (active : Bool)
  | input_report_abs (axis : AbsAxis) (value : Int)
  | input_mt_sync
  deriving DecidableEq, Repr

/-- The object `gt_pinctrl` points to. -/
structure GoodixPinctrl where
  ts_pinctrl : Ptr
  pinctrl_wakeup : Ptr
  pinctrl_normal : Ptr
  pinctrl_poweroff : Ptr
  pinctrl_sleep : Ptr
  deriving DecidableEq, Repr

/-- Driver state: the file-scope variables of `gt1x.c`, the two facts about the
world the properties below speak of (how deeply the IRQ line is disabled, which GPIO
numbers are requested), and the log of outgoing calls. -/
structure Dev where
  /-- Variable `static int irq_disabled`. -/
  irq_disabled : Int
  /-- Disable depth of the physical IRQ line (0 = line enabled). -/
  irq_depth : Nat
  /-- Outgoing calls, oldest first. -/
  log : List Action
  /-- Whether `gt1x_i2c_client != NULL`. -/
  client_bound : Bool
  /-- Value of `gt1x_i2c_client->irq`. -/
  client_irq : Int
  /-- Variable `static struct input_dev *input_dev` (`none` = NULL). -/
  input_dev : Option Nat
  /-- Variable `struct goodix_pinctrl *gt_pinctrl` (`none` = NULL). -/
  gt_pinctrl : Option GoodixPinctrl
  /-- Variable `static struct regulator *vdd_ana` (`none` = NULL). -/
  vdd_ana : Option Nat
  /-- Variable `static struct regulator *vcc_i2c` (`none` = NULL). -/
  vcc_i2c : Option Nat
  gt1x_rst_gpio : Int
  gt1x_pwr_gpio : Int
  gt1x_int_gpio : Int
  gt1x_pwrio_gpio : Int
  /-- GPIO numbers currently requested (a successful `gpio_request` not yet
  followed by `gpio_free`). -/
  gpio_held : List Int
  deriving DecidableEq, Repr

/-- Compile-time configuration and the constants of `gt1x_generic.h` the file
uses; the header is not part of the sources, so they are parameters. -/
structure Config where
  GTP_GESTURE_WAKEUP : Bool
  GTP_ESD_PROTECT : Bool
  HOTKNOT_BLOCK_RW : Bool
  GTP_PROXIMITY : Bool
  GTP_WITH_STYLUS : Bool
  GTP_AUTO_UPDATE : Bool
  DRM : Bool
  GTP_READ_COOR_ADDR : Nat
  ERROR_VALUE : Int
  ARCH_NR_GPIOS : Int
  deriving DecidableEq, Repr

/-- Kernel type `irqreturn_t`. -/
inductive IrqReturn where
  | IRQ_NONE
  | IRQ_HANDLED
  | IRQ_WAKE_THREAD
  deriving DecidableEq, Repr

/-- Append one outgoing call to the log. -/
def emit (a : Action) (s : Dev) : Dev :=
  { s with log := s.log ++ [a] }

/-! ## Concurrency gate (`gt1x_irq_enable`, `gt1x_irq_disable`, top half) -/

/-- Modelled from the spec: the kernel primitive `enable_irq` is not among the
sources.  The physical line is represented by its disable depth ("no double
physical disable", section 4.1): the call undoes one level of disabling, and on
a line that is not disabled it leaves the depth at 0 (truncated subtraction). -/
def enable_irq (s : Dev) : Dev :=
  emit .enable_irq { s with irq_depth := s.irq_depth - 1 }

/-- Modelled from the spec: the kernel primitive `disable_irq` is not among the
sources; the call adds one level of disabling to the physical line. -/
def disable_irq (s : Dev) : Dev :=
  emit .disable_irq { s with irq_depth := s.irq_depth + 1 }

/-- Modelled from the spec: the kernel primitive `disable_irq_nosync` is not
among the sources; the call adds one level of disabling without waiting for a
running handler. -/
def disable_irq_nosync (s : Dev) : Dev :=
  emit .disable_irq_nosync { s with irq_depth := s.irq_depth + 1 }

/-- Source function `gt1x_irq_enable` (lines 89-102).  The spinlock only brackets the
test-and-clear and has no sequential effect. -/
def gt1x_irq_enable (s : Dev) : Dev :=
  if s.irq_disabled ≠ 0 then
    enable_irq { s with irq_disabled := 0 }
  else
    s

/-- Source function `gt1x_irq_disable` (lines 109-129): `synchronize_irq`, then test-and-set. -/
def gt1x_irq_disable (s : Dev) : Dev :=
  let s1 := emit .synchronize_irq s
  if s1.irq_disabled = 0 then
    disable_irq { s1 with irq_disabled := 1 }
  else
    s1

/-- Source function `gt1x_ts_irq_handler` (lines 163-180), the top half. -/
def gt1x_ts_irq_handler (s : Dev) : IrqReturn × Dev :=
  if s.irq_disabled = 0 then
    (.IRQ_WAKE_THREAD, disable_irq_nosync { s with irq_disabled := 1 })
  else
    (.IRQ_HANDLED, s)

/-- One call on the gate. -/
inductive GateCall where
  | enable
  | disable
  | top_half
  deriving DecidableEq, Repr

/-- Effect of one gate call on the driver state. -/
def GateCall.apply : GateCall → Dev → Dev
  | .enable, s => gt1x_irq_enable s
  | .disable, s => gt1x_irq_disable s
  | .top_half, s => (gt1x_ts_irq_handler s).2

/-- Run a sequence of gate calls, first call first. -/
def runGate (cs : List GateCall) (s : Dev) : Dev :=
  cs.foldl (fun st c => c.apply st) s

/-- One step of the one-bit counter: a disabling call (`gt1x_irq_disable` or the
top half) saturates at 1, an enabling call saturates at 0. -/
def clampStep (c : Nat) : GateCall → Nat
  | .enable => c - 1
  | .disable => min 1 (c + 1)
  | .top_half => min 1 (c + 1)

/-- Completed disables minus completed enables, clamped to one bit after each
call. -/
def clampedCount (cs : List GateCall) : Nat :=
  cs.foldl clampStep 0

/-- The calls in a log that change the physical state of the IRQ line. -/
def physicalOps (l : List Action) : List Action :=
  l.filter (fun a => a = .enable_irq ∨ a = .disable_irq ∨ a = .disable_irq_nosync)

/-! ## Processing phase (`gt1x_ts_work_thread`) -/

/-- What the callees of one `gt1x_ts_work_thread` run produce. -/
structure WorkEnv where
  /-- Value of `update_info.status`. -/
  update_status : Int
  /-- Result of `gesture_event_handler`. -/
  gesture_ret : Int
  /-- Global `gt1x_halt`. -/
  gt1x_halt : Int
  /-- Result of `gt1x_i2c_read`. -/
  read_ret : Int
  /-- Content of `point_data` after the read. -/
  point_data : List Nat
  hotknot_paired_flag : Int
  /-- Result of `hotknot_event_handler`. -/
  hotknot_ret : Int
  /-- Result of `gt1x_prox_event_handler`. -/
  prox_ret : Int
  /-- Result of `gt1x_touch_event_handler`. -/
  touch_ret : Int
  /-- Global `gt1x_rawdiff_mode`. -/
  gt1x_rawdiff_mode : Int
  /-- Result of the acknowledgment `gt1x_i2c_write`. -/
  write_ret : Int
  deriving DecidableEq, Repr

/-- Label `exit_eint` (lines 303-305). -/
def exit_eint (s : Dev) : IrqReturn × Dev :=
  (.IRQ_HANDLED, gt1x_irq_enable s)

/-- Label `exit_work_func` (lines 297-302), entered with the current `ret`. -/
def exit_work_func (cfg : Config) (env : WorkEnv) (ret : Int) (s : Dev) : IrqReturn × Dev :=
  if env.gt1x_rawdiff_mode = 0 ∧ (ret ≥ 0 ∨ ret = cfg.ERROR_VALUE) then
    let s1 := emit (.gt1x_i2c_write cfg.GTP_READ_COOR_ADDR [0]) s
    -- `ret = gt1x_i2c_write(...)`; a negative result is only logged as an error
    if env.write_ret < 0 then exit_eint s1 else exit_eint s1
  else
    exit_eint s

/-- Local `finger = point_data[0]` as a `u8`. -/
def fingerByte (env : WorkEnv) : Nat :=
  (env.point_data.getD 0 0) % 256

/-- Lines 279-296 of `gt1x_ts_work_thread`: the optional HotKnot and proximity
handlers, then the touch decoder, then `exit_work_func`. -/
def work_decode (cfg : Config) (env : WorkEnv) (s : Dev) : IrqReturn × Dev :=
  let s4 := if cfg.HOTKNOT_BLOCK_RW then emit (.hotknot_event_handler env.point_data) s else s
  if cfg.HOTKNOT_BLOCK_RW = true ∧ env.hotknot_ret = 0 then
    exit_work_func cfg env env.hotknot_ret s4
  else
    let s5 := if cfg.GTP_PROXIMITY then emit (.gt1x_prox_event_handler env.point_data) s4 else s4
    if cfg.GTP_PROXIMITY = true ∧ env.prox_ret > 0 then
      exit_work_func cfg env env.prox_ret s5
    else
      let s6 := emit (.gt1x_touch_event_handler env.point_data cfg.GTP_WITH_STYLUS) s5
      exit_work_func cfg env env.touch_ret s6

/-- Lines 266-277 of `gt1x_ts_work_thread`: dispatch on the status byte of a
successfully read report. -/
def work_dispatch (cfg : Config) (env : WorkEnv) (s : Dev) : IrqReturn × Dev :=
  let finger := fingerByte env
  let s3 := if finger = 0 then emit .gt1x_request_event_handler s else s
  if finger &&& 0x80 = 0 ∧ (cfg.HOTKNOT_BLOCK_RW = false ∨ env.hotknot_paired_flag = 0) then
    exit_eint s3
  else
    work_decode cfg env s3

/-- Source function `gt1x_ts_work_thread` (lines 234-306), the bottom half. -/
def gt1x_ts_work_thread (cfg : Config) (env : WorkEnv) (s : Dev) : IrqReturn × Dev :=
  if env.update_status ≠ 0 then
    (.IRQ_HANDLED, s)
  else
    let s1 := if cfg.GTP_GESTURE_WAKEUP then emit .gesture_event_handler s else s
    if cfg.GTP_GESTURE_WAKEUP = true ∧ env.gesture_ret ≥ 0 then
      exit_work_func cfg env env.gesture_ret s1
    else if env.gt1x_halt ≠ 0 then
      (.IRQ_HANDLED, s1)
    else
      let s2 := emit (.gt1x_i2c_read cfg.GTP_READ_COOR_ADDR 11) s1
      if env.read_ret < 0 then
        let s3 := if cfg.GTP_ESD_PROTECT then s2 else emit .gt1x_power_reset s2
        exit_work_func cfg env env.read_ret s3
      else
        work_dispatch cfg env s2

/-! ## Touch reporting (`gt1x_touch_down`, `gt1x_touch_up`) -/

/-- Compile-time switches of the touch reporting code and the two globals
`gt1x_abs_x_max` / `gt1x_abs_y_max` (defined outside `gt1x.c`, hence
parameters). -/
structure InputConfig where
  GTP_CHANGE_X2Y : Bool
  GTP_TYPE_B_PROTOCOL : Bool
  gt1x_abs_x_max : Int
  gt1x_abs_y_max : Int
  deriving DecidableEq, Repr

/-- Modelled from the spec: the macro `GTP_SWAP` of the header `gt1x_generic.h`
is not among the sources; it exchanges its two arguments ("axis swap"). -/
def GTP_SWAP (x y : Int) : Int × Int :=
  (y, x)

/-- Source function `gt1x_touch_down` (lines 190-212).  The tool type of
`input_mt_report_slot_state` is always `MT_TOOL_FINGER`. -/
def gt1x_touch_down (ic : InputConfig) (x y size id : Int) (s : Dev) : Dev :=
  let p := if ic.GTP_CHANGE_X2Y then GTP_SWAP x y else (x, y)
  let s1 := emit (.input_report_key .BTN_TOUCH 1) s
  let s2 :=
    if ic.GTP_TYPE_B_PROTOCOL then
      emit (.input_mt_report_slot_state true) (emit (.input_mt_slot id) s1)
    else
      emit (.input_report_abs .ABS_MT_TRACKING_ID id) s1
  let s3 := emit (.input_report_abs .ABS_MT_POSITION_X p.1) s2
  let s4 := emit (.input_report_abs .ABS_MT_POSITION_Y p.2) s3
  let s5 := emit (.input_report_abs .ABS_MT_PRESSURE size) s4
  let s6 := emit (.input_report_abs .ABS_MT_TOUCH_MAJOR size) s5
  if ic.GTP_TYPE_B_PROTOCOL then s6 else emit .input_mt_sync s6

/-- Source function `gt1x_touch_up` (lines 219-227). -/
def gt1x_touch_up (ic : InputConfig) (id : Int) (s : Dev) : Dev :=
  if ic.GTP_TYPE_B_PROTOCOL then
    emit (.input_mt_report_slot_state false) (emit (.input_mt_slot id) s)
  else
    emit .input_mt_sync s

/-- Lines 631-640 of `gt1x_request_input_dev`: the axis, minimum and maximum of
each `input_set_abs_params` call (fuzz and flat are 0 throughout). -/
def input_abs_setup (ic : InputConfig) : List (AbsAxis × Int × Int) :=
  (if ic.GTP_CHANGE_X2Y then
    [(.ABS_MT_POSITION_X, 0, ic.gt1x_abs_y_max), (.ABS_MT_POSITION_Y, 0, ic.gt1x_abs_x_max)]
   else
    [(.ABS_MT_POSITION_X, 0, ic.gt1x_abs_x_max), (.ABS_MT_POSITION_Y, 0, ic.gt1x_abs_y_max)]) ++
  [(.ABS_MT_PRESSURE, 0, 255), (.ABS_MT_TOUCH_MAJOR, 0, 255), (.ABS_MT_TRACKING_ID, 0, 255)]

/-! ## Resources: device tree, pin-mux, GPIOs, power, input device -/

def ENOMEM : Int := 12

def ENODEV : Int := 19

def EINVAL : Int := 22

def EPROBE_DEFER : Int := 517

/-- Constant `SWITCH_ON` of the header `gt1x_generic.h` (not among the sources);
the value is the one documented at `gt1x_power_switch`: "1-switch on". -/
def SWITCH_ON : Int := 1

/-- Constant `SWITCH_OFF` of the header `gt1x_generic.h` (not among the sources);
the value is the one documented at `gt1x_power_switch`: "0-switch off". -/
def SWITCH_OFF : Int := 0

/-- Conversion of an `int` to `s8` (two's complement, 8 bits). -/
def s8 (x : Int) : Int :=
  (x + 128) % 256 - 128

/-- Modelled from the spec: the kernel helper `gpio_is_valid` is not among the
sources; a GPIO number is valid when it lies in `[0, ARCH_NR_GPIOS)`. -/
def gpio_is_valid (cfg : Config) (gpio : Int) : Bool :=
  decide (0 ≤ gpio ∧ gpio < cfg.ARCH_NR_GPIOS)

/-- Modelled from the spec: the kernel call `gpio_request` is not among the
sources.  Its result `ret` comes from the environment; a non-negative result
(the driver's own test is `ret < 0`) marks the number as held. -/
def gpio_request (gpio : Int) (ret : Int) (s : Dev) : Dev :=
  let s1 := emit (.gpio_request gpio ret) s
  if ret < 0 then s1 else { s1 with gpio_held := gpio :: s1.gpio_held }

/-- Modelled from the spec: the kernel call `gpio_free` is not among the
sources; afterwards the number is no longer held. -/
def gpio_free (gpio : Int) (s : Dev) : Dev :=
  let s1 := emit (.gpio_free gpio) s
  { s1 with gpio_held := s1.gpio_held.filter (fun g => g ≠ gpio) }

/-- A regulator pointer stored into `vdd_ana` / `vcc_i2c` after the driver has
replaced error values by NULL. -/
def Ptr.toHandle : Ptr → Option Nat
  | .valid a => some a
  | _ => none

/-- What the callees of `gt1x_parse_dt` produce. -/
structure DtEnv where
  int_gpio : Int
  rst_gpio : Int
  pwr_gpio : Int
  pwrio_gpio : Int
  vdd_ana_get : Ptr
  vdd_ana_disable_ret : Int
  vcc_i2c_get : Ptr
  deriving DecidableEq, Repr

/-- Source function `gt1x_parse_dt` (lines 315-360).  `dev_null` is `!dev`. -/
def gt1x_parse_dt (cfg : Config) (dt : DtEnv) (dev_null : Bool) (s : Dev) : Int × Dev :=
  if dev_null then
    (-ENODEV, s)
  else
    let s1 := { emit (.of_get_named_gpio dt.int_gpio) s with gt1x_int_gpio := dt.int_gpio }
    let s2 := { emit (.of_get_named_gpio dt.rst_gpio) s1 with gt1x_rst_gpio := dt.rst_gpio }
    let s3 := { emit (.of_get_named_gpio dt.pwr_gpio) s2 with gt1x_pwr_gpio := dt.pwr_gpio }
    let s4 := { emit (.of_get_named_gpio dt.pwrio_gpio) s3 with
                gt1x_pwrio_gpio := dt.pwrio_gpio }
    if !gpio_is_valid cfg s4.gt1x_int_gpio || !gpio_is_valid cfg s4.gt1x_rst_gpio then
      (-EINVAL, s4)
    else
      let s5 := emit (.regulator_get .vdd_ana) s4
      let s6 :=
        if IS_ERR dt.vdd_ana_get then
          { s5 with vdd_ana := none }
        else
          let s5a := { s5 with vdd_ana := dt.vdd_ana_get.toHandle }
          emit (.regulator_set_load .vdd_ana 0)
            (emit (.regulator_disable .vdd_ana dt.vdd_ana_disable_ret) s5a)
      let s7 := emit (.regulator_get .vcc_i2c) s6
      let s9 :=
        if IS_ERR dt.vcc_i2c_get then
          { s7 with vcc_i2c := none }
        else
          { s7 with vcc_i2c := dt.vcc_i2c_get.toHandle }
      (0, s9)

/-- What the callees of `goodix_pinctrl_init` produce.  `kmalloc_result` is
`none` when the allocation fails, otherwise the (indeterminate) content of the
fresh block. -/
structure PinctrlEnv where
  kmalloc_result : Option GoodixPinctrl
  pinctrl_get : Ptr
  wakeup : Ptr
  normal : Ptr
  poweroff : Ptr
  sleep : Ptr
  deriving DecidableEq, Repr

/-- All five members of `*gt_pinctrl` set to NULL. -/
def GoodixPinctrl.cleared : GoodixPinctrl :=
  { ts_pinctrl := .null, pinctrl_wakeup := .null, pinctrl_normal := .null,
    pinctrl_poweroff := .null, pinctrl_sleep := .null }

/-- Label `exit_put` of `goodix_pinctrl_init` (lines 411-418). -/
def pinctrl_exit_put (ret : Int) (s : Dev) : Int × Dev :=
  (ret, { emit .devm_pinctrl_put s with gt_pinctrl := some GoodixPinctrl.cleared })

/-- Source function `goodix_pinctrl_init` (lines 365-419). -/
def goodix_pinctrl_init (pe : PinctrlEnv) (s : Dev) : Int × Dev :=
  let s0 :=
    match s.gt_pinctrl with
    | none => { emit .kmalloc s with gt_pinctrl := pe.kmalloc_result }
    | some _ => s
  match s0.gt_pinctrl with
  | none => (-ENOMEM, s0)
  | some p =>
    let p1 := { p with ts_pinctrl := pe.pinctrl_get }
    let s1 := { emit .devm_pinctrl_get s0 with gt_pinctrl := some p1 }
    if IS_ERR_OR_NULL p1.ts_pinctrl then
      (PTR_ERR p1.ts_pinctrl, { s1 with gt_pinctrl := some { p1 with ts_pinctrl := .null } })
    else
      let p2 := { p1 with pinctrl_wakeup := pe.wakeup }
      let s2 := { emit (.pinctrl_lookup_state .wakeup) s1 with gt_pinctrl := some p2 }
      if IS_ERR_OR_NULL p2.pinctrl_wakeup then
        pinctrl_exit_put (PTR_ERR p2.pinctrl_wakeup) s2
      else
        let p3 := { p2 with pinctrl_normal := pe.normal }
        let s3 := { emit (.pinctrl_lookup_state .normal) s2 with gt_pinctrl := some p3 }
        -- `ret = PTR_ERR(...)` without a `goto`: the value is overwritten or dropped below
        let p4 := { p3 with pinctrl_poweroff := pe.poweroff }
        let s4 := { emit (.pinctrl_lookup_state .poweroff) s3 with gt_pinctrl := some p4 }
        if IS_ERR_OR_NULL p4.pinctrl_poweroff then
          pinctrl_exit_put (PTR_ERR p4.pinctrl_poweroff) s4
        else
          let p5 := { p4 with pinctrl_sleep := pe.sleep }
          let s5 := { emit (.pinctrl_lookup_state .sleep) s4 with gt_pinctrl := some p5 }
          if IS_ERR_OR_NULL p5.pinctrl_sleep then
            pinctrl_exit_put (PTR_ERR p5.pinctrl_sleep) s5
          else
            (0, s5)

/-- What one `gt1x_power_switch` call meets: the result of the regulator call
it makes when `vdd_ana` is held, and the content of its local `ret`, which is
declared without initialiser and stays unassigned when `vdd_ana` is NULL. -/
structure PowerEnv where
  regulator_ret : Int
  uninit_ret : Int
  deriving DecidableEq, Repr

/-- Source function `gt1x_power_switch` (lines 427-461).  `GTP_GPIO_OUTPUT(pin, level)` is
`gpio_direction_output(pin, level)`. -/
def gt1x_power_switch (pe : PowerEnv) (sw : Int) (s : Dev) : Int × Dev :=
  if !s.client_bound then
    (-1, s)
  else if sw ≠ 0 then
    let s1 := emit (.gpio_direction_output s.gt1x_pwr_gpio 1) s
    let s2 := emit (.gpio_direction_output s1.gt1x_pwrio_gpio 1) s1
    match s2.vdd_ana with
    | some _ =>
      let s3 := emit (.regulator_enable .vdd_ana pe.regulator_ret) s2
      (pe.regulator_ret, emit (.usleep_range 10000 10100) s3)
    | none =>
      (pe.uninit_ret, emit (.usleep_range 10000 10100) s2)
  else
    let s1 := emit (.gpio_direction_output s.gt1x_pwr_gpio 0) s
    let s2 := emit (.gpio_direction_output s1.gt1x_pwrio_gpio 0) s1
    match s2.vdd_ana with
    | some _ =>
      let s3 := emit (.regulator_disable .vdd_ana pe.regulator_ret) s2
      let s4 := emit (.regulator_set_load .vdd_ana 0) s3
      (pe.regulator_ret, emit (.usleep_range 10000 10100) s4)
    | none =>
      (pe.uninit_ret, emit (.usleep_range 10000 10100) s2)

/-- Source function `gt1x_release_resource` (lines 492-524).  `GTP_INT_PORT` / `GTP_RST_PORT` are
`gt1x_int_gpio` / `gt1x_rst_gpio`.  The result is `none` when `gt_pinctrl` is
NULL at the dereference in line 512. -/
def gt1x_release_resource (cfg : Config) (pe : PowerEnv) (s : Dev) : Option Dev :=
  let s1 :=
    if gpio_is_valid cfg s.gt1x_int_gpio then
      gpio_free s.gt1x_int_gpio (emit (.gpio_direction_input s.gt1x_int_gpio) s)
    else s
  let s2 :=
    if gpio_is_valid cfg s1.gt1x_rst_gpio then
      gpio_free s1.gt1x_rst_gpio (emit (.gpio_direction_output s1.gt1x_rst_gpio 0) s1)
    else s1
  let s3 :=
    match s2.vdd_ana with
    | some _ =>
      { emit (.regulator_put .vdd_ana) (gt1x_power_switch pe SWITCH_OFF s2).2 with
        vdd_ana := none }
    | none => s2
  match s3.gt_pinctrl with
  | none => none
  | some p =>
    let s4 := if p.ts_pinctrl ≠ .null then emit .devm_pinctrl_put s3 else s3
    let s5 := { s4 with gt_pinctrl := some GoodixPinctrl.cleared }
    match s5.input_dev with
    | some _ => some { emit .input_unregister_device s5 with input_dev := none }
    | none => some s5

/-- What the callees of `gt1x_request_gpio` produce. -/
structure GpioEnv where
  int_ret : Int
  rst_ret : Int
  pwr_ret : Int
  pwrio_ret : Int
  /-- Result of `gpio_to_irq`. -/
  irq_number : Int
  deriving DecidableEq, Repr

/-- Source function `gt1x_request_gpio` (lines 529-563).  `GTP_GPIO_AS_INT` and
`GTP_GPIO_AS_INPUT` are `gpio_direction_input`.  The single local `ret` is
reassigned by every `gpio_request`, so the value returned is decided by the
last one. -/
def gt1x_request_gpio (ge : GpioEnv) (s : Dev) : Int × Dev :=
  let s1 := gpio_request s.gt1x_int_gpio ge.int_ret s
  let s2 :=
    if ge.int_ret < 0 then s1
    else
      { emit (.gpio_to_irq s1.gt1x_int_gpio) (emit (.gpio_direction_input s1.gt1x_int_gpio) s1)
        with client_irq := ge.irq_number }
  let s3 := gpio_request s2.gt1x_rst_gpio ge.rst_ret s2
  let s4 := emit (.gpio_direction_input s3.gt1x_rst_gpio) s3
  let s5 := gpio_request s4.gt1x_pwr_gpio ge.pwr_ret s4
  let s6 := gpio_request s5.gt1x_pwrio_gpio ge.pwrio_ret s5
  let ret := if ge.pwrio_ret < 0 then -ENODEV else ge.pwrio_ret
  (ret, s6)

/-- Source function `gt1x_request_irq` (lines 570-590). -/
def gt1x_request_irq (irq_ret : Int) (s : Dev) : Int × Dev :=
  let s1 := emit (.devm_request_threaded_irq irq_ret) s
  if irq_ret ≠ 0 then (-1, s1) else (0, gt1x_irq_disable s1)

/-- What the callees of `gt1x_request_input_dev` produce. -/
structure InputEnv where
  /-- Result of `input_allocate_device` (`none` = NULL). -/
  alloc : Option Nat
  register_ret : Int
  deriving DecidableEq, Repr

/-- Source function `gt1x_request_input_dev` (lines 597-656).  The capability and axis set-up
between allocation and registration only writes members of the new `input_dev`
object, which the state does not carry (the axis part is `input_abs_setup`).  The local `ret` and the return type are
`s8`. -/
def gt1x_request_input_dev (ie : InputEnv) (s : Dev) : Int × Dev :=
  let s1 := { emit .input_allocate_device s with input_dev := ie.alloc }
  match s1.input_dev with
  | none => (s8 (-ENOMEM), s1)
  | some _ =>
    let s2 := emit (.input_register_device ie.register_ret) s1
    if s8 ie.register_ret ≠ 0 then (s8 (-ENODEV), s2) else (0, s2)

/-! ## Attach (`gt1x_ts_probe`) -/

/-- What the callees of one `gt1x_ts_probe` run produce, call site by call
site. -/
structure ProbeEnv where
  /-- Result of `gtp_ts_check_dt`. -/
  check_dt_ret : Int
  /-- Result of `gtp_ts_check_default_tp`. -/
  check_default_tp_ret : Int
  /-- Result of `i2c_check_functionality`. -/
  i2c_functionality : Bool
  /-- Whether `client->dev.of_node != NULL`. -/
  has_of_node : Bool
  dt : DtEnv
  pinctrl : PinctrlEnv
  /-- Result of `pinctrl_select_state(..., pinctrl_poweroff)`. -/
  select_poweroff_ret : Int
  gpio : GpioEnv
  /-- The `gt1x_power_switch(SWITCH_ON)` of line 802. -/
  power_on : PowerEnv
  /-- First `gt1x_reset_guitar` (line 809). -/
  reset_ret : Int
  /-- The `gt1x_power_switch(SWITCH_OFF)` of line 811. -/
  retry_off : PowerEnv
  /-- The `gt1x_power_switch(SWITCH_ON)` of line 814. -/
  retry_on : PowerEnv
  /-- Second `gt1x_reset_guitar` (line 817). -/
  retry_reset_ret : Int
  input : InputEnv
  /-- Result of `devm_request_threaded_irq`. -/
  irq_ret : Int
  /-- The `gt1x_power_switch(SWITCH_OFF)` inside `gt1x_release_resource`. -/
  cleanup_off : PowerEnv
  deriving DecidableEq, Repr

/-- Label `exit_clean` of `gt1x_ts_probe` (lines 860-863). -/
def probe_exit_clean (cfg : Config) (env : ProbeEnv) (s : Dev) : Option (Int × Dev) :=
  (gt1x_release_resource cfg env.cleanup_off s).map (fun s1 => (-ENODEV, s1))

/-- Labels `err_irq` / `err_input` of `gt1x_ts_probe` (lines 857-859). -/
def probe_err_input (cfg : Config) (env : ProbeEnv) (s : Dev) : Option (Int × Dev) :=
  probe_exit_clean cfg env (emit .gt1x_deinit s)

/-- Lines 824-855 of `gt1x_ts_probe`: everything after reset-and-verify has
succeeded. -/
def probe_after_reset (cfg : Config) (env : ProbeEnv) (s : Dev) : Option (Int × Dev) :=
  let s1 := emit .gt1x_init s
  let r1 := gt1x_request_input_dev env.input s1
  if r1.1 < 0 then
    probe_err_input cfg env r1.2
  else
    let r2 := gt1x_request_irq env.irq_ret r1.2
    if r2.1 < 0 then
      probe_err_input cfg env r2.2
    else
      let s2 :=
        if cfg.GTP_ESD_PROTECT then
          emit (.gt1x_esd_switch SWITCH_ON) (emit .gt1x_init_esd_protect r2.2)
        else r2.2
      let s3 := if cfg.GTP_AUTO_UPDATE then emit .kthread_run s2 else s2
      let s4 := emit .gt1x_register_powermanger s3
      some (0, gt1x_irq_enable s4)

/-- Lines 808-822 of `gt1x_ts_probe`: reset-and-verify with one retry. -/
def probe_reset (cfg : Config) (env : ProbeEnv) (s : Dev) : Option (Int × Dev) :=
  let s1 := emit (.gt1x_reset_guitar env.reset_ret) s
  if env.reset_ret ≠ 0 then
    let r1 := gt1x_power_switch env.retry_off SWITCH_OFF s1
    if r1.1 < 0 then
      probe_exit_clean cfg env r1.2
    else
      let r2 := gt1x_power_switch env.retry_on SWITCH_ON r1.2
      if r2.1 < 0 then
        probe_exit_clean cfg env r2.2
      else
        let s2 := emit (.gt1x_reset_guitar env.retry_reset_ret) r2.2
        if env.retry_reset_ret ≠ 0 then
          probe_exit_clean cfg env s2
        else
          probe_after_reset cfg env s2
  else
    probe_after_reset cfg env s1

/-- Lines 786-788 of `gt1x_ts_probe`: select the poweroff pin state when both
the handle and the state are non-NULL; `ret` keeps its value otherwise. -/
def probe_select_poweroff (env : ProbeEnv) (ret : Int) (s : Dev) : Int × Dev :=
  match s.gt_pinctrl with
  | some p =>
    if p.ts_pinctrl ≠ .null ∧ p.pinctrl_poweroff ≠ .null then
      (env.select_poweroff_ret,
        emit (.pinctrl_select_state .poweroff env.select_poweroff_ret) s)
    else (ret, s)
  | none => (ret, s)

/-- Lines 779-806 of `gt1x_ts_probe`: pin-mux, GPIOs, first power-on. -/
def probe_acquire (cfg : Config) (env : ProbeEnv) (s : Dev) : Option (Int × Dev) :=
  let r1 := goodix_pinctrl_init env.pinctrl s
  if r1.1 < 0 then
    probe_exit_clean cfg env r1.2
  else
    let r2 := probe_select_poweroff env r1.1 r1.2
    if r2.1 < 0 then
      probe_exit_clean cfg env r2.2
    else
      let r3 := gt1x_request_gpio env.gpio r2.2
      if r3.1 < 0 then
        probe_exit_clean cfg env r3.2
      else
        let r4 := gt1x_power_switch env.power_on SWITCH_ON r3.2
        if r4.1 < 0 then
          probe_exit_clean cfg env r4.2
        else
          probe_reset cfg env r4.2

/-- Source function `gt1x_ts_probe` (lines 737-864).  The result is `none` when the run
dereferences a NULL `gt_pinctrl` inside `gt1x_release_resource`. -/
def gt1x_ts_probe (cfg : Config) (env : ProbeEnv) (s : Dev) : Option (Int × Dev) :=
  if cfg.DRM = true ∧ env.check_dt_ret ≠ 0 then
    some (if env.check_default_tp_ret = 0 then -EPROBE_DEFER else -ENODEV, s)
  else
    let s1 := { s with client_bound := true }
    if !env.i2c_functionality then
      some (-ENODEV, s1)
    else
      let r := if env.has_of_node then gt1x_parse_dt cfg env.dt false s1 else (-1, s1)
      if env.has_of_node = true ∧ r.1 < 0 then
        some (-EINVAL, r.2)
      else
        probe_acquire cfg env r.2

/-! ## Auxiliary definitions used by the statements and proofs -/

/-- Flag, line depth and one-bit counter agree. -/
def GateAgree (s : Dev) (c : Nat) : Prop :=
  (s.irq_disabled = 0 ∧ s.irq_depth = 0 ∧ c = 0) ∨
  (s.irq_disabled = 1 ∧ s.irq_depth = 1 ∧ c = 1)

/-- The all-zero state of the file-scope variables at module load. -/
def Dev.init : Dev :=
  { irq_disabled := 0, irq_depth := 0, log := [], client_bound := false, client_irq := 0,
    input_dev := none, gt_pinctrl := none, vdd_ana := none, vcc_i2c := none,
    gt1x_rst_gpio := 0, gt1x_pwr_gpio := 0, gt1x_int_gpio := 0, gt1x_pwrio_gpio := 0,
    gpio_held := [] }

/-- The state right after the top half has claimed an interrupt on a freshly
loaded driver: flag 1, line depth 1. -/
def Dev.claimed : Dev :=
  (gt1x_ts_irq_handler Dev.init).2

/-- The calls a `gt1x_ts_work_thread` run adds to the log. -/
def issued (cfg : Config) (env : WorkEnv) (s : Dev) : List Action :=
  (gt1x_ts_work_thread cfg env s).2.log.drop s.log.length

/-- Acknowledgment writes (any `gt1x_i2c_write`). -/
def isWrite : Action → Bool
  | .gt1x_i2c_write _ _ => true
  | _ => false

/-- Decoder invocations (any `gt1x_touch_event_handler`). -/
def isDecode : Action → Bool
  | .gt1x_touch_event_handler _ _ => true
  | _ => false

/-- A configuration with every optional feature compiled out. -/
def Config.plain : Config :=
  { GTP_GESTURE_WAKEUP := false, GTP_ESD_PROTECT := false, HOTKNOT_BLOCK_RW := false,
    GTP_PROXIMITY := false, GTP_WITH_STYLUS := false, GTP_AUTO_UPDATE := false, DRM := false,
    GTP_READ_COOR_ADDR := 0x814E, ERROR_VALUE := -2147418112, ARCH_NR_GPIOS := 512 }

/-- An interrupt arriving while a firmware update is in progress. -/
def WorkEnv.fwUpdate : WorkEnv :=
  { update_status := 1, gesture_ret := -1, gt1x_halt := 0, read_ret := 0,
    point_data := [0x81, 100, 0, 200, 0, 50, 0, 0, 0, 0, 0], hotknot_paired_flag := 0,
    hotknot_ret := 0, prox_ret := 0, touch_ret := 0, gt1x_rawdiff_mode := 0, write_ret := 0 }

/-- An interrupt arriving after suspend has set `gt1x_halt`. -/
def WorkEnv.halted : WorkEnv :=
  { WorkEnv.fwUpdate with update_status := 0, gt1x_halt := 1 }

/-- The state in which `gt1x_i2c_read` is called, when it is called. -/
def beforeRead (cfg : Config) (s : Dev) : Dev :=
  if cfg.GTP_GESTURE_WAKEUP then emit .gesture_event_handler s else s

/-- The run reaches the report read. -/
def ReachesRead (cfg : Config) (env : WorkEnv) : Prop :=
  env.update_status = 0 ∧ ¬ (cfg.GTP_GESTURE_WAKEUP = true ∧ env.gesture_ret ≥ 0) ∧
    env.gt1x_halt = 0

/-- How a `gt1x_ts_work_thread` run leaves the function: a plain `return`, the
label `exit_eint`, or the label `exit_work_func` with the current `ret`. -/
inductive WorkExit where
  | early
  | eint
  | work (ret : Int)
  deriving DecidableEq, Repr

/-- Leave the function through the given exit. -/
def finish (cfg : Config) (env : WorkEnv) : WorkExit → Dev → IrqReturn × Dev
  | .early, s => (.IRQ_HANDLED, s)
  | .eint, s => exit_eint s
  | .work ret, s => exit_work_func cfg env ret s

/-- The state with further calls appended to the log. -/
def Dev.extend (s : Dev) (l : List Action) : Dev :=
  { s with log := s.log ++ l }

/-- Path summary of `work_decode`: calls issued before the exit label, and the
exit taken. -/
def decodePath (cfg : Config) (env : WorkEnv) : List Action × WorkExit :=
  let hk := if cfg.HOTKNOT_BLOCK_RW then [Action.hotknot_event_handler env.point_data] else []
  let px := hk ++ (if cfg.GTP_PROXIMITY then [Action.gt1x_prox_event_handler env.point_data]
                    else [])
  if cfg.HOTKNOT_BLOCK_RW = true ∧ env.hotknot_ret = 0 then (hk, .work env.hotknot_ret)
  else if cfg.GTP_PROXIMITY = true ∧ env.prox_ret > 0 then (px, .work env.prox_ret)
  else
    (px ++ [Action.gt1x_touch_event_handler env.point_data cfg.GTP_WITH_STYLUS],
      .work env.touch_ret)

/-- Path summary of `work_dispatch`. -/
def dispatchPath (cfg : Config) (env : WorkEnv) : List Action × WorkExit :=
  let rq := if fingerByte env = 0 then [Action.gt1x_request_event_handler] else []
  if fingerByte env &&& 0x80 = 0 ∧
      (cfg.HOTKNOT_BLOCK_RW = false ∨ env.hotknot_paired_flag = 0) then (rq, .eint)
  else (rq ++ (decodePath cfg env).1, (decodePath cfg env).2)

/-- Path summary of `gt1x_ts_work_thread`. -/
def workPath (cfg : Config) (env : WorkEnv) : List Action × WorkExit :=
  let g := if cfg.GTP_GESTURE_WAKEUP then [Action.gesture_event_handler] else []
  let rd := g ++ [Action.gt1x_i2c_read cfg.GTP_READ_COOR_ADDR 11]
  if env.update_status ≠ 0 then ([], .early)
  else if cfg.GTP_GESTURE_WAKEUP = true ∧ env.gesture_ret ≥ 0 then (g, .work env.gesture_ret)
  else if env.gt1x_halt ≠ 0 then (g, .early)
  else if env.read_ret < 0 then
    (rd ++ (if cfg.GTP_ESD_PROTECT then [] else [Action.gt1x_power_reset]), .work env.read_ret)
  else (rd ++ (dispatchPath cfg env).1, (dispatchPath cfg env).2)

/-- The calls issued from the exit label on, given the flag on entry. -/
def exitCalls (cfg : Config) (env : WorkEnv) (flag : Int) : WorkExit → List Action
  | .early => []
  | .eint => if flag ≠ 0 then [Action.enable_irq] else []
  | .work ret =>
    (if env.gt1x_rawdiff_mode = 0 ∧ (ret ≥ 0 ∨ ret = cfg.ERROR_VALUE) then
        [Action.gt1x_i2c_write cfg.GTP_READ_COOR_ADDR [0]] else []) ++
      (if flag ≠ 0 then [Action.enable_irq] else [])

/-- A report read that fails with `-EIO`. -/
def WorkEnv.readFail : WorkEnv :=
  { WorkEnv.fwUpdate with update_status := 0, read_ret := -5 }

/-- A touch frame (status byte 0x81) that is decoded, with the acknowledgment
write failing with `-EIO`. -/
def WorkEnv.touchFrame : WorkEnv :=
  { WorkEnv.fwUpdate with update_status := 0, write_ret := -5 }

/-- The calls a `gt1x_ts_probe` run adds to the log (empty when the run
crashes). -/
def probeIssued (cfg : Config) (env : ProbeEnv) (s : Dev) : List Action :=
  match gt1x_ts_probe cfg env s with
  | some r => r.2.log.drop s.log.length
  | none => []

/-- A nominal attach: every lookup and request succeeds, the chip answers the
first reset. INT is GPIO 80, RST 71, pwr 68, pwrio 69. -/
def ProbeEnv.ok : ProbeEnv :=
  { check_dt_ret := 0, check_default_tp_ret := 0, i2c_functionality := true,
    has_of_node := true,
    dt := { int_gpio := 80, rst_gpio := 71, pwr_gpio := 68, pwrio_gpio := 69,
            vdd_ana_get := .valid 1, vdd_ana_disable_ret := -5, vcc_i2c_get := .valid 2 },
    pinctrl := { kmalloc_result := some GoodixPinctrl.cleared, pinctrl_get := .valid 3,
                 wakeup := .valid 4, normal := .valid 5, poweroff := .valid 6,
                 sleep := .valid 7 },
    select_poweroff_ret := 0,
    gpio := { int_ret := 0, rst_ret := 0, pwr_ret := 0, pwrio_ret := 0, irq_number := 200 },
    power_on := { regulator_ret := 0, uninit_ret := 0 },
    reset_ret := 0,
    retry_off := { regulator_ret := 0, uninit_ret := 0 },
    retry_on := { regulator_ret := 0, uninit_ret := 0 },
    retry_reset_ret := 0,
    input := { alloc := some 8, register_ret := 0 },
    irq_ret := 0,
    cleanup_off := { regulator_ret := 0, uninit_ret := 0 } }

/-- As `ProbeEnv.ok`, but `gpio_request` of the interrupt GPIO fails with
`-EBUSY`. -/
def ProbeEnv.intGpioBusy : ProbeEnv :=
  { ProbeEnv.ok with gpio := { ProbeEnv.ok.gpio with int_ret := -16 } }

/-- As `ProbeEnv.ok`, but the lookup of pin state "pmx_ts_normal" fails with
`ERR_PTR(-ENODEV)`. -/
def ProbeEnv.normalMissing : ProbeEnv :=
  { ProbeEnv.ok with pinctrl := { ProbeEnv.ok.pinctrl with normal := .err 19 } }

/-- As `ProbeEnv.ok`, but there is no analog rail (`regulator_get` fails with
`ERR_PTR(-ENODEV)`) and the unassigned local `ret` of `gt1x_power_switch`
happens to hold -1. -/
def ProbeEnv.noRail : ProbeEnv :=
  { ProbeEnv.ok with
    dt := { ProbeEnv.ok.dt with vdd_ana_get := .err 19 },
    power_on := { regulator_ret := 0, uninit_ret := -1 } }

/-- The driver state after the nominal attach. -/
def Dev.attached : Dev :=
  match gt1x_ts_probe Config.plain ProbeEnv.ok Dev.init with
  | some r => r.2
  | none => Dev.init

/-- The calls the second of two back-to-back `gt1x_release_resource` calls
issues, starting from `s`. -/
def secondReleaseCalls (cfg : Config) (pe : PowerEnv) (s : Dev) : Option (List Action) :=
  match gt1x_release_resource cfg pe s with
  | none => none
  | some s1 =>
    match gt1x_release_resource cfg pe s1 with
    | none => none
    | some s2 => some (s2.log.drop s1.log.length)

/-- A state in which the driver holds nothing: GPIO numbers parsed, `gt_pinctrl`
allocated with all members NULL, no regulator, no input device, no GPIO
requested. -/
def Dev.nothingAcquired : Dev :=
  { Dev.init with client_bound := true, gt_pinctrl := some GoodixPinctrl.cleared,
                  gt1x_int_gpio := 80, gt1x_rst_gpio := 71, gt1x_pwr_gpio := 68,
                  gt1x_pwrio_gpio := 69 }

/-- The calls one `gt1x_release_resource` call issues, starting from `s`. -/
def releaseCalls (cfg : Config) (pe : PowerEnv) (s : Dev) : Option (List Action) :=
  (gt1x_release_resource cfg pe s).map (fun s1 => s1.log.drop s.log.length)

/-- Calls to `gt1x_reset_guitar`, whatever they return. -/
def isReset : Action → Bool
  | .gt1x_reset_guitar _ => true
  | _ => false

/-- Calls that give a resource back: `gpio_free`, `regulator_put`,
`input_unregister_device`. -/
def isRelease : Action → Bool
  | .gpio_free _ => true
  | .regulator_put _ => true
  | .input_unregister_device => true
  | _ => false

/-- Calls of the bring-up steps after reset-and-verify: `gt1x_init`,
`input_allocate_device`, `devm_request_threaded_irq`. -/
def isLate : Action → Bool
  | .gt1x_init => true
  | .input_allocate_device => true
  | .devm_request_threaded_irq _ => true
  | _ => false

/-- The value `gt1x_power_switch` returns when the client is bound. -/
def powerRet (pe : PowerEnv) (s : Dev) : Int :=
  if s.vdd_ana.isSome then pe.regulator_ret else pe.uninit_ret

/-- The calls `gt1x_power_switch` issues when the client is bound. -/
def powerCalls (pe : PowerEnv) (sw : Int) (s : Dev) : List Action :=
  if sw ≠ 0 then
    [.gpio_direction_output s.gt1x_pwr_gpio 1, .gpio_direction_output s.gt1x_pwrio_gpio 1] ++
      (if s.vdd_ana.isSome then [.regulator_enable .vdd_ana pe.regulator_ret] else []) ++
      [.usleep_range 10000 10100]
  else
    [.gpio_direction_output s.gt1x_pwr_gpio 0, .gpio_direction_output s.gt1x_pwrio_gpio 0] ++
      (if s.vdd_ana.isSome then
        [.regulator_disable .vdd_ana pe.regulator_ret, .regulator_set_load .vdd_ana 0] else []) ++
      [.usleep_range 10000 10100]

/-- First part of the cleanup: the INT and RST GPIOs. -/
def releaseGpioCalls (cfg : Config) (s : Dev) : List Action :=
  (if gpio_is_valid cfg s.gt1x_int_gpio then
    [.gpio_direction_input s.gt1x_int_gpio, .gpio_free s.gt1x_int_gpio] else []) ++
  (if gpio_is_valid cfg s.gt1x_rst_gpio then
    [.gpio_direction_output s.gt1x_rst_gpio 0, .gpio_free s.gt1x_rst_gpio] else [])

/-- Second part of the cleanup: the analog rail, switched off and put, when it
is held. -/
def releaseRailCalls (pe : PowerEnv) (s : Dev) : List Action :=
  if s.vdd_ana.isSome then powerCalls pe SWITCH_OFF s ++ [.regulator_put .vdd_ana] else []

/-- Third part of the cleanup: the pin-mux handle, put when it is held. -/
def releasePinCalls (s : Dev) : List Action :=
  match s.gt_pinctrl with
  | some p => if p.ts_pinctrl ≠ .null then [.devm_pinctrl_put] else []
  | none => []

/-- Fourth part of the cleanup: the input device, unregistered when it is
held. -/
def releaseInputCalls (s : Dev) : List Action :=
  if s.input_dev.isSome then [.input_unregister_device] else []

/-- The GPIO numbers still requested after the cleanup. -/
def heldAfterRelease (cfg : Config) (s : Dev) : List Int :=
  let h1 := if gpio_is_valid cfg s.gt1x_int_gpio then
    s.gpio_held.filter (fun g => g ≠ s.gt1x_int_gpio) else s.gpio_held
  if gpio_is_valid cfg s.gt1x_rst_gpio then h1.filter (fun g => g ≠ s.gt1x_rst_gpio) else h1

/-- The client is bound and `gt_pinctrl` points to an object. -/
def Good (s : Dev) : Prop :=
  s.client_bound = true ∧ s.gt_pinctrl ≠ none

/-- Calls that are a reset, a release, or a late bring-up step. -/
def isMilestone (a : Action) : Bool :=
  isReset a || isRelease a || isLate a

/-- Calls that are a reset or a release. -/
def isResetOrRelease (a : Action) : Bool :=
  isReset a || isRelease a

/-- State `t` is reached from `s` by appending calls none of which satisfies
`P`. -/
def Quiet (P : Action → Bool) (s t : Dev) : Prop :=
  ∃ l, t.log = s.log ++ l ∧ ∀ a ∈ l, P a = false

/-- The run gets as far as pin-mux initialisation (line 779): the panel check,
the I2C functionality check and device-tree parsing all pass. -/
def ReachesAcquire (cfg : Config) (env : ProbeEnv) (s : Dev) : Prop :=
  ¬ (cfg.DRM = true ∧ env.check_dt_ret ≠ 0) ∧ env.i2c_functionality = true ∧
  ¬ (env.has_of_node = true ∧
      (gt1x_parse_dt cfg env.dt false { s with client_bound := true }).1 < 0)

/-- The state in which `gt1x_ts_probe` enters pin-mux initialisation. -/
def acquireEntry (cfg : Config) (env : ProbeEnv) (s : Dev) : Dev :=
  if env.has_of_node then (gt1x_parse_dt cfg env.dt false { s with client_bound := true }).2
  else { s with client_bound := true }

/-- All calls of the cleanup, in the order `gt1x_release_resource` issues them:
INT and RST GPIOs, analog rail, pin-mux handle, input device. -/
def cleanupCalls (cfg : Config) (pe : PowerEnv) (s : Dev) : List Action :=
  releaseGpioCalls cfg s ++ releaseRailCalls pe s ++ releasePinCalls s ++ releaseInputCalls s

/-- State after the first reset of the reset-and-verify stage entered in `s`. -/
def afterFirstReset (env : ProbeEnv) (s : Dev) : Dev :=
  emit (.gt1x_reset_guitar env.reset_ret) s

/-- State after the power-off of the retry. -/
def afterRetryOff (env : ProbeEnv) (s : Dev) : Dev :=
  (afterFirstReset env s).extend (powerCalls env.retry_off SWITCH_OFF s)

/-- State after the power-on of the retry. -/
def afterRetryOn (env : ProbeEnv) (s : Dev) : Dev :=
  (afterRetryOff env s).extend (powerCalls env.retry_on SWITCH_ON s)

/-- State after the second reset. -/
def afterSecondReset (env : ProbeEnv) (s : Dev) : Dev :=
  emit (.gt1x_reset_guitar env.retry_reset_ret) (afterRetryOn env s)

/-- The GPIO numbers a log shows as successfully requested. -/
def requestedGpios (l : List Action) : List Int :=
  l.filterMap (fun a =>
    match a with
    | .gpio_request g r => if r < 0 then none else some g
    | _ => none)

/-- The GPIO numbers a log shows as freed. -/
def freedGpios (l : List Action) : List Int :=
  l.filterMap (fun a =>
    match a with
    | .gpio_free g => some g
    | _ => none)

/-- As `ProbeEnv.ok`, but `devm_pinctrl_get` fails with `ERR_PTR(-ENODEV)`: the
very first acquisition step fails. -/
def ProbeEnv.pinctrlGetFails : ProbeEnv :=
  { ProbeEnv.ok with pinctrl := { ProbeEnv.ok.pinctrl with pinctrl_get := .err 19 } }

/-- As `ProbeEnv.ok`, but the chip answers neither the first reset nor the
retry. -/
def ProbeEnv.chipSilent : ProbeEnv :=
  { ProbeEnv.ok with reset_ret := -1, retry_reset_ret := -1 }

/-- The final state of a `gt1x_ts_probe` run (the initial one when the run
crashes). -/
def probeFinal (cfg : Config) (env : ProbeEnv) (s : Dev) : Dev :=
  match gt1x_ts_probe cfg env s with
  | some r => r.2
  | none => s

/-- What follows the first `gt1x_reset_guitar` of a probe run that entered
reset-and-verify in state `mid`, returned `ret`, and issued `post` after that
first reset. -/
def RetrySpec (cfg : Config) (env : ProbeEnv) (mid : Dev) (ret : Int) (post : List Action) :
    Prop :=
  -- first attempt succeeds: straight on to `gt1x_init`, no further reset
  (env.reset_ret = 0 ∧ post.head? = some .gt1x_init ∧ post.filter isReset = []) ∨
  -- first attempt fails, power-off fails: cleanup at once
  (env.reset_ret ≠ 0 ∧ powerRet env.retry_off mid < 0 ∧ ret = -ENODEV ∧
    post = powerCalls env.retry_off SWITCH_OFF mid ++ cleanupCalls cfg env.cleanup_off mid) ∨
  -- first attempt fails, power-off succeeds, power-on fails: cleanup
  (env.reset_ret ≠ 0 ∧ 0 ≤ powerRet env.retry_off mid ∧ powerRet env.retry_on mid < 0 ∧
    ret = -ENODEV ∧
    post = powerCalls env.retry_off SWITCH_OFF mid ++ powerCalls env.retry_on SWITCH_ON mid ++
      cleanupCalls cfg env.cleanup_off mid) ∨
  -- power cycle succeeds, the retry fails: cleanup, no late bring-up step
  (env.reset_ret ≠ 0 ∧ 0 ≤ powerRet env.retry_off mid ∧ 0 ≤ powerRet env.retry_on mid ∧
    env.retry_reset_ret ≠ 0 ∧ ret = -ENODEV ∧
    post = powerCalls env.retry_off SWITCH_OFF mid ++ powerCalls env.retry_on SWITCH_ON mid ++
      [.gt1x_reset_guitar env.retry_reset_ret] ++ cleanupCalls cfg env.cleanup_off mid ∧
    post.filter isLate = []) ∨
  -- power cycle succeeds, the retry succeeds: on to `gt1x_init`, no further reset
  (env.reset_ret ≠ 0 ∧ 0 ≤ powerRet env.retry_off mid ∧ 0 ≤ powerRet env.retry_on mid ∧
    env.retry_reset_ret = 0 ∧
    ∃ rest, post = powerCalls env.retry_off SWITCH_OFF mid ++
        powerCalls env.retry_on SWITCH_ON mid ++
        [.gt1x_reset_guitar env.retry_reset_ret] ++ rest ∧
      rest.head? = some .gt1x_init ∧ rest.filter isReset = [])

/-- As `ProbeEnv.ok`, but the chip does not answer the first reset and the
`regulator_disable` of the following power-off fails with `-EIO`. -/
def ProbeEnv.offFails : ProbeEnv :=
  { ProbeEnv.ok with reset_ret := -1, retry_off := { regulator_ret := -5, uninit_ret := 0 } }

/-- As `ProbeEnv.ok`, but the chip answers only the retry. -/
def ProbeEnv.secondTry : ProbeEnv :=
  { ProbeEnv.ok with reset_ret := -1 }

/-- The maximum declared for an axis by `gt1x_request_input_dev`. -/
def declaredMax (ic : InputConfig) (axis : AbsAxis) : Option Int :=
  ((input_abs_setup ic).find? (fun t => t.1 = axis)).map (fun t => t.2.2)

/-- The values a log reports for an axis, oldest first. -/
def reportedAbs (axis : AbsAxis) (l : List Action) : List Int :=
  l.filterMap (fun a =>
    match a with
    | .input_report_abs ax v => if ax = axis then some v else none
    | _ => none)

/-- Calls that report touch data to the input core. -/
def isTouchEvent : Action → Bool
  | .input_report_key _ _ => true
  | .input_mt_slot _ => true
  | .input_mt_report_slot_state _ => true
  | .input_report_abs _ _ => true
  | .input_mt_sync => true
  | _ => false

/-- The calls of one `gt1x_touch_down(x, y, size, id)`. -/
def touchDownCalls (ic : InputConfig) (x y size id : Int) : List Action :=
  [.input_report_key .BTN_TOUCH 1] ++
  (if ic.GTP_TYPE_B_PROTOCOL then [.input_mt_slot id, .input_mt_report_slot_state true]
   else [.input_report_abs .ABS_MT_TRACKING_ID id]) ++
  [.input_report_abs .ABS_MT_POSITION_X (if ic.GTP_CHANGE_X2Y then y else x),
   .input_report_abs .ABS_MT_POSITION_Y (if ic.GTP_CHANGE_X2Y then x else y),
   .input_report_abs .ABS_MT_PRESSURE size,
   .input_report_abs .ABS_MT_TOUCH_MAJOR size] ++
  (if ic.GTP_TYPE_B_PROTOCOL then [] else [.input_mt_sync])

/-- A 1080 x 2160 panel, type-B protocol, no axis swap. -/
def InputConfig.panel : InputConfig :=
  { GTP_CHANGE_X2Y := false, GTP_TYPE_B_PROTOCOL := true, gt1x_abs_x_max := 1080,
    gt1x_abs_y_max := 2160 }

/-- A report with status byte 0x02 (bit 0x80 clear) whose first slot, in the
vendor layout id, x low, x high, y low, y high, size low, size high, reads slot 0
at (100, 200) with size 50. -/
def WorkEnv.statusTwo : WorkEnv :=
  { WorkEnv.fwUpdate with
    update_status := 0
    point_data := [0x02, 0, 100, 0, 200, 0, 50, 0, 0, 0, 0] }

/-- A report with status byte 0x00. -/
def WorkEnv.statusZero : WorkEnv :=
  { WorkEnv.fwUpdate with
    update_status := 0
    point_data := [0, 0, 0, 0, 0, 0, 0, 0, 0, 0, 0] }

/-- The plain configuration with the proximity feature compiled in. -/
def Config.withProximity : Config :=
  { Config.plain with GTP_PROXIMITY := true }

/-- A touch frame (status byte 0x81) that the proximity handler claims. -/
def WorkEnv.proximityClaims : WorkEnv :=
  { WorkEnv.fwUpdate with update_status := 0, prox_ret := 1 }

/-- The calls of one `gt1x_touch_up(id)`. -/
def touchUpCalls (ic : InputConfig) (id : Int) : List Action :=
  if ic.GTP_TYPE_B_PROTOCOL then [.input_mt_slot id, .input_mt_report_slot_state false]
  else [.input_mt_sync]

/-- The power state: level of the pwr and pwrio GPIOs (`none` = never driven),
net enable count of the analog rail, active pin-mux state (`none` = none
selected). -/
structure PowerState where
  pwr_level : Option Int
  pwrio_level : Option Int
  rail_count : Int
  pin_state : Option PinState
  deriving DecidableEq, Repr

/-- The power state before the driver has done anything. -/
def PowerState.init : PowerState :=
  { pwr_level := none, pwrio_level := none, rail_count := 0, pin_state := none }

/-- Modelled from the spec: the effect of one outgoing call on the power state;
the kernel functions behind the calls are not among the sources.  A GPIO holds
the last value driven on it; a `regulator_enable` / `regulator_disable` of the
analog rail that does not fail (the driver's test is `ret < 0`) adds / removes
one enable; a `pinctrl_select_state` that does not fail makes its state the
active one.  `pwr` and `pwrio` are the numbers of the two power GPIOs. -/
def powerStep (pwr pwrio : Int) (p : PowerState) : Action → PowerState
  | .gpio_direction_output g v =>
    { p with pwr_level := if g = pwr then some v else p.pwr_level,
             pwrio_level := if g = pwrio then some v else p.pwrio_level }
  | .regulator_enable .vdd_ana ret =>
    if ret < 0 then p else { p with rail_count := p.rail_count + 1 }
  | .regulator_disable .vdd_ana ret =>
    if ret < 0 then p else { p with rail_count := p.rail_count - 1 }
  | .pinctrl_select_state st ret =>
    if ret < 0 then p else { p with pin_state := some st }
  | _ => p

/-- The power state a log of calls leads to. -/
def powerState (pwr pwrio : Int) (l : List Action) : PowerState :=
  l.foldl (powerStep pwr pwrio) PowerState.init

/-- The state in which a run entering pin-mux initialisation (line 779) in `s`
reaches reset-and-verify (line 809), if it does: lines 779-806 with every
failure exit mapped to `none`. -/
def resetEntry (env : ProbeEnv) (s : Dev) : Option Dev :=
  let r1 := goodix_pinctrl_init env.pinctrl s
  if r1.1 < 0 then none
  else
    let r2 := probe_select_poweroff env r1.1 r1.2
    if r2.1 < 0 then none
    else
      let r3 := gt1x_request_gpio env.gpio r2.2
      if r3.1 < 0 then none
      else
        let r4 := gt1x_power_switch env.power_on SWITCH_ON r3.2
        if r4.1 < 0 then none else some r4.2

/-- The state in which the nominal attach reaches reset-and-verify. -/
def Dev.atReset : Dev :=
  (resetEntry ProbeEnv.ok (acquireEntry Config.plain ProbeEnv.ok Dev.init)).getD Dev.init

/-- How a run of lines 779-864 of `gt1x_ts_probe` ends: at `return 0` in state
`s`, or at a `goto exit_clean` (directly or through `err_input` / `err_irq`)
with the driver in state `mid` at the moment the cleanup starts. -/
inductive ProbeExit where
  | done (s : Dev)
  | clean (mid : Dev)
  deriving DecidableEq, Repr

/-- What follows the end of the run: `return 0`, or label `exit_clean`. -/
def ProbeExit.finish (cfg : Config) (env : ProbeEnv) : ProbeExit → Option (Int × Dev)
  | .done s => some (0, s)
  | .clean mid => probe_exit_clean cfg env mid

/-- Path summary of lines 824-859 (`probe_after_reset`): the same steps, ending
where the function returns 0 or where it jumps to the cleanup (after
`gt1x_deinit`). -/
def afterResetExit (cfg : Config) (env : ProbeEnv) (s : Dev) : ProbeExit :=
  let s1 := emit .gt1x_init s
  let r1 := gt1x_request_input_dev env.input s1
  if r1.1 < 0 then
    .clean (emit .gt1x_deinit r1.2)
  else
    let r2 := gt1x_request_irq env.irq_ret r1.2
    if r2.1 < 0 then
      .clean (emit .gt1x_deinit r2.2)
    else
      let s2 :=
        if cfg.GTP_ESD_PROTECT then
          emit (.gt1x_esd_switch SWITCH_ON) (emit .gt1x_init_esd_protect r2.2)
        else r2.2
      let s3 := if cfg.GTP_AUTO_UPDATE then emit .kthread_run s2 else s2
      let s4 := emit .gt1x_register_powermanger s3
      .done (gt1x_irq_enable s4)

/-- Path summary of lines 808-822 (`probe_reset`) and what follows. -/
def resetExit (cfg : Config) (env : ProbeEnv) (s : Dev) : ProbeExit :=
  let s1 := emit (.gt1x_reset_guitar env.reset_ret) s
  if env.reset_ret ≠ 0 then
    let r1 := gt1x_power_switch env.retry_off SWITCH_OFF s1
    if r1.1 < 0 then
      .clean r1.2
    else
      let r2 := gt1x_power_switch env.retry_on SWITCH_ON r1.2
      if r2.1 < 0 then
        .clean r2.2
      else
        let s2 := emit (.gt1x_reset_guitar env.retry_reset_ret) r2.2
        if env.retry_reset_ret ≠ 0 then
          .clean s2
        else
          afterResetExit cfg env s2
  else
    afterResetExit cfg env s1

/-- Path summary of lines 779-806 (`probe_acquire`) and what follows. -/
def acquireExit (cfg : Config) (env : ProbeEnv) (s : Dev) : ProbeExit :=
  let r1 := goodix_pinctrl_init env.pinctrl s
  if r1.1 < 0 then
    .clean r1.2
  else
    let r2 := probe_select_poweroff env r1.1 r1.2
    if r2.1 < 0 then
      .clean r2.2
    else
      let r3 := gt1x_request_gpio env.gpio r2.2
      if r3.1 < 0 then
        .clean r3.2
      else
        let r4 := gt1x_power_switch env.power_on SWITCH_ON r3.2
        if r4.1 < 0 then
          .clean r4.2
        else
          resetExit cfg env r4.2

/-- Calls that put the pin-mux handle. -/
def isPut : Action → Bool
  | .devm_pinctrl_put => true
  | _ => false

/-- Calls that give any resource back, the pin-mux handle included. -/
def isRelOrPut (a : Action) : Bool :=
  isRelease a || isPut a

/-- The driver state at the moment the cleanup starts in the run where the chip
answers neither reset. -/
def Dev.atCleanup : Dev :=
  match acquireExit Config.plain ProbeEnv.chipSilent
      (acquireEntry Config.plain ProbeEnv.chipSilent Dev.init) with
  | .clean mid => mid
  | .done s => s

/-- State `t` is reached from `s` by appending calls that free no GPIO, put no
regulator and unregister no input device, and that put the pin-mux handle at
most once - and if once, the handle is NULL in `t`, so the cleanup would not
put it again. -/
def PutAtMostOnce (s t : Dev) : Prop :=
  ∃ l, t.log = s.log ++ l ∧ (∀ a ∈ l, isRelease a = false) ∧
    (l.count .devm_pinctrl_put = 0 ∨
      (l.count .devm_pinctrl_put = 1 ∧ releasePinCalls t = []))

/-- The pin-mux handle is held: `gt_pinctrl->ts_pinctrl` is not NULL. -/
def pinHeld (s : Dev) : Bool :=
  match s.gt_pinctrl with
  | some p => decide (p.ts_pinctrl ≠ .null)
  | none => false

/-- A call that enables or disables a regulator. -/
def isRail : Action → Bool
  | .regulator_enable _ _ => true
  | .regulator_disable _ _ => true
  | _ => false

/-- The change one call makes to the net enable count of the analog rail, as in
`powerStep`. -/
def railStep : Action → Int
  | .regulator_enable .vdd_ana ret => if ret < 0 then 0 else 1
  | .regulator_disable .vdd_ana ret => if ret < 0 then 0 else -1
  | _ => 0

/-- The change a list of calls makes to the net enable count of the analog
rail. -/
def railDelta (l : List Action) : Int :=
  (l.map railStep).sum

/-- As `ProbeEnv.secondTry`, but the `regulator_disable` that `gt1x_parse_dt`
issues right after `regulator_get` ("disable first", line 345) succeeds. -/
def ProbeEnv.secondTryDisabled : ProbeEnv :=
  { ProbeEnv.secondTry with dt := { ProbeEnv.ok.dt with vdd_ana_disable_ret := 0 } }

/-- The state in which the run of `ProbeEnv.secondTryDisabled` reaches
reset-and-verify. -/
def Dev.atResetDisabled : Dev :=
  (resetEntry ProbeEnv.secondTryDisabled
    (acquireEntry Config.plain ProbeEnv.secondTryDisabled Dev.init)).getD Dev.init

/-- As `ProbeEnv.ok`, but the lookup of pin state "pmx_ts_wakeup" fails with
`ERR_PTR(-ENODEV)`, so `goodix_pinctrl_init` leaves through `exit_put`. -/
def ProbeEnv.wakeupMissing : ProbeEnv :=
  { ProbeEnv.ok with pinctrl := { ProbeEnv.ok.pinctrl with wakeup := .err 19 } }

/-! # Theorems -/

/-! ## Theorems: concurrency gate -/

theorem gateAgree_step (s : Dev) (c : Nat) (call : GateCall) (h : GateAgree s c) :
    GateAgree (call.apply s) (clampStep c call) := by
  rcases h with ⟨hf, hd, hc⟩ | ⟨hf, hd, hc⟩ <;> cases call <;>
    simp [GateAgree, GateCall.apply, clampStep, gt1x_irq_enable, gt1x_irq_disable,
      gt1x_ts_irq_handler, enable_irq, disable_irq, disable_irq_nosync, emit, hf, hd, hc]

theorem gateAgree_run (cs : List GateCall) :
    ∀ (s : Dev) (c : Nat), GateAgree s c →
      GateAgree (cs.foldl (fun st call => call.apply st) s) (cs.foldl clampStep c) := by
  induction cs with
  | nil => intro s c h; simpa using h
  | cons call rest ih =>
    intro s c h
    simp only [List.foldl_cons]
    exact ih _ _ (gateAgree_step s c call h)

/-- C1. Starting from flag 0 and line depth 0, after every call of every finite
sequence of `gt1x_irq_enable`, `gt1x_irq_disable` and top-half calls the line
depth equals `irq_disabled` and is at most 1, and the line is disabled exactly
when the one-bit clamped count of disables minus enables is 1.  On any state,
`gt1x_irq_disable` with the flag already set only issues `synchronize_irq`
(no physical disable, state otherwise unchanged) and `gt1x_irq_enable` with the
flag clear does nothing at all. -/
theorem gate_depth_matches_flag (s0 : Dev) (h0 : s0.irq_disabled = 0)
    (hd : s0.irq_depth = 0) (cs : List GateCall) (n : Nat) :
    (((runGate (cs.take n) s0).irq_depth : Int) = (runGate (cs.take n) s0).irq_disabled ∧
      (runGate (cs.take n) s0).irq_depth ≤ 1 ∧
      (0 < (runGate (cs.take n) s0).irq_depth ↔ clampedCount (cs.take n) = 1)) ∧
    (∀ t : Dev, t.irq_disabled ≠ 0 →
      gt1x_irq_disable t = emit .synchronize_irq t ∧
      physicalOps (gt1x_irq_disable t).log = physicalOps t.log) ∧
    (∀ t : Dev, t.irq_disabled = 0 → gt1x_irq_enable t = t) := by
  refine ⟨?_, ?_, ?_⟩
  · have h := gateAgree_run (cs.take n) s0 0 (Or.inl ⟨h0, hd, rfl⟩)
    unfold runGate clampedCount
    rcases h with ⟨hf, hd1, hc⟩ | ⟨hf, hd1, hc⟩ <;> simp [hf, hd1, hc]
  · intro t ht
    have h1 : gt1x_irq_disable t = emit .synchronize_irq t := by
      simp [gt1x_irq_disable, emit, ht]
    refine ⟨h1, ?_⟩
    rw [h1]
    simp [physicalOps, emit, List.filter_append]
  · intro t ht
    simp [gt1x_irq_enable, ht]

theorem gate_depth_matches_flag_witness :
    Dev.init.irq_disabled = 0 ∧ Dev.init.irq_depth = 0 ∧
    (((runGate ([GateCall.top_half, .disable, .enable, .enable].take 2) Dev.init).irq_depth : Int)
        = (runGate ([GateCall.top_half, .disable, .enable, .enable].take 2) Dev.init).irq_disabled ∧
      (runGate ([GateCall.top_half, .disable, .enable, .enable].take 2) Dev.init).irq_depth ≤ 1 ∧
      (0 < (runGate ([GateCall.top_half, .disable, .enable, .enable].take 2) Dev.init).irq_depth ↔
        clampedCount ([GateCall.top_half, .disable, .enable, .enable].take 2) = 1)) :=
  ⟨rfl, rfl,
    (gate_depth_matches_flag Dev.init rfl rfl [GateCall.top_half, .disable, .enable, .enable] 2).1⟩

/-- C3. The top half is a test-and-set: with the flag clear it sets the flag,
issues exactly one `disable_irq_nosync` and returns `IRQ_WAKE_THREAD`; with the
flag set it changes nothing and returns `IRQ_HANDLED`.  Hence the second of two
back-to-back top-half calls never wakes the thread. -/
theorem irq_handler_test_and_set (s : Dev) :
    (s.irq_disabled = 0 →
      gt1x_ts_irq_handler s =
        (.IRQ_WAKE_THREAD,
          { s with irq_disabled := 1, irq_depth := s.irq_depth + 1,
                   log := s.log ++ [.disable_irq_nosync] })) ∧
    (s.irq_disabled ≠ 0 → gt1x_ts_irq_handler s = (.IRQ_HANDLED, s)) ∧
    (gt1x_ts_irq_handler (gt1x_ts_irq_handler s).2).1 = .IRQ_HANDLED ∧
    (gt1x_ts_irq_handler (gt1x_ts_irq_handler s).2).2 = (gt1x_ts_irq_handler s).2 := by
  by_cases h : s.irq_disabled = 0 <;>
    simp [gt1x_ts_irq_handler, disable_irq_nosync, emit, h]

theorem irq_handler_test_and_set_witness :
    gt1x_ts_irq_handler Dev.init =
        (.IRQ_WAKE_THREAD,
          { Dev.init with irq_disabled := 1, irq_depth := Dev.init.irq_depth + 1,
                          log := Dev.init.log ++ [.disable_irq_nosync] }) ∧
    gt1x_ts_irq_handler Dev.claimed = (.IRQ_HANDLED, Dev.claimed) :=
  ⟨(irq_handler_test_and_set Dev.init).1 rfl,
    (irq_handler_test_and_set Dev.claimed).2.1 (by decide)⟩

/-! ## Theorems: processing phase -/

/-- C2. Entered with `irq_disabled = 1` while `update_info.status` is set (or
while `gt1x_halt` is set), `gt1x_ts_work_thread` returns `IRQ_HANDLED` with the
state untouched: `irq_disabled` is still 1, the line depth is still 1 and no
`enable_irq` was issued. -/
theorem work_thread_early_return_keeps_gate_disabled :
    Dev.claimed.irq_disabled = 1 ∧
    gt1x_ts_work_thread Config.plain WorkEnv.fwUpdate Dev.claimed = (.IRQ_HANDLED, Dev.claimed) ∧
    (gt1x_ts_work_thread Config.plain WorkEnv.fwUpdate Dev.claimed).2.irq_disabled = 1 ∧
    (gt1x_ts_work_thread Config.plain WorkEnv.fwUpdate Dev.claimed).2.irq_depth = 1 ∧
    issued Config.plain WorkEnv.fwUpdate Dev.claimed = [] ∧
    (gt1x_ts_work_thread Config.plain WorkEnv.halted Dev.claimed).2.irq_disabled = 1 ∧
    issued Config.plain WorkEnv.halted Dev.claimed = [] := by
  decide

/-- Log and flag after `gt1x_irq_enable`. -/
theorem gt1x_irq_enable_spec (s : Dev) :
    (gt1x_irq_enable s).irq_disabled = 0 ∧
    (gt1x_irq_enable s).log = s.log ++ (if s.irq_disabled ≠ 0 then [Action.enable_irq] else []) := by
  by_cases h : s.irq_disabled = 0 <;> simp [gt1x_irq_enable, enable_irq, emit, h]

/-- Result, log and flag after label `exit_eint`. -/
theorem exit_eint_spec (s : Dev) :
    (exit_eint s).1 = .IRQ_HANDLED ∧ (exit_eint s).2.irq_disabled = 0 ∧
    (exit_eint s).2.log = s.log ++ (if s.irq_disabled ≠ 0 then [Action.enable_irq] else []) :=
  ⟨rfl, (gt1x_irq_enable_spec s).1, (gt1x_irq_enable_spec s).2⟩

/-- Result, log and flag after label `exit_work_func`. -/
theorem exit_work_func_spec (cfg : Config) (env : WorkEnv) (ret : Int) (s : Dev) :
    (exit_work_func cfg env ret s).1 = .IRQ_HANDLED ∧
    (exit_work_func cfg env ret s).2.irq_disabled = 0 ∧
    (exit_work_func cfg env ret s).2.log =
      s.log ++
        ((if env.gt1x_rawdiff_mode = 0 ∧ (ret ≥ 0 ∨ ret = cfg.ERROR_VALUE) then
            [Action.gt1x_i2c_write cfg.GTP_READ_COOR_ADDR [0]] else []) ++
          (if s.irq_disabled ≠ 0 then [Action.enable_irq] else [])) := by
  unfold exit_work_func
  by_cases hc : env.gt1x_rawdiff_mode = 0 ∧ (ret ≥ 0 ∨ ret = cfg.ERROR_VALUE)
  · simp only [hc, and_self, if_true, ite_self]
    have h := exit_eint_spec (emit (.gt1x_i2c_write cfg.GTP_READ_COOR_ADDR [0]) s)
    refine ⟨h.1, h.2.1, ?_⟩
    rw [h.2.2]
    simp [emit]
  · simp only [hc, if_false]
    have h := exit_eint_spec s
    refine ⟨h.1, h.2.1, ?_⟩
    rw [h.2.2]
    simp

theorem beforeRead_log (cfg : Config) (s : Dev) :
    (beforeRead cfg s).log =
      s.log ++ (if cfg.GTP_GESTURE_WAKEUP then [Action.gesture_event_handler] else []) ∧
    (beforeRead cfg s).irq_disabled = s.irq_disabled := by
  unfold beforeRead
  cases cfg.GTP_GESTURE_WAKEUP <;> simp [emit]

/-- The read is issued only on runs that reach it. -/
theorem read_issued_reaches (cfg : Config) (env : WorkEnv) (s : Dev)
    (h : Action.gt1x_i2c_read cfg.GTP_READ_COOR_ADDR 11 ∈ issued cfg env s) :
    ReachesRead cfg env := by
  unfold ReachesRead
  by_contra hn
  apply absurd h
  unfold issued gt1x_ts_work_thread
  by_cases hu : env.update_status = 0
  · by_cases hg : cfg.GTP_GESTURE_WAKEUP = true ∧ env.gesture_ret ≥ 0
    · simp only [hu, ne_eq, not_true_eq_false, if_false, hg, and_self, if_true]
      rw [(exit_work_func_spec cfg env env.gesture_ret _).2.2]
      simp only [emit, List.append_assoc, List.drop_left]
      split_ifs <;> simp
    · by_cases hh : env.gt1x_halt = 0
      · exact absurd ⟨hu, hg, hh⟩ hn
      · simp only [hu, ne_eq, not_true_eq_false, if_false, hg, hh, if_true]
        cases cfg.GTP_GESTURE_WAKEUP <;> simp [emit]
  · simp [hu]

/-- On a run that reaches the read and whose read fails, the function is the
reset (unless ESD protection is compiled in) followed by `exit_work_func`. -/
theorem work_thread_read_failure (cfg : Config) (env : WorkEnv) (s : Dev)
    (hr : ReachesRead cfg env) (hfail : env.read_ret < 0) :
    gt1x_ts_work_thread cfg env s =
      exit_work_func cfg env env.read_ret
        (if cfg.GTP_ESD_PROTECT then
            emit (.gt1x_i2c_read cfg.GTP_READ_COOR_ADDR 11) (beforeRead cfg s)
          else
            emit .gt1x_power_reset
              (emit (.gt1x_i2c_read cfg.GTP_READ_COOR_ADDR 11) (beforeRead cfg s))) := by
  obtain ⟨hu, hg, hh⟩ := hr
  unfold gt1x_ts_work_thread beforeRead
  simp only [hu, ne_eq, not_true_eq_false, if_false, hg, hh, hfail, if_true]

/-- C9. When the report read is issued and fails and ESD protection is not
compiled in, `gt1x_power_reset` is invoked exactly once, neither
`gt1x_request_event_handler` nor `gt1x_touch_event_handler` is invoked, the
function returns `IRQ_HANDLED`, and the gate is re-enabled: `irq_disabled` is 0
on return, and when it was set on entry the last call issued is `enable_irq`. -/
theorem read_failure_resets_and_reenables (cfg : Config) (env : WorkEnv) (s : Dev)
    (hread : Action.gt1x_i2c_read cfg.GTP_READ_COOR_ADDR 11 ∈ issued cfg env s)
    (hfail : env.read_ret < 0) (hesd : cfg.GTP_ESD_PROTECT = false) :
    (gt1x_ts_work_thread cfg env s).1 = .IRQ_HANDLED ∧
    (issued cfg env s).count .gt1x_power_reset = 1 ∧
    Action.gt1x_request_event_handler ∉ issued cfg env s ∧
    (issued cfg env s).filter isDecode = [] ∧
    (gt1x_ts_work_thread cfg env s).2.irq_disabled = 0 ∧
    (s.irq_disabled ≠ 0 → (issued cfg env s).getLast? = some .enable_irq) := by
  have hr := read_issued_reaches cfg env s hread
  have hw := work_thread_read_failure cfg env s hr hfail
  have hx := exit_work_func_spec cfg env env.read_ret
    (emit .gt1x_power_reset (emit (.gt1x_i2c_read cfg.GTP_READ_COOR_ADDR 11) (beforeRead cfg s)))
  simp only [hesd, Bool.false_eq_true, if_false] at hw
  have hlog : issued cfg env s =
      (if cfg.GTP_GESTURE_WAKEUP then [Action.gesture_event_handler] else []) ++
        [Action.gt1x_i2c_read cfg.GTP_READ_COOR_ADDR 11, Action.gt1x_power_reset] ++
        ((if env.gt1x_rawdiff_mode = 0 ∧ (env.read_ret ≥ 0 ∨ env.read_ret = cfg.ERROR_VALUE) then
            [Action.gt1x_i2c_write cfg.GTP_READ_COOR_ADDR [0]] else []) ++
          (if s.irq_disabled ≠ 0 then [Action.enable_irq] else [])) := by
    unfold issued
    rw [hw, hx.2.2]
    simp only [emit, (beforeRead_log cfg s).1, (beforeRead_log cfg s).2, List.append_assoc,
      List.drop_left, List.singleton_append, List.cons_append, List.nil_append]
  refine ⟨by rw [hw]; exact hx.1, ?_, ?_, ?_, by rw [hw]; exact hx.2.1, ?_⟩
  · rw [hlog]; split_ifs <;> simp
  · rw [hlog]; split_ifs <;> simp
  · rw [hlog]; split_ifs <;> simp [isDecode]
  · intro hne
    rw [hlog]
    simp only [hne, ne_eq, not_false_eq_true, if_true]
    rw [← List.append_assoc, List.getLast?_append]
    simp

theorem read_failure_resets_and_reenables_witness :
    (gt1x_ts_work_thread Config.plain WorkEnv.readFail Dev.claimed).1 = .IRQ_HANDLED ∧
    (issued Config.plain WorkEnv.readFail Dev.claimed).count .gt1x_power_reset = 1 ∧
    Action.gt1x_request_event_handler ∉ issued Config.plain WorkEnv.readFail Dev.claimed ∧
    (issued Config.plain WorkEnv.readFail Dev.claimed).filter isDecode = [] ∧
    (gt1x_ts_work_thread Config.plain WorkEnv.readFail Dev.claimed).2.irq_disabled = 0 ∧
    (Dev.claimed.irq_disabled ≠ 0 →
      (issued Config.plain WorkEnv.readFail Dev.claimed).getLast? = some .enable_irq) :=
  read_failure_resets_and_reenables Config.plain WorkEnv.readFail Dev.claimed
    (by decide) (by decide) rfl

theorem extend_nil (s : Dev) : s.extend [] = s := by
  simp [Dev.extend]

theorem extend_extend (s : Dev) (a b : List Action) :
    (s.extend a).extend b = s.extend (a ++ b) := by
  simp [Dev.extend]

theorem emit_eq_extend (a : Action) (s : Dev) : emit a s = s.extend [a] := rfl

theorem ite_emit_eq_extend (c : Bool) (a : Action) (s : Dev) :
    (if c = true then emit a s else s) = s.extend (if c = true then [a] else []) := by
  cases c <;> simp [emit_eq_extend, extend_nil]

theorem ite_prop_emit_eq_extend (c : Prop) [Decidable c] (a : Action) (s : Dev) :
    (if c then emit a s else s) = s.extend (if c then [a] else []) := by
  by_cases h : c <;> simp [h, emit_eq_extend, extend_nil]

/-- Function `work_decode` follows its path summary. -/
theorem work_decode_eq_path (cfg : Config) (env : WorkEnv) (s : Dev) :
    work_decode cfg env s =
      finish cfg env (decodePath cfg env).2 (s.extend (decodePath cfg env).1) := by
  unfold work_decode decodePath
  simp only [ite_emit_eq_extend, emit_eq_extend, extend_extend]
  split_ifs <;> simp_all [finish, extend_nil, extend_extend]

/-- Function `work_dispatch` follows its path summary. -/
theorem work_dispatch_eq_path (cfg : Config) (env : WorkEnv) (s : Dev) :
    work_dispatch cfg env s =
      finish cfg env (dispatchPath cfg env).2 (s.extend (dispatchPath cfg env).1) := by
  unfold work_dispatch dispatchPath
  simp only [ite_prop_emit_eq_extend, work_decode_eq_path, extend_extend]
  split_ifs <;> simp_all [finish, extend_nil, extend_extend]

/-- Function `gt1x_ts_work_thread` follows its path summary. -/
theorem work_thread_eq_path (cfg : Config) (env : WorkEnv) (s : Dev) :
    gt1x_ts_work_thread cfg env s =
      finish cfg env (workPath cfg env).2 (s.extend (workPath cfg env).1) := by
  unfold gt1x_ts_work_thread workPath
  simp only [ite_emit_eq_extend, emit_eq_extend, work_dispatch_eq_path, extend_extend]
  split_ifs <;> simp_all [finish, extend_nil, extend_extend]

/-- The calls of a run are those of its path followed by those of its exit. -/
theorem issued_eq_path (cfg : Config) (env : WorkEnv) (s : Dev) :
    issued cfg env s =
      (workPath cfg env).1 ++ exitCalls cfg env s.irq_disabled (workPath cfg env).2 := by
  unfold issued
  rw [work_thread_eq_path]
  cases (workPath cfg env).2 with
  | early => simp [finish, Dev.extend, exitCalls]
  | eint =>
    simp only [finish, exitCalls]
    rw [(exit_eint_spec _).2.2]
    simp [Dev.extend]
  | work ret =>
    simp only [finish, exitCalls]
    rw [(exit_work_func_spec cfg env ret _).2.2]
    simp [Dev.extend]

/-- The flag after a run: cleared unless the run left by a plain `return`. -/
theorem work_thread_flag (cfg : Config) (env : WorkEnv) (s : Dev) :
    (gt1x_ts_work_thread cfg env s).2.irq_disabled =
      if (workPath cfg env).2 = .early then s.irq_disabled else 0 := by
  rw [work_thread_eq_path]
  cases (workPath cfg env).2 with
  | early => simp [finish, Dev.extend]
  | eint => simpa [finish] using (exit_eint_spec _).2.1
  | work ret => simpa [finish] using (exit_work_func_spec cfg env ret _).2.1

theorem decodePath_no_write (cfg : Config) (env : WorkEnv) :
    (decodePath cfg env).1.filter isWrite = [] := by
  unfold decodePath
  split_ifs <;> simp [isWrite, List.filter_append]

theorem dispatchPath_no_write (cfg : Config) (env : WorkEnv) :
    (dispatchPath cfg env).1.filter isWrite = [] := by
  unfold dispatchPath
  split_ifs <;> simp [isWrite, List.filter_append, decodePath_no_write]

/-- No acknowledgment write is issued before the exit label. -/
theorem workPath_no_write (cfg : Config) (env : WorkEnv) :
    (workPath cfg env).1.filter isWrite = [] := by
  unfold workPath
  split_ifs <;> simp [isWrite, List.filter_append, dispatchPath_no_write]

theorem decodePath_decoded (cfg : Config) (env : WorkEnv)
    (h : Action.gt1x_touch_event_handler env.point_data cfg.GTP_WITH_STYLUS ∈
      (decodePath cfg env).1) :
    (decodePath cfg env).2 = .work env.touch_ret := by
  revert h
  unfold decodePath
  split_ifs <;> simp

theorem dispatchPath_decoded (cfg : Config) (env : WorkEnv)
    (h : Action.gt1x_touch_event_handler env.point_data cfg.GTP_WITH_STYLUS ∈
      (dispatchPath cfg env).1) :
    (dispatchPath cfg env).2 = .work env.touch_ret := by
  revert h
  unfold dispatchPath
  split_ifs <;> simp <;> exact decodePath_decoded cfg env

/-- A run that invoked the decoder reaches `exit_work_func` with the decoder's
result. -/
theorem workPath_decoded (cfg : Config) (env : WorkEnv)
    (h : Action.gt1x_touch_event_handler env.point_data cfg.GTP_WITH_STYLUS ∈
      (workPath cfg env).1) :
    (workPath cfg env).2 = .work env.touch_ret := by
  revert h
  unfold workPath
  split_ifs <;> simp <;> exact dispatchPath_decoded cfg env

/-- C10. If the decoder was invoked and returned `r` with `r ≥ 0` or
`r = ERROR_VALUE`, the run issues exactly one `gt1x_i2c_write`, of the single
byte 0 to `GTP_READ_COOR_ADDR`, when `gt1x_rawdiff_mode` is 0, and none
otherwise.  With `gt1x_rawdiff_mode` set no run issues any `gt1x_i2c_write`.
Whenever a write was issued and failed, `irq_disabled` is 0 on return and, if it
was set on entry, the last call issued is `enable_irq`. -/
theorem ack_write_iff_not_rawdiff (cfg : Config) (env : WorkEnv) (s : Dev) :
    (Action.gt1x_touch_event_handler env.point_data cfg.GTP_WITH_STYLUS ∈ issued cfg env s →
      (env.touch_ret ≥ 0 ∨ env.touch_ret = cfg.ERROR_VALUE) →
      ((issued cfg env s).filter isWrite = [.gt1x_i2c_write cfg.GTP_READ_COOR_ADDR [0]] ↔
        env.gt1x_rawdiff_mode = 0)) ∧
    (env.gt1x_rawdiff_mode ≠ 0 → (issued cfg env s).filter isWrite = []) ∧
    (env.write_ret < 0 → (issued cfg env s).filter isWrite ≠ [] →
      (gt1x_ts_work_thread cfg env s).2.irq_disabled = 0 ∧
      (s.irq_disabled ≠ 0 → (issued cfg env s).getLast? = some .enable_irq)) := by
  have hi := issued_eq_path cfg env s
  have hp := workPath_no_write cfg env
  refine ⟨?_, ?_, ?_⟩
  · intro hdec hr
    have hin : Action.gt1x_touch_event_handler env.point_data cfg.GTP_WITH_STYLUS ∈
        (workPath cfg env).1 := by
      rw [hi, List.mem_append] at hdec
      rcases hdec with h | h
      · exact h
      · exfalso
        revert h
        cases (workPath cfg env).2 <;> simp only [exitCalls] <;> (try split_ifs) <;> simp
    have he := workPath_decoded cfg env hin
    rw [hi, List.filter_append, hp, he]
    simp only [exitCalls, hr, and_true, List.nil_append, List.filter_append]
    by_cases hm : env.gt1x_rawdiff_mode = 0 <;> by_cases hf : s.irq_disabled = 0 <;>
      simp [hm, hf, isWrite]
  · intro hm
    rw [hi, List.filter_append, hp]
    cases (workPath cfg env).2 <;> simp only [exitCalls] <;> (try split_ifs) <;>
      simp_all [isWrite]
  · intro _ hw
    have hne : (workPath cfg env).2 ≠ .early ∧
        (s.irq_disabled ≠ 0 → (issued cfg env s).getLast? = some .enable_irq) := by
      rw [hi, List.filter_append, hp] at hw
      rw [hi]
      revert hw
      cases (workPath cfg env).2 <;> simp only [exitCalls] <;> (try split_ifs) <;>
        simp_all [isWrite, List.getLast?_append]
    refine ⟨?_, hne.2⟩
    rw [work_thread_flag, if_neg hne.1]

theorem ack_write_iff_not_rawdiff_witness :
    ((issued Config.plain WorkEnv.touchFrame Dev.claimed).filter isWrite =
        [.gt1x_i2c_write Config.plain.GTP_READ_COOR_ADDR [0]] ↔
      WorkEnv.touchFrame.gt1x_rawdiff_mode = 0) ∧
    (gt1x_ts_work_thread Config.plain WorkEnv.touchFrame Dev.claimed).2.irq_disabled = 0 :=
  ⟨(ack_write_iff_not_rawdiff Config.plain WorkEnv.touchFrame Dev.claimed).1
      (by decide) (by decide),
    ((ack_write_iff_not_rawdiff Config.plain WorkEnv.touchFrame Dev.claimed).2.2
      (by decide) (by decide)).1⟩

/-! ## Theorems: resources and attach -/

/-- C4. The value returned by `gt1x_request_gpio` depends on the last
`gpio_request` only.  With the interrupt GPIO request failing (`-EBUSY`) and the
other three succeeding it returns 0 and `gt1x_ts_probe` goes on to power-on,
reset and completes with 0; likewise `goodix_pinctrl_init` returns 0 when only
the "normal" pin state is missing, and the probe completes with 0. -/
theorem acquisition_failures_not_fatal :
    (∀ (ge : GpioEnv) (s : Dev),
      (gt1x_request_gpio ge s).1 = if ge.pwrio_ret < 0 then -ENODEV else ge.pwrio_ret) ∧
    (gt1x_request_gpio ProbeEnv.intGpioBusy.gpio Dev.init).1 = 0 ∧
    (gt1x_ts_probe Config.plain ProbeEnv.intGpioBusy Dev.init).map (fun r => r.1) = some 0 ∧
    Action.gpio_request 80 (-16) ∈ probeIssued Config.plain ProbeEnv.intGpioBusy Dev.init ∧
    Action.regulator_enable .vdd_ana 0 ∈ probeIssued Config.plain ProbeEnv.intGpioBusy Dev.init ∧
    Action.gt1x_reset_guitar 0 ∈ probeIssued Config.plain ProbeEnv.intGpioBusy Dev.init ∧
    (goodix_pinctrl_init ProbeEnv.normalMissing.pinctrl Dev.init).1 = 0 ∧
    (gt1x_ts_probe Config.plain ProbeEnv.normalMissing Dev.init).map (fun r => r.1) = some 0 ∧
    Action.regulator_enable .vdd_ana 0 ∈
      probeIssued Config.plain ProbeEnv.normalMissing Dev.init := by
  refine ⟨fun ge s => rfl, ?_, ?_, ?_, ?_, ?_, ?_, ?_, ?_⟩ <;> decide

/-- C6. After a nominal attach, the second of two back-to-back
`gt1x_release_resource` calls again sets the INT GPIO to input and frees it and
again drives the RST GPIO low and frees it; the same four calls are issued when
nothing at all has been acquired. -/
theorem release_again_frees_gpios :
    secondReleaseCalls Config.plain { regulator_ret := 0, uninit_ret := 0 } Dev.attached =
      some [.gpio_direction_input 80, .gpio_free 80, .gpio_direction_output 71 0,
            .gpio_free 71] ∧
    Dev.nothingAcquired.gpio_held = [] ∧ Dev.nothingAcquired.vdd_ana = none ∧
    Dev.nothingAcquired.input_dev = none ∧
    releaseCalls Config.plain { regulator_ret := 0, uninit_ret := 0 } Dev.nothingAcquired =
      some [.gpio_direction_input 80, .gpio_free 80, .gpio_direction_output 71 0,
            .gpio_free 71] := by
  decide

/-- C8. With a bound client and `vdd_ana = NULL`, `gt1x_power_switch` drives the
two power GPIOs, makes no regulator call and returns whatever its unassigned
local `ret` holds.  When that is -1, the power-on of `gt1x_ts_probe` is taken as
failed: the probe returns `-ENODEV` without ever calling `gt1x_reset_guitar`. -/
theorem power_switch_without_rail_returns_unassigned :
    (∀ (pe : PowerEnv) (sw : Int) (s : Dev),
      (gt1x_power_switch pe sw { s with client_bound := true, vdd_ana := none }).1 =
        pe.uninit_ret) ∧
    gt1x_power_switch { regulator_ret := 0, uninit_ret := -1 } SWITCH_ON Dev.nothingAcquired =
      (-1, Dev.nothingAcquired.extend
        [.gpio_direction_output 68 1, .gpio_direction_output 69 1, .usleep_range 10000 10100]) ∧
    gt1x_power_switch { regulator_ret := 0, uninit_ret := -1 } SWITCH_OFF Dev.nothingAcquired =
      (-1, Dev.nothingAcquired.extend
        [.gpio_direction_output 68 0, .gpio_direction_output 69 0, .usleep_range 10000 10100]) ∧
    (gt1x_ts_probe Config.plain ProbeEnv.noRail Dev.init).map (fun r => r.1) = some (-19) ∧
    (probeIssued Config.plain ProbeEnv.noRail Dev.init).filter isReset = [] := by
  refine ⟨?_, ?_, ?_, ?_, ?_⟩
  · intro pe sw s
    by_cases h : sw = 0 <;> simp [gt1x_power_switch, emit, h]
  all_goals decide

/-- Result and calls of `gt1x_power_switch` with a bound client. -/
theorem power_switch_spec (pe : PowerEnv) (sw : Int) (s : Dev) (hb : s.client_bound = true) :
    gt1x_power_switch pe sw s = (powerRet pe s, s.extend (powerCalls pe sw s)) := by
  unfold gt1x_power_switch powerRet powerCalls
  by_cases h : sw = 0 <;> cases hv : s.vdd_ana <;> simp [hb, h, hv, emit, Dev.extend]

/-- Effect of `gt1x_release_resource` on a state whose `gt_pinctrl` is
allocated. -/
theorem release_spec (cfg : Config) (pe : PowerEnv) (s : Dev) (hg : Good s) :
    gt1x_release_resource cfg pe s =
      some { s with
        vdd_ana := none, input_dev := none, gt_pinctrl := some GoodixPinctrl.cleared,
        gpio_held := heldAfterRelease cfg s,
        log := s.log ++ (releaseGpioCalls cfg s ++ releaseRailCalls pe s ++
          releasePinCalls s ++ releaseInputCalls s) } := by
  obtain ⟨hb, hp⟩ := hg
  obtain ⟨p, hp⟩ := Option.ne_none_iff_exists'.mp hp
  unfold gt1x_release_resource releaseGpioCalls releaseRailCalls releasePinCalls
    releaseInputCalls heldAfterRelease
  by_cases h1 : gpio_is_valid cfg s.gt1x_int_gpio = true <;>
    by_cases h2 : gpio_is_valid cfg s.gt1x_rst_gpio = true <;>
    cases hv : s.vdd_ana <;>
    cases hi : s.input_dev <;>
    by_cases h3 : p.ts_pinctrl = .null <;>
    simp [h1, h2, hv, hi, h3, hp, hb, gpio_free, emit, power_switch_spec, Dev.extend,
      powerCalls, SWITCH_OFF]

/-! ### Log bookkeeping -/

theorem quiet_iff_drop (P : Action → Bool) (s t : Dev) :
    Quiet P s t ↔ s.log <+: t.log ∧ ∀ a ∈ t.log.drop s.log.length, P a = false := by
  constructor
  · rintro ⟨l, hl, hP⟩
    rw [hl]
    exact ⟨List.prefix_append _ _, by simpa using hP⟩
  · rintro ⟨⟨l, hl⟩, hP⟩
    refine ⟨l, hl.symm, ?_⟩
    rw [← hl] at hP
    simpa using hP

theorem Quiet.refl (P : Action → Bool) (s : Dev) : Quiet P s s :=
  ⟨[], by simp, by simp⟩

theorem Quiet.trans {P : Action → Bool} {s t u : Dev} (h1 : Quiet P s t) (h2 : Quiet P t u) :
    Quiet P s u := by
  obtain ⟨l1, e1, p1⟩ := h1
  obtain ⟨l2, e2, p2⟩ := h2
  refine ⟨l1 ++ l2, by rw [e2, e1, List.append_assoc], ?_⟩
  intro a ha
  rcases List.mem_append.mp ha with h | h
  · exact p1 a h
  · exact p2 a h

theorem Quiet.mono {P Q : Action → Bool} {s t : Dev} (hPQ : ∀ a, Q a = false → P a = false)
    (h : Quiet Q s t) : Quiet P s t := by
  obtain ⟨l, e, p⟩ := h
  exact ⟨l, e, fun a ha => hPQ a (p a ha)⟩

theorem Quiet.emit {P : Action → Bool} {s t : Dev} (a : Action) (ha : P a = false)
    (h : Quiet P s t) : Quiet P s (emit a t) := by
  obtain ⟨l, e, p⟩ := h
  refine ⟨l ++ [a], by simp [Gt1x.emit, e], ?_⟩
  intro b hb
  rcases List.mem_append.mp hb with h | h
  · exact p b h
  · simp at h; rw [h]; exact ha

theorem Quiet.extend {P : Action → Bool} {s t : Dev} (l : List Action)
    (hl : ∀ a ∈ l, P a = false) (h : Quiet P s t) : Quiet P s (t.extend l) := by
  obtain ⟨l0, e, p⟩ := h
  refine ⟨l0 ++ l, by simp [Dev.extend, e], ?_⟩
  intro b hb
  rcases List.mem_append.mp hb with h | h
  · exact p b h
  · exact hl b h

theorem isRelease_of_milestone (a : Action) (h : isMilestone a = false) : isRelease a = false := by
  simp only [isMilestone, Bool.or_eq_false_iff] at h
  exact h.1.2

theorem isReset_of_milestone (a : Action) (h : isMilestone a = false) : isReset a = false := by
  simp only [isMilestone, Bool.or_eq_false_iff] at h
  exact h.1.1

theorem isLate_of_milestone (a : Action) (h : isMilestone a = false) : isLate a = false := by
  simp only [isMilestone, Bool.or_eq_false_iff] at h
  exact h.2

theorem isRelease_of_resetOrRelease (a : Action) (h : isResetOrRelease a = false) :
    isRelease a = false := by
  simp only [isResetOrRelease, Bool.or_eq_false_iff] at h
  exact h.2

theorem powerCalls_quiet (pe : PowerEnv) (sw : Int) (s : Dev) :
    ∀ a ∈ powerCalls pe sw s, isMilestone a = false := by
  unfold powerCalls
  split_ifs <;> simp [isMilestone, isReset, isRelease, isLate]

/-! ### Stage by stage -/

/-- Function `gt1x_parse_dt` keeps `client_bound` and `gt_pinctrl` and issues no
milestone call. -/
theorem parse_dt_frame (cfg : Config) (dt : DtEnv) (s : Dev) :
    (gt1x_parse_dt cfg dt false s).2.client_bound = s.client_bound ∧
    (gt1x_parse_dt cfg dt false s).2.gt_pinctrl = s.gt_pinctrl ∧
    Quiet isMilestone s (gt1x_parse_dt cfg dt false s).2 := by
  rw [quiet_iff_drop]
  unfold gt1x_parse_dt
  simp only [Bool.false_eq_true, if_false]
  split_ifs <;> simp [emit, isMilestone, isReset, isRelease, isLate]

/-- Function `goodix_pinctrl_init` keeps `client_bound`, leaves `gt_pinctrl` allocated
when it was or when `kmalloc` succeeds, and issues no milestone call. -/
theorem pinctrl_init_frame (pe : PinctrlEnv) (s : Dev)
    (halloc : s.gt_pinctrl ≠ none ∨ pe.kmalloc_result ≠ none) :
    (goodix_pinctrl_init pe s).2.client_bound = s.client_bound ∧
    (goodix_pinctrl_init pe s).2.gt_pinctrl ≠ none ∧
    Quiet isMilestone s (goodix_pinctrl_init pe s).2 := by
  rw [quiet_iff_drop]
  unfold goodix_pinctrl_init pinctrl_exit_put
  cases hs : s.gt_pinctrl with
  | none =>
    have hk : pe.kmalloc_result ≠ none := by
      rcases halloc with h | h
      · exact absurd hs h
      · exact h
    obtain ⟨k, hk⟩ := Option.ne_none_iff_exists'.mp hk
    simp only [emit, hk]
    split_ifs <;> simp [emit, isMilestone, isReset, isRelease, isLate]
  | some p =>
    simp only [hs]
    split_ifs <;> simp [emit, isMilestone, isReset, isRelease, isLate]

theorem select_poweroff_frame (env : ProbeEnv) (ret : Int) (s : Dev) :
    (probe_select_poweroff env ret s).2.client_bound = s.client_bound ∧
    (probe_select_poweroff env ret s).2.gt_pinctrl = s.gt_pinctrl ∧
    Quiet isMilestone s (probe_select_poweroff env ret s).2 := by
  rw [quiet_iff_drop]
  unfold probe_select_poweroff
  cases hs : s.gt_pinctrl with
  | none => simp [hs]
  | some p =>
    simp only []
    split_ifs <;> simp [hs, emit, isMilestone, isReset, isRelease, isLate]

theorem request_gpio_frame (ge : GpioEnv) (s : Dev) :
    (gt1x_request_gpio ge s).2.client_bound = s.client_bound ∧
    (gt1x_request_gpio ge s).2.gt_pinctrl = s.gt_pinctrl ∧
    Quiet isMilestone s (gt1x_request_gpio ge s).2 := by
  rw [quiet_iff_drop]
  unfold gt1x_request_gpio gpio_request
  by_cases h1 : ge.int_ret < 0 <;> by_cases h2 : ge.rst_ret < 0 <;>
    by_cases h3 : ge.pwr_ret < 0 <;> by_cases h4 : ge.pwrio_ret < 0 <;>
    simp [h1, h2, h3, h4, emit, isMilestone, isReset, isRelease, isLate]

theorem good_extend (s : Dev) (l : List Action) (h : Good s) : Good (s.extend l) := h

theorem good_emit (s : Dev) (a : Action) (h : Good s) : Good (emit a s) := h

/-- Lines 779-806: a run entering pin-mux initialisation with the client bound
either jumps to `exit_clean` or reaches reset-and-verify, in both cases with
`gt_pinctrl` allocated and without having issued any milestone call. -/
theorem probe_acquire_cases (cfg : Config) (env : ProbeEnv) (s : Dev)
    (hb : s.client_bound = true)
    (halloc : s.gt_pinctrl ≠ none ∨ env.pinctrl.kmalloc_result ≠ none) :
    ∃ mid, Good mid ∧ Quiet isMilestone s mid ∧
      (probe_acquire cfg env s = probe_exit_clean cfg env mid ∨
        probe_acquire cfg env s = probe_reset cfg env mid) := by
  obtain ⟨b1, g1, q1⟩ := pinctrl_init_frame env.pinctrl s halloc
  unfold probe_acquire
  dsimp only
  generalize goodix_pinctrl_init env.pinctrl s = r1 at b1 g1 q1 ⊢
  have G1 : Good r1.2 := ⟨b1.trans hb, g1⟩
  by_cases c1 : r1.1 < 0
  · rw [if_pos c1]
    exact ⟨r1.2, G1, q1, Or.inl rfl⟩
  rw [if_neg c1]
  obtain ⟨b2, g2, q2⟩ := select_poweroff_frame env r1.1 r1.2
  generalize probe_select_poweroff env r1.1 r1.2 = r2 at b2 g2 q2 ⊢
  have G2 : Good r2.2 := ⟨b2.trans G1.1, by rw [g2]; exact G1.2⟩
  have Q2 := q1.trans q2
  by_cases c2 : r2.1 < 0
  · rw [if_pos c2]
    exact ⟨r2.2, G2, Q2, Or.inl rfl⟩
  rw [if_neg c2]
  obtain ⟨b3, g3, q3⟩ := request_gpio_frame env.gpio r2.2
  generalize gt1x_request_gpio env.gpio r2.2 = r3 at b3 g3 q3 ⊢
  have G3 : Good r3.2 := ⟨b3.trans G2.1, by rw [g3]; exact G2.2⟩
  have Q3 := Q2.trans q3
  by_cases c3 : r3.1 < 0
  · rw [if_pos c3]
    exact ⟨r3.2, G3, Q3, Or.inl rfl⟩
  rw [if_neg c3, power_switch_spec _ _ _ G3.1]
  dsimp only
  have Q4 : Quiet isMilestone s (r3.2.extend (powerCalls env.power_on SWITCH_ON r3.2)) :=
    Q3.extend _ (powerCalls_quiet _ _ _)
  by_cases c4 : powerRet env.power_on r3.2 < 0
  · rw [if_pos c4]
    exact ⟨_, good_extend _ _ G3, Q4, Or.inl rfl⟩
  · rw [if_neg c4]
    exact ⟨_, good_extend _ _ G3, Q4, Or.inr rfl⟩

theorem request_input_dev_frame (ie : InputEnv) (s : Dev) :
    (gt1x_request_input_dev ie s).2.client_bound = s.client_bound ∧
    (gt1x_request_input_dev ie s).2.gt_pinctrl = s.gt_pinctrl ∧
    Quiet isResetOrRelease s (gt1x_request_input_dev ie s).2 := by
  rw [quiet_iff_drop]
  unfold gt1x_request_input_dev
  cases ie.alloc <;> simp only [] <;> (try split_ifs) <;>
    simp [emit, isResetOrRelease, isReset, isRelease]

theorem request_irq_frame (irq_ret : Int) (s : Dev) :
    (gt1x_request_irq irq_ret s).2.client_bound = s.client_bound ∧
    (gt1x_request_irq irq_ret s).2.gt_pinctrl = s.gt_pinctrl ∧
    Quiet isResetOrRelease s (gt1x_request_irq irq_ret s).2 := by
  rw [quiet_iff_drop]
  unfold gt1x_request_irq gt1x_irq_disable disable_irq
  by_cases h1 : irq_ret = 0 <;> by_cases h2 : s.irq_disabled = 0 <;>
    simp [h1, h2, emit, isResetOrRelease, isReset, isRelease]

/-- Lines 824-864: after reset-and-verify the run either completes with 0 or
jumps to `exit_clean`; all it issues up to that point starts with `gt1x_init`
and contains neither a reset nor a release. -/
theorem probe_after_reset_cases (cfg : Config) (env : ProbeEnv) (s : Dev) (hg : Good s) :
    (∃ s1, probe_after_reset cfg env s = some (0, s1) ∧
      Quiet isResetOrRelease (emit .gt1x_init s) s1) ∨
    (∃ mid, Good mid ∧ Quiet isResetOrRelease (emit .gt1x_init s) mid ∧
      probe_after_reset cfg env s = probe_exit_clean cfg env mid) := by
  unfold probe_after_reset probe_err_input
  dsimp only
  obtain ⟨b1, g1, q1⟩ := request_input_dev_frame env.input (emit .gt1x_init s)
  generalize gt1x_request_input_dev env.input (emit .gt1x_init s) = r1 at b1 g1 q1 ⊢
  have G1 : Good r1.2 := ⟨b1.trans hg.1, by rw [g1]; exact hg.2⟩
  by_cases c1 : r1.1 < 0
  · rw [if_pos c1]
    exact Or.inr ⟨_, good_emit _ _ G1, q1.emit .gt1x_deinit rfl, rfl⟩
  rw [if_neg c1]
  obtain ⟨b2, g2, q2⟩ := request_irq_frame env.irq_ret r1.2
  generalize gt1x_request_irq env.irq_ret r1.2 = r2 at b2 g2 q2 ⊢
  have G2 : Good r2.2 := ⟨b2.trans G1.1, by rw [g2]; exact G1.2⟩
  have Q2 := q1.trans q2
  by_cases c2 : r2.1 < 0
  · rw [if_pos c2]
    exact Or.inr ⟨_, good_emit _ _ G2, Q2.emit .gt1x_deinit rfl, rfl⟩
  rw [if_neg c2]
  refine Or.inl ⟨_, rfl, ?_⟩
  refine Q2.trans ?_
  rw [quiet_iff_drop]
  unfold gt1x_irq_enable enable_irq
  cases cfg.GTP_ESD_PROTECT <;> cases cfg.GTP_AUTO_UPDATE <;>
    by_cases h : r2.2.irq_disabled = 0 <;>
    simp [h, emit, isResetOrRelease, isReset, isRelease]

/-- Lines 808-822 with `gt1x_power_switch` replaced by its result and calls. -/
theorem probe_reset_eq (cfg : Config) (env : ProbeEnv) (s : Dev) (hb : s.client_bound = true) :
    probe_reset cfg env s =
      if env.reset_ret ≠ 0 then
        if powerRet env.retry_off s < 0 then probe_exit_clean cfg env (afterRetryOff env s)
        else if powerRet env.retry_on s < 0 then probe_exit_clean cfg env (afterRetryOn env s)
        else if env.retry_reset_ret ≠ 0 then
          probe_exit_clean cfg env (afterSecondReset env s)
        else probe_after_reset cfg env (afterSecondReset env s)
      else probe_after_reset cfg env (afterFirstReset env s) := by
  unfold probe_reset
  dsimp only
  rw [power_switch_spec env.retry_off SWITCH_OFF (emit (.gt1x_reset_guitar env.reset_ret) s) hb]
  dsimp only
  rw [power_switch_spec env.retry_on SWITCH_ON
    ((emit (.gt1x_reset_guitar env.reset_ret) s).extend
      (powerCalls env.retry_off SWITCH_OFF (emit (.gt1x_reset_guitar env.reset_ret) s))) hb]
  rfl

theorem powerCalls_no_release (pe : PowerEnv) (sw : Int) (s : Dev) :
    ∀ a ∈ powerCalls pe sw s, isRelease a = false :=
  fun a ha => isRelease_of_milestone a (powerCalls_quiet pe sw s a ha)

theorem quiet_afterFirstReset (env : ProbeEnv) (s : Dev) :
    Quiet isRelease s (afterFirstReset env s) :=
  (Quiet.refl _ s).emit _ rfl

theorem quiet_afterRetryOff (env : ProbeEnv) (s : Dev) :
    Quiet isRelease s (afterRetryOff env s) :=
  (quiet_afterFirstReset env s).extend _ (powerCalls_no_release _ _ _)

theorem quiet_afterRetryOn (env : ProbeEnv) (s : Dev) :
    Quiet isRelease s (afterRetryOn env s) :=
  (quiet_afterRetryOff env s).extend _ (powerCalls_no_release _ _ _)

theorem quiet_afterSecondReset (env : ProbeEnv) (s : Dev) :
    Quiet isRelease s (afterSecondReset env s) :=
  (quiet_afterRetryOn env s).emit _ rfl

/-- Weakening of `probe_after_reset_cases` to "no release before the cleanup". -/
theorem probe_after_reset_outcome (cfg : Config) (env : ProbeEnv) (s : Dev) (hg : Good s) :
    (∃ s1, probe_after_reset cfg env s = some (0, s1)) ∨
    (∃ mid, Good mid ∧ Quiet isRelease s mid ∧
      probe_after_reset cfg env s = probe_exit_clean cfg env mid) := by
  rcases probe_after_reset_cases cfg env s hg with ⟨s1, h, _⟩ | ⟨mid, g, q, h⟩
  · exact Or.inl ⟨s1, h⟩
  · refine Or.inr ⟨mid, g, ?_, h⟩
    exact ((Quiet.refl _ s).emit .gt1x_init rfl).trans
      (q.mono isRelease_of_resetOrRelease)

/-- Lines 808-864: from reset-and-verify on, the run either completes with 0 or
jumps to `exit_clean` without having released anything. -/
theorem probe_reset_outcome (cfg : Config) (env : ProbeEnv) (s : Dev) (hg : Good s) :
    (∃ s1, probe_reset cfg env s = some (0, s1)) ∨
    (∃ mid, Good mid ∧ Quiet isRelease s mid ∧
      probe_reset cfg env s = probe_exit_clean cfg env mid) := by
  rw [probe_reset_eq cfg env s hg.1]
  split_ifs
  · exact Or.inr ⟨afterRetryOff env s, hg, quiet_afterRetryOff env s, rfl⟩
  · exact Or.inr ⟨afterRetryOn env s, hg, quiet_afterRetryOn env s, rfl⟩
  · exact Or.inr ⟨afterSecondReset env s, hg, quiet_afterSecondReset env s, rfl⟩
  · rcases probe_after_reset_outcome cfg env (afterSecondReset env s) hg with h | ⟨mid, g, q, h⟩
    · exact Or.inl h
    · exact Or.inr ⟨mid, g, (quiet_afterSecondReset env s).trans q, h⟩
  · rcases probe_after_reset_outcome cfg env (afterFirstReset env s) hg with h | ⟨mid, g, q, h⟩
    · exact Or.inl h
    · exact Or.inr ⟨mid, g, (quiet_afterFirstReset env s).trans q, h⟩

/-- A run that gets as far as pin-mux initialisation continues as
`probe_acquire` from `acquireEntry`. -/
theorem probe_eq_acquire (cfg : Config) (env : ProbeEnv) (s : Dev)
    (hreach : ReachesAcquire cfg env s) :
    gt1x_ts_probe cfg env s = probe_acquire cfg env (acquireEntry cfg env s) := by
  obtain ⟨h1, h2, h3⟩ := hreach
  unfold gt1x_ts_probe acquireEntry
  rw [if_neg h1]
  dsimp only
  cases hn : env.has_of_node
  · simp [h2]
  · simp only [hn, true_and] at h3
    simp [h2, h3]

theorem acquireEntry_frame (cfg : Config) (env : ProbeEnv) (s : Dev) :
    (acquireEntry cfg env s).client_bound = true ∧
    (acquireEntry cfg env s).gt_pinctrl = s.gt_pinctrl ∧
    Quiet isMilestone s (acquireEntry cfg env s) := by
  unfold acquireEntry
  cases env.has_of_node
  · exact ⟨rfl, rfl, Quiet.refl _ _⟩
  · obtain ⟨b, g, q⟩ := parse_dt_frame cfg env.dt { s with client_bound := true }
    exact ⟨b, g, q⟩

/-- Every run of `gt1x_ts_probe` that gets as far as pin-mux initialisation
with `gt_pinctrl` allocated (or allocatable) either completes with 0 or jumps to
`exit_clean` without having released anything. -/
theorem probe_outcome (cfg : Config) (env : ProbeEnv) (s : Dev)
    (hreach : ReachesAcquire cfg env s)
    (halloc : s.gt_pinctrl ≠ none ∨ env.pinctrl.kmalloc_result ≠ none) :
    (∃ s1, gt1x_ts_probe cfg env s = some (0, s1)) ∨
    (∃ mid, Good mid ∧ Quiet isRelease s mid ∧
      gt1x_ts_probe cfg env s = probe_exit_clean cfg env mid) := by
  rw [probe_eq_acquire cfg env s hreach]
  obtain ⟨b0, g0, q0⟩ := acquireEntry_frame cfg env s
  have halloc1 : (acquireEntry cfg env s).gt_pinctrl ≠ none ∨
      env.pinctrl.kmalloc_result ≠ none := by rw [g0]; exact halloc
  obtain ⟨mid, gm, qm, h | h⟩ := probe_acquire_cases cfg env (acquireEntry cfg env s) b0 halloc1
  · exact Or.inr ⟨mid, gm, (q0.trans qm).mono isRelease_of_milestone, h⟩
  · rw [h]
    rcases probe_reset_outcome cfg env mid gm with h1 | ⟨mid1, g1, q1, h1⟩
    · exact Or.inl h1
    · exact Or.inr ⟨mid1, g1, ((q0.trans qm).mono isRelease_of_milestone).trans q1, h1⟩

/-- Result of label `exit_clean` on a state whose `gt_pinctrl` is allocated. -/
theorem exit_clean_spec (cfg : Config) (env : ProbeEnv) (s : Dev) (hg : Good s) :
    probe_exit_clean cfg env s =
      some (-ENODEV, { s with
        vdd_ana := none, input_dev := none, gt_pinctrl := some GoodixPinctrl.cleared,
        gpio_held := heldAfterRelease cfg s,
        log := s.log ++ cleanupCalls cfg env.cleanup_off s }) := by
  unfold probe_exit_clean cleanupCalls
  rw [release_spec cfg env.cleanup_off s hg]
  rfl

theorem releaseGpioCalls_mem (cfg : Config) (s : Dev) :
    (∀ a ∈ releaseGpioCalls cfg s,
      a = .gpio_direction_input s.gt1x_int_gpio ∨ a = .gpio_free s.gt1x_int_gpio ∨
      a = .gpio_direction_output s.gt1x_rst_gpio 0 ∨ a = .gpio_free s.gt1x_rst_gpio) ∧
    (gpio_is_valid cfg s.gt1x_int_gpio = true →
      Action.gpio_free s.gt1x_int_gpio ∈ releaseGpioCalls cfg s) ∧
    (gpio_is_valid cfg s.gt1x_rst_gpio = true →
      Action.gpio_free s.gt1x_rst_gpio ∈ releaseGpioCalls cfg s) := by
  unfold releaseGpioCalls
  refine ⟨?_, ?_, ?_⟩
  · intro a ha
    split_ifs at ha <;> simp at ha <;> tauto
  · intro h; simp [h]
  · intro h; simp [h]

theorem heldAfterRelease_spec (cfg : Config) (s : Dev) :
    (gpio_is_valid cfg s.gt1x_int_gpio = true → s.gt1x_int_gpio ∉ heldAfterRelease cfg s) ∧
    (gpio_is_valid cfg s.gt1x_rst_gpio = true → s.gt1x_rst_gpio ∉ heldAfterRelease cfg s) := by
  unfold heldAfterRelease
  refine ⟨?_, ?_⟩
  · intro h
    simp only [h, if_true]
    split_ifs <;> simp [List.mem_filter]
  · intro h
    simp only [h, if_true]
    simp [List.mem_filter]

/-- C5 (as stated, refuted). When `devm_pinctrl_get` fails, no GPIO has been
requested, yet the cleanup frees GPIOs 80 and 71 (INT and RST, resources of
later steps).  When the chip answers neither reset, the cleanup runs in the
order INT GPIO, RST GPIO, rail, pin-mux handle rather than in reverse order of
acquisition, and the pwr and pwrio GPIOs (68, 69) and the `vcc_i2c` regulator
are still held after the probe has returned.  When the lookup of the wakeup pin
state fails, the pin-mux handle is put by `goodix_pinctrl_init` itself, before
the cleanup starts, and the cleanup then frees the two GPIOs and puts the rail
without putting the handle again. -/
theorem probe_cleanup_not_exact_rollback :
    (gt1x_ts_probe Config.plain ProbeEnv.pinctrlGetFails Dev.init).map (fun r => r.1) =
      some (-19) ∧
    requestedGpios (probeIssued Config.plain ProbeEnv.pinctrlGetFails Dev.init) = [] ∧
    freedGpios (probeIssued Config.plain ProbeEnv.pinctrlGetFails Dev.init) = [80, 71] ∧
    (gt1x_ts_probe Config.plain ProbeEnv.chipSilent Dev.init).map (fun r => r.1) = some (-19) ∧
    requestedGpios (probeIssued Config.plain ProbeEnv.chipSilent Dev.init) = [80, 71, 68, 69] ∧
    (probeIssued Config.plain ProbeEnv.chipSilent Dev.init).filter isRelease =
      [.gpio_free 80, .gpio_free 71, .regulator_put .vdd_ana] ∧
    (probeFinal Config.plain ProbeEnv.chipSilent Dev.init).gpio_held = [69, 68] ∧
    (probeFinal Config.plain ProbeEnv.chipSilent Dev.init).vcc_i2c = some 2 ∧
    (probeIssued Config.plain ProbeEnv.chipSilent Dev.init).filter isRelOrPut =
      [.gpio_free 80, .gpio_free 71, .regulator_put .vdd_ana, .devm_pinctrl_put] ∧
    (gt1x_ts_probe Config.plain ProbeEnv.wakeupMissing Dev.init).map (fun r => r.1) =
      some (-19) ∧
    requestedGpios (probeIssued Config.plain ProbeEnv.wakeupMissing Dev.init) = [] ∧
    (probeIssued Config.plain ProbeEnv.wakeupMissing Dev.init).filter isRelOrPut =
      [.devm_pinctrl_put, .gpio_free 80, .gpio_free 71, .regulator_put .vdd_ana] := by
  decide

theorem filter_nil_of_forall {P : Action → Bool} {l : List Action}
    (h : ∀ a ∈ l, P a = false) : l.filter P = [] := by
  rw [List.filter_eq_nil_iff]
  intro a ha
  simp [h a ha]

theorem releaseGpioCalls_quiet (cfg : Config) (s : Dev) :
    ∀ a ∈ releaseGpioCalls cfg s, isReset a = false ∧ isLate a = false := by
  unfold releaseGpioCalls
  split_ifs <;> simp [isReset, isLate]

theorem releaseRailCalls_quiet (pe : PowerEnv) (s : Dev) :
    ∀ a ∈ releaseRailCalls pe s, isReset a = false ∧ isLate a = false := by
  unfold releaseRailCalls
  split_ifs
  · intro a ha
    rcases List.mem_append.mp ha with h | h
    · have := powerCalls_quiet pe SWITCH_OFF s a h
      exact ⟨isReset_of_milestone a this, isLate_of_milestone a this⟩
    · simp at h
      rw [h]
      exact ⟨rfl, rfl⟩
  · simp

theorem releasePinCalls_quiet (s : Dev) :
    ∀ a ∈ releasePinCalls s, isReset a = false ∧ isLate a = false := by
  unfold releasePinCalls
  cases s.gt_pinctrl with
  | none => simp
  | some p =>
    simp only []
    split_ifs <;> simp [isReset, isLate]

theorem releaseInputCalls_quiet (s : Dev) :
    ∀ a ∈ releaseInputCalls s, isReset a = false ∧ isLate a = false := by
  unfold releaseInputCalls
  split_ifs <;> simp [isReset, isLate]

theorem cleanupCalls_quiet (cfg : Config) (pe : PowerEnv) (s : Dev) :
    ∀ a ∈ cleanupCalls cfg pe s, isReset a = false ∧ isLate a = false := by
  intro a ha
  unfold cleanupCalls at ha
  simp only [List.mem_append] at ha
  rcases ha with ((h | h) | h) | h
  · exact releaseGpioCalls_quiet cfg s a h
  · exact releaseRailCalls_quiet pe s a h
  · exact releasePinCalls_quiet s a h
  · exact releaseInputCalls_quiet s a h

theorem cleanupCalls_no_reset (cfg : Config) (pe : PowerEnv) (s : Dev) :
    (cleanupCalls cfg pe s).filter isReset = [] :=
  filter_nil_of_forall (fun a ha => (cleanupCalls_quiet cfg pe s a ha).1)

theorem cleanupCalls_no_late (cfg : Config) (pe : PowerEnv) (s : Dev) :
    (cleanupCalls cfg pe s).filter isLate = [] :=
  filter_nil_of_forall (fun a ha => (cleanupCalls_quiet cfg pe s a ha).2)

theorem powerCalls_no_reset (pe : PowerEnv) (sw : Int) (s : Dev) :
    (powerCalls pe sw s).filter isReset = [] :=
  filter_nil_of_forall (fun a ha => isReset_of_milestone a (powerCalls_quiet pe sw s a ha))

theorem powerCalls_no_late (pe : PowerEnv) (sw : Int) (s : Dev) :
    (powerCalls pe sw s).filter isLate = [] :=
  filter_nil_of_forall (fun a ha => isLate_of_milestone a (powerCalls_quiet pe sw s a ha))

/-- Log of lines 824-864 entered in `s`: it starts with `gt1x_init` and has no
reset. -/
theorem probe_after_reset_log (cfg : Config) (env : ProbeEnv) (s : Dev) (hg : Good s) :
    ∃ ret s1 rest, probe_after_reset cfg env s = some (ret, s1) ∧
      s1.log = s.log ++ rest ∧ rest.head? = some .gt1x_init ∧ rest.filter isReset = [] := by
  rcases probe_after_reset_cases cfg env s hg with ⟨s1, h, l, hl, hq⟩ | ⟨mid, gm, ⟨l, hl, hq⟩, h⟩
  · refine ⟨0, s1, .gt1x_init :: l, h, by simp [hl, emit], rfl, ?_⟩
    have : l.filter isReset = [] :=
      filter_nil_of_forall (fun a ha => by
        have := hq a ha
        simp only [isResetOrRelease, Bool.or_eq_false_iff] at this
        exact this.1)
    simp [List.filter_cons, isReset, this]
  · rw [exit_clean_spec cfg env mid gm] at h
    refine ⟨_, _, .gt1x_init :: (l ++ cleanupCalls cfg env.cleanup_off mid), h,
      by simp [hl, emit], rfl, ?_⟩
    have : l.filter isReset = [] :=
      filter_nil_of_forall (fun a ha => by
        have := hq a ha
        simp only [isResetOrRelease, Bool.or_eq_false_iff] at this
        exact this.1)
    simp [List.filter_cons, List.filter_append, isReset, this, cleanupCalls_no_reset]

/-- Log of lines 808-864 entered in `mid`. -/
theorem probe_reset_log (cfg : Config) (env : ProbeEnv) (mid : Dev) (hg : Good mid) :
    ∃ ret s1 post, probe_reset cfg env mid = some (ret, s1) ∧
      s1.log = mid.log ++ [.gt1x_reset_guitar env.reset_ret] ++ post ∧
      RetrySpec cfg env mid ret post := by
  rw [probe_reset_eq cfg env mid hg.1]
  by_cases c0 : env.reset_ret = 0
  · rw [if_neg (not_not.mpr c0)]
    obtain ⟨ret, s1, rest, h, hl, hh, hr⟩ :=
      probe_after_reset_log cfg env (afterFirstReset env mid) hg
    exact ⟨ret, s1, rest, h, by simp [hl, afterFirstReset, emit], Or.inl ⟨c0, hh, hr⟩⟩
  rw [if_pos c0]
  by_cases c1 : powerRet env.retry_off mid < 0
  · rw [if_pos c1, exit_clean_spec cfg env (afterRetryOff env mid) hg]
    refine ⟨_, _, _, rfl, ?_, Or.inr (Or.inl ⟨c0, c1, rfl, rfl⟩)⟩
    simp [afterRetryOff, afterFirstReset, emit, Dev.extend, cleanupCalls, releaseGpioCalls,
      releaseRailCalls, releasePinCalls, releaseInputCalls, powerCalls]
  rw [if_neg c1]
  by_cases c2 : powerRet env.retry_on mid < 0
  · rw [if_pos c2, exit_clean_spec cfg env (afterRetryOn env mid) hg]
    refine ⟨_, _, _, rfl, ?_, Or.inr (Or.inr (Or.inl ⟨c0, not_lt.mp c1, c2, rfl, rfl⟩))⟩
    simp [afterRetryOn, afterRetryOff, afterFirstReset, emit, Dev.extend, cleanupCalls,
      releaseGpioCalls, releaseRailCalls, releasePinCalls, releaseInputCalls, powerCalls]
  rw [if_neg c2]
  by_cases c3 : env.retry_reset_ret = 0
  · rw [if_neg (not_not.mpr c3)]
    obtain ⟨ret, s1, rest, h, hl, hh, hr⟩ :=
      probe_after_reset_log cfg env (afterSecondReset env mid) hg
    refine ⟨ret, s1, _, h, ?_, Or.inr (Or.inr (Or.inr (Or.inr
      ⟨c0, not_lt.mp c1, not_lt.mp c2, c3, rest, rfl, hh, hr⟩)))⟩
    simp [hl, afterSecondReset, afterRetryOn, afterRetryOff, afterFirstReset, emit, Dev.extend]
  · rw [if_pos c3, exit_clean_spec cfg env (afterSecondReset env mid) hg]
    refine ⟨_, _, _, rfl, ?_, Or.inr (Or.inr (Or.inr (Or.inl
      ⟨c0, not_lt.mp c1, not_lt.mp c2, c3, rfl, rfl, ?_⟩)))⟩
    · simp [afterSecondReset, afterRetryOn, afterRetryOff, afterFirstReset, emit, Dev.extend,
        cleanupCalls, releaseGpioCalls, releaseRailCalls, releasePinCalls, releaseInputCalls,
        powerCalls]
    · simp [List.filter_append, powerCalls_no_late, cleanupCalls_no_late, isLate]

/-- After the first reset there is at most one more. -/
theorem retrySpec_resets (cfg : Config) (env : ProbeEnv) (mid : Dev) (ret : Int)
    (post : List Action) (h : RetrySpec cfg env mid ret post) :
    (post.filter isReset).length ≤ 1 := by
  rcases h with ⟨_, _, h⟩ | ⟨_, _, _, h⟩ | ⟨_, _, _, _, h⟩ | ⟨_, _, _, _, _, h, _⟩ |
    ⟨_, _, _, _, rest, h, _, hr⟩
  · simp [h]
  · simp [h, List.filter_append, powerCalls_no_reset, cleanupCalls_no_reset]
  · simp [h, List.filter_append, powerCalls_no_reset, cleanupCalls_no_reset]
  · simp [h, List.filter_append, powerCalls_no_reset, cleanupCalls_no_reset, isReset]
  · simp [h, List.filter_append, powerCalls_no_reset, hr, isReset]

/-- C7 (as stated, refuted). The chip does not answer the first reset and the
following `gt1x_power_switch(SWITCH_OFF)` returns -5: the probe returns
`-ENODEV` having called `gt1x_reset_guitar` once only, and what follows that
call is the power-off and the cleanup, with no power-on and no retry. -/
theorem probe_retry_skipped_when_power_off_fails :
    (gt1x_ts_probe Config.plain ProbeEnv.offFails Dev.init).map (fun r => r.1) = some (-19) ∧
    (probeIssued Config.plain ProbeEnv.offFails Dev.init).filter isReset =
      [.gt1x_reset_guitar (-1)] ∧
    (probeIssued Config.plain ProbeEnv.offFails Dev.init).dropWhile (fun a => !isReset a) =
      [.gt1x_reset_guitar (-1),
       .gpio_direction_output 68 0, .gpio_direction_output 69 0,
       .regulator_disable .vdd_ana (-5), .regulator_set_load .vdd_ana 0,
       .usleep_range 10000 10100,
       .gpio_direction_input 80, .gpio_free 80, .gpio_direction_output 71 0, .gpio_free 71,
       .gpio_direction_output 68 0, .gpio_direction_output 69 0,
       .regulator_disable .vdd_ana 0, .regulator_set_load .vdd_ana 0,
       .usleep_range 10000 10100, .regulator_put .vdd_ana,
       .devm_pinctrl_put] := by
  decide

/-- C7 (amended). For every run of `gt1x_ts_probe` that gets as far as pin-mux
initialisation, `gt1x_reset_guitar` is called at most twice.  If it is called at
all, then after the first call:
* if that call returned 0, the next call is `gt1x_init` and there is no further
  reset;
* otherwise `gt1x_power_switch(SWITCH_OFF)` runs; if it returns a negative
  value the cleanup follows at once and the probe returns `-ENODEV`;
* otherwise `gt1x_power_switch(SWITCH_ON)` runs; if it returns a negative value
  the cleanup follows at once and the probe returns `-ENODEV`;
* otherwise `gt1x_reset_guitar` is called once more; if it fails, the cleanup
  follows, the probe returns `-ENODEV`, and none of `gt1x_init`,
  `input_allocate_device`, `devm_request_threaded_irq` is ever called; if it
  succeeds the next call is `gt1x_init` and there is no further reset. -/
theorem probe_reset_retry (cfg : Config) (env : ProbeEnv) (s : Dev)
    (hreach : ReachesAcquire cfg env s)
    (halloc : s.gt_pinctrl ≠ none ∨ env.pinctrl.kmalloc_result ≠ none) :
    ∃ ret s1 L, gt1x_ts_probe cfg env s = some (ret, s1) ∧ s1.log = s.log ++ L ∧
      (L.filter isReset).length ≤ 2 ∧
      (L.filter isReset = [] ∨
        ∃ mid pre post, mid.log = s.log ++ pre ∧ (∀ a ∈ pre, isMilestone a = false) ∧
          L = pre ++ [.gt1x_reset_guitar env.reset_ret] ++ post ∧
          RetrySpec cfg env mid ret post) := by
  rw [probe_eq_acquire cfg env s hreach]
  obtain ⟨b0, g0, q0⟩ := acquireEntry_frame cfg env s
  have halloc1 : (acquireEntry cfg env s).gt_pinctrl ≠ none ∨
      env.pinctrl.kmalloc_result ≠ none := by rw [g0]; exact halloc
  obtain ⟨mid, gm, qm, h | h⟩ := probe_acquire_cases cfg env (acquireEntry cfg env s) b0 halloc1
  · obtain ⟨pre, hpre, hq⟩ := q0.trans qm
    rw [h, exit_clean_spec cfg env mid gm]
    have hnil : (pre ++ cleanupCalls cfg env.cleanup_off mid).filter isReset = [] := by
      rw [List.filter_append, cleanupCalls_no_reset,
        filter_nil_of_forall (fun a ha => isReset_of_milestone a (hq a ha))]
      rfl
    refine ⟨_, _, pre ++ cleanupCalls cfg env.cleanup_off mid, rfl, ?_, ?_, Or.inl hnil⟩
    · simp [hpre]
    · simp [hnil]
  · obtain ⟨pre, hpre, hq⟩ := q0.trans qm
    obtain ⟨ret, s1, post, hr, hl, hs⟩ := probe_reset_log cfg env mid gm
    rw [h, hr]
    refine ⟨ret, s1, pre ++ [.gt1x_reset_guitar env.reset_ret] ++ post, rfl, ?_, ?_,
      Or.inr ⟨mid, pre, post, hpre, hq, rfl, hs⟩⟩
    · simp [hl, hpre]
    · have h1 := retrySpec_resets cfg env mid ret post hs
      have h0 : pre.filter isReset = [] :=
        filter_nil_of_forall (fun a ha => isReset_of_milestone a (hq a ha))
      simp only [List.filter_append, h0, List.nil_append, List.length_append]
      simp [isReset]
      omega

theorem probe_reset_retry_witness :
    ReachesAcquire Config.plain ProbeEnv.secondTry Dev.init ∧
    ∃ ret s1 L, gt1x_ts_probe Config.plain ProbeEnv.secondTry Dev.init = some (ret, s1) ∧
      s1.log = Dev.init.log ++ L ∧
      (L.filter isReset).length ≤ 2 ∧
      (L.filter isReset = [] ∨
        ∃ mid pre post, mid.log = Dev.init.log ++ pre ∧ (∀ a ∈ pre, isMilestone a = false) ∧
          L = pre ++ [.gt1x_reset_guitar ProbeEnv.secondTry.reset_ret] ++ post ∧
          RetrySpec Config.plain ProbeEnv.secondTry mid ret post) :=
  have hreach : ReachesAcquire Config.plain ProbeEnv.secondTry Dev.init := by
    refine ⟨by decide, by decide, by decide⟩
  ⟨hreach, probe_reset_retry Config.plain ProbeEnv.secondTry Dev.init hreach
    (Or.inr (by decide))⟩

/-! ## Theorems: touch reporting -/

/-- Calls of `gt1x_touch_down`, and everything but the log left alone. -/
theorem touch_down_spec (ic : InputConfig) (x y size id : Int) (s : Dev) :
    gt1x_touch_down ic x y size id s = s.extend (touchDownCalls ic x y size id) := by
  unfold gt1x_touch_down touchDownCalls GTP_SWAP
  cases ic.GTP_CHANGE_X2Y <;> cases ic.GTP_TYPE_B_PROTOCOL <;> simp [emit, Dev.extend]

/-- C12 (as stated, refuted). On a panel declared as 1080 x 2160,
`gt1x_touch_down(5000, 200, 50, 0)` reports `ABS_MT_POSITION_X = 5000`, above
the declared maximum 1080: nothing is clamped. -/
theorem touch_down_exceeds_declared_max :
    declaredMax InputConfig.panel .ABS_MT_POSITION_X = some 1080 ∧
    reportedAbs .ABS_MT_POSITION_X (gt1x_touch_down InputConfig.panel 5000 200 50 0 Dev.init).log =
      [5000] ∧
    ¬ ((5000 : Int) ≤ 1080) := by
  decide

/-- C12 (amended). Every call `gt1x_touch_down(x, y, size, id)` reports
`BTN_TOUCH = 1`, the slot (type B) or tracking id (type A) `id`, then
`ABS_MT_POSITION_X`, `ABS_MT_POSITION_Y` with the two coordinates exchanged when
`CONFIG_GTP_CHANGE_X2Y` is set and otherwise unchanged, then pressure and touch
major both equal to `size`.  The coordinates are reported as given: they are
within the maxima declared for their axes in `gt1x_request_input_dev` exactly
when `x ≤ gt1x_abs_x_max` and `y ≤ gt1x_abs_y_max`. -/
theorem touch_down_reports_unclamped (ic : InputConfig) (x y size id : Int) (s : Dev) :
    (gt1x_touch_down ic x y size id s).log =
      s.log ++
        ([.input_report_key .BTN_TOUCH 1] ++
          (if ic.GTP_TYPE_B_PROTOCOL then [.input_mt_slot id, .input_mt_report_slot_state true]
           else [.input_report_abs .ABS_MT_TRACKING_ID id]) ++
          [.input_report_abs .ABS_MT_POSITION_X (if ic.GTP_CHANGE_X2Y then y else x),
           .input_report_abs .ABS_MT_POSITION_Y (if ic.GTP_CHANGE_X2Y then x else y),
           .input_report_abs .ABS_MT_PRESSURE size,
           .input_report_abs .ABS_MT_TOUCH_MAJOR size] ++
          (if ic.GTP_TYPE_B_PROTOCOL then [] else [.input_mt_sync])) ∧
    declaredMax ic .ABS_MT_POSITION_X =
      some (if ic.GTP_CHANGE_X2Y then ic.gt1x_abs_y_max else ic.gt1x_abs_x_max) ∧
    declaredMax ic .ABS_MT_POSITION_Y =
      some (if ic.GTP_CHANGE_X2Y then ic.gt1x_abs_x_max else ic.gt1x_abs_y_max) ∧
    (((if ic.GTP_CHANGE_X2Y then y else x) ≤
          (if ic.GTP_CHANGE_X2Y then ic.gt1x_abs_y_max else ic.gt1x_abs_x_max) ∧
        (if ic.GTP_CHANGE_X2Y then x else y) ≤
          (if ic.GTP_CHANGE_X2Y then ic.gt1x_abs_x_max else ic.gt1x_abs_y_max)) ↔
      (x ≤ ic.gt1x_abs_x_max ∧ y ≤ ic.gt1x_abs_y_max)) := by
  refine ⟨?_, ?_, ?_, ?_⟩
  · rw [touch_down_spec]
    rfl
  · unfold declaredMax input_abs_setup
    cases ic.GTP_CHANGE_X2Y <;> simp
  · unfold declaredMax input_abs_setup
    cases ic.GTP_CHANGE_X2Y <;> simp
  · cases ic.GTP_CHANGE_X2Y <;> simp
    exact And.comm

/-! ## Theorems: dispatch on the status byte -/

/-- Path of a run that reaches the read and reads successfully. -/
theorem workPath_read_ok (cfg : Config) (env : WorkEnv) (hr : ReachesRead cfg env)
    (hok : 0 ≤ env.read_ret) :
    workPath cfg env =
      ((if cfg.GTP_GESTURE_WAKEUP then [Action.gesture_event_handler] else []) ++
          [Action.gt1x_i2c_read cfg.GTP_READ_COOR_ADDR 11] ++ (dispatchPath cfg env).1,
        (dispatchPath cfg env).2) := by
  obtain ⟨hu, hg, hh⟩ := hr
  unfold workPath
  simp only [hu, ne_eq, not_true_eq_false, if_false, hg, hh, not_lt.mpr hok]

/-- Path of the dispatch stage when HotKnot is not compiled in. -/
theorem dispatchPath_no_hotknot (cfg : Config) (env : WorkEnv)
    (hk : cfg.HOTKNOT_BLOCK_RW = false) :
    dispatchPath cfg env =
      if fingerByte env &&& 0x80 = 0 then
        (if fingerByte env = 0 then [Action.gt1x_request_event_handler] else [], .eint)
      else if cfg.GTP_PROXIMITY = true ∧ env.prox_ret > 0 then
        ((if fingerByte env = 0 then [Action.gt1x_request_event_handler] else []) ++
            [Action.gt1x_prox_event_handler env.point_data], .work env.prox_ret)
      else
        ((if fingerByte env = 0 then [Action.gt1x_request_event_handler] else []) ++
            (if cfg.GTP_PROXIMITY then [Action.gt1x_prox_event_handler env.point_data]
              else []) ++
            [Action.gt1x_touch_event_handler env.point_data cfg.GTP_WITH_STYLUS],
          .work env.touch_ret) := by
  unfold dispatchPath decodePath
  simp only [hk, Bool.false_eq_true, false_and, if_false, true_or, and_true, List.nil_append]
  split_ifs <;> simp_all

/-- Status byte 0 has bit 0x80 clear. -/
theorem fingerByte_zero_bit (env : WorkEnv) (h : fingerByte env = 0) :
    fingerByte env &&& 0x80 = 0 := by
  rw [h]
  rfl

/-- Nothing issued from the exit label on is a decoder call or a touch event. -/
theorem exitCalls_no_decode (cfg : Config) (env : WorkEnv) (flag : Int) (e : WorkExit) :
    (exitCalls cfg env flag e).filter isDecode = [] ∧
    (exitCalls cfg env flag e).filter isTouchEvent = [] := by
  cases e <;> simp only [exitCalls] <;> (try split_ifs) <;>
    simp [isDecode, isTouchEvent, List.filter_append]

theorem exitCalls_filter_decode (cfg : Config) (env : WorkEnv) (flag : Int) (e : WorkExit) :
    (exitCalls cfg env flag e).filter isDecode = [] :=
  (exitCalls_no_decode cfg env flag e).1

/-- The calls of a run that reads successfully, HotKnot not compiled in, split
by the status byte. -/
theorem issued_read_ok (cfg : Config) (env : WorkEnv) (s : Dev)
    (hread : Action.gt1x_i2c_read cfg.GTP_READ_COOR_ADDR 11 ∈ issued cfg env s)
    (hok : 0 ≤ env.read_ret) (hk : cfg.HOTKNOT_BLOCK_RW = false) :
    issued cfg env s =
      ((if cfg.GTP_GESTURE_WAKEUP then [Action.gesture_event_handler] else []) ++
        [Action.gt1x_i2c_read cfg.GTP_READ_COOR_ADDR 11] ++
        (if fingerByte env = 0 then [Action.gt1x_request_event_handler] else [])) ++
      (if fingerByte env &&& 0x80 = 0 then
        exitCalls cfg env s.irq_disabled .eint
      else if cfg.GTP_PROXIMITY = true ∧ env.prox_ret > 0 then
        [Action.gt1x_prox_event_handler env.point_data] ++
          exitCalls cfg env s.irq_disabled (.work env.prox_ret)
      else
        (if cfg.GTP_PROXIMITY then [Action.gt1x_prox_event_handler env.point_data] else []) ++
          [Action.gt1x_touch_event_handler env.point_data cfg.GTP_WITH_STYLUS] ++
          exitCalls cfg env s.irq_disabled (.work env.touch_ret)) := by
  have hr := read_issued_reaches cfg env s hread
  rw [issued_eq_path, workPath_read_ok cfg env hr hok, dispatchPath_no_hotknot cfg env hk]
  split_ifs <;> simp

/-- C13 (as stated, refuted). With the proximity feature compiled in and
`gt1x_prox_event_handler` claiming the report (return value 1), a successfully
read report with status byte 0x81 (bit 0x80 set, HotKnot not compiled in) is not
passed to `gt1x_touch_event_handler`. -/
theorem decoder_skipped_when_proximity_claims :
    Config.withProximity.HOTKNOT_BLOCK_RW = false ∧
    fingerByte WorkEnv.proximityClaims = 0x81 ∧
    issued Config.withProximity WorkEnv.proximityClaims Dev.claimed =
      [.gt1x_i2c_read 0x814E 11,
       .gt1x_prox_event_handler [0x81, 100, 0, 200, 0, 50, 0, 0, 0, 0, 0],
       .gt1x_i2c_write 0x814E [0], .enable_irq] ∧
    (issued Config.withProximity WorkEnv.proximityClaims Dev.claimed).filter isDecode = [] := by
  decide

/-- C13 (amended). On a successful report read with HotKnot not compiled in:
with status byte 0x00 the run issues, after the read, exactly
`gt1x_request_event_handler` and then (the flag being set) `enable_irq` - no
decoder call, no touch event, no acknowledgment write - and returns
`IRQ_HANDLED` with `irq_disabled = 0`; with bit 0x80 of the status byte clear
the decoder is not invoked; with bit 0x80 set the decoder is invoked exactly
once, with the report buffer, unless the proximity handler is compiled in and
returns a positive value, in which case the decoder is not invoked. -/
theorem status_byte_dispatch (cfg : Config) (env : WorkEnv) (s : Dev)
    (hread : Action.gt1x_i2c_read cfg.GTP_READ_COOR_ADDR 11 ∈ issued cfg env s)
    (hok : 0 ≤ env.read_ret) (hk : cfg.HOTKNOT_BLOCK_RW = false) :
    (fingerByte env = 0 →
      issued cfg env s =
        (if cfg.GTP_GESTURE_WAKEUP then [Action.gesture_event_handler] else []) ++
          [.gt1x_i2c_read cfg.GTP_READ_COOR_ADDR 11, .gt1x_request_event_handler] ++
          (if s.irq_disabled ≠ 0 then [Action.enable_irq] else []) ∧
      (issued cfg env s).count .gt1x_request_event_handler = 1 ∧
      (issued cfg env s).filter isDecode = [] ∧
      (issued cfg env s).filter isTouchEvent = [] ∧
      (issued cfg env s).filter isWrite = [] ∧
      (gt1x_ts_work_thread cfg env s).1 = .IRQ_HANDLED ∧
      (gt1x_ts_work_thread cfg env s).2.irq_disabled = 0) ∧
    (fingerByte env &&& 0x80 = 0 → (issued cfg env s).filter isDecode = []) ∧
    (fingerByte env &&& 0x80 ≠ 0 →
      (issued cfg env s).filter isDecode =
        if cfg.GTP_PROXIMITY = true ∧ env.prox_ret > 0 then []
        else [.gt1x_touch_event_handler env.point_data cfg.GTP_WITH_STYLUS]) := by
  have hi := issued_read_ok cfg env s hread hok hk
  have hr := read_issued_reaches cfg env s hread
  refine ⟨?_, ?_, ?_⟩
  · intro hz
    have hb := fingerByte_zero_bit env hz
    have hlog : issued cfg env s =
        (if cfg.GTP_GESTURE_WAKEUP then [Action.gesture_event_handler] else []) ++
          [.gt1x_i2c_read cfg.GTP_READ_COOR_ADDR 11, .gt1x_request_event_handler] ++
          (if s.irq_disabled ≠ 0 then [Action.enable_irq] else []) := by
      rw [hi]
      simp [hz, exitCalls]
    have hp : (workPath cfg env).2 = .eint := by
      rw [workPath_read_ok cfg env hr hok, dispatchPath_no_hotknot cfg env hk]
      simp [hb]
    refine ⟨hlog, ?_, ?_, ?_, ?_, ?_, ?_⟩
    · rw [hlog]; split_ifs <;> simp
    · rw [hlog]; split_ifs <;> simp [isDecode]
    · rw [hlog]; split_ifs <;> simp [isTouchEvent]
    · rw [hlog]; split_ifs <;> simp [isWrite]
    · rw [work_thread_eq_path, hp]
      rfl
    · rw [work_thread_flag, hp]
      simp
  · intro hb
    rw [hi]
    simp only [hb, if_true, List.filter_append, exitCalls_filter_decode]
    split_ifs <;> simp [isDecode]
  · intro hb
    rw [hi]
    simp only [hb, if_false]
    by_cases hp : cfg.GTP_PROXIMITY = true ∧ env.prox_ret > 0
    · simp only [hp, and_self, if_true, List.filter_append, exitCalls_filter_decode]
      split_ifs <;> simp [isDecode]
    · simp only [hp, if_false, List.filter_append, exitCalls_filter_decode]
      split_ifs <;> simp [isDecode]

theorem status_byte_dispatch_witness :
    issued Config.plain WorkEnv.statusZero Dev.claimed =
      [.gt1x_i2c_read Config.plain.GTP_READ_COOR_ADDR 11, .gt1x_request_event_handler,
       .enable_irq] ∧
    (issued Config.plain WorkEnv.touchFrame Dev.claimed).filter isDecode =
      [.gt1x_touch_event_handler WorkEnv.touchFrame.point_data false] := by
  have h0 := (status_byte_dispatch Config.plain WorkEnv.statusZero Dev.claimed
    (by decide) (by decide) rfl).1 (by decide)
  have h1 := (status_byte_dispatch Config.plain WorkEnv.touchFrame Dev.claimed
    (by decide) (by decide) rfl).2.2 (by decide)
  exact ⟨by simpa using h0.1, by simpa using h1⟩

theorem exitCalls_filter_touch (cfg : Config) (env : WorkEnv) (flag : Int) (e : WorkExit) :
    (exitCalls cfg env flag e).filter isTouchEvent = [] :=
  (exitCalls_no_decode cfg env flag e).2

/-- A successfully read report whose status byte has bit 0x80 clear (HotKnot not
compiled in) leads to no decoder call and no touch event. -/
theorem no_event_without_ready_bit (cfg : Config) (env : WorkEnv) (s : Dev)
    (hread : Action.gt1x_i2c_read cfg.GTP_READ_COOR_ADDR 11 ∈ issued cfg env s)
    (hok : 0 ≤ env.read_ret) (hk : cfg.HOTKNOT_BLOCK_RW = false)
    (hb : fingerByte env &&& 0x80 = 0) :
    (issued cfg env s).filter isDecode = [] ∧ (issued cfg env s).filter isTouchEvent = [] ∧
    (issued cfg env s).count .gt1x_request_event_handler =
      if fingerByte env = 0 then 1 else 0 := by
  rw [issued_read_ok cfg env s hread hok hk]
  simp only [hb, if_true, List.filter_append, exitCalls_filter_decode, exitCalls_filter_touch]
  refine ⟨?_, ?_, ?_⟩
  · split_ifs <;> simp [isDecode]
  · split_ifs <;> simp [isTouchEvent]
  · simp only [exitCalls]
    split_ifs <;> simp

/-- Calls of `gt1x_touch_up`, and everything but the log left alone. -/
theorem touch_up_spec (ic : InputConfig) (id : Int) (s : Dev) :
    gt1x_touch_up ic id s = s.extend (touchUpCalls ic id) := by
  unfold gt1x_touch_up touchUpCalls
  cases ic.GTP_TYPE_B_PROTOCOL <;> simp [emit, Dev.extend]

/-- C11 (as stated, refuted). Processing a successfully read report with status
byte 0x02 and slot 0 at (100, 200), size 50, issues the read and `enable_irq`
and nothing else: the decoder is not called and no touch-down is reported.
Processing a following report with status byte 0x00 issues the read,
`gt1x_request_event_handler` and `enable_irq`: no touch-up is reported. -/
theorem status_two_report_yields_no_touch_down :
    fingerByte WorkEnv.statusTwo = 0x02 ∧ 0 ≤ WorkEnv.statusTwo.read_ret ∧
    issued Config.plain WorkEnv.statusTwo Dev.claimed = [.gt1x_i2c_read 0x814E 11, .enable_irq] ∧
    (issued Config.plain WorkEnv.statusTwo Dev.claimed).filter isDecode = [] ∧
    (issued Config.plain WorkEnv.statusTwo Dev.claimed).filter isTouchEvent = [] ∧
    issued Config.plain WorkEnv.statusZero
        (gt1x_ts_irq_handler
          (gt1x_ts_work_thread Config.plain WorkEnv.statusTwo Dev.claimed).2).2 =
      [.gt1x_i2c_read 0x814E 11, .gt1x_request_event_handler, .enable_irq] := by
  decide

/-- C11 (amended). With HotKnot not compiled in, processing a successfully read
report with status byte 0x02 invokes no decoder and reports no touch event, and
processing a following report with status byte 0x00 invokes
`gt1x_request_event_handler` once, no decoder, and reports no touch event (so
no touch-up; the decoder, which owns the slot table, is not entered).  The
events themselves come from `gt1x_touch_down` / `gt1x_touch_up`:
`gt1x_touch_down(100, 200, 50, 0)` reports exactly one touch-down with slot or
tracking id 0, position (100, 200) (exchanged under axis swap), pressure and
touch major 50, and `gt1x_touch_up(0)` reports exactly one touch-up (slot 0
released under type B, a bare sync under type A). -/
theorem report_without_ready_bit_yields_no_event (cfg : Config) (env1 env2 : WorkEnv)
    (s : Dev) (ic : InputConfig)
    (hk : cfg.HOTKNOT_BLOCK_RW = false)
    (h1 : Action.gt1x_i2c_read cfg.GTP_READ_COOR_ADDR 11 ∈ issued cfg env1 s)
    (hok1 : 0 ≤ env1.read_ret) (hs1 : fingerByte env1 = 0x02)
    (h2 : Action.gt1x_i2c_read cfg.GTP_READ_COOR_ADDR 11 ∈
      issued cfg env2 (gt1x_ts_irq_handler (gt1x_ts_work_thread cfg env1 s).2).2)
    (hok2 : 0 ≤ env2.read_ret) (hs2 : fingerByte env2 = 0x00) :
    ((issued cfg env1 s).filter isDecode = [] ∧
      (issued cfg env1 s).filter isTouchEvent = []) ∧
    ((issued cfg env2 (gt1x_ts_irq_handler (gt1x_ts_work_thread cfg env1 s).2).2).filter
        isDecode = [] ∧
      (issued cfg env2 (gt1x_ts_irq_handler (gt1x_ts_work_thread cfg env1 s).2).2).filter
        isTouchEvent = [] ∧
      (issued cfg env2 (gt1x_ts_irq_handler (gt1x_ts_work_thread cfg env1 s).2).2).count
        .gt1x_request_event_handler = 1) ∧
    (gt1x_touch_down ic 100 200 50 0 s).log =
      s.log ++
        ([.input_report_key .BTN_TOUCH 1] ++
          (if ic.GTP_TYPE_B_PROTOCOL then [.input_mt_slot 0, .input_mt_report_slot_state true]
           else [.input_report_abs .ABS_MT_TRACKING_ID 0]) ++
          [.input_report_abs .ABS_MT_POSITION_X (if ic.GTP_CHANGE_X2Y then 200 else 100),
           .input_report_abs .ABS_MT_POSITION_Y (if ic.GTP_CHANGE_X2Y then 100 else 200),
           .input_report_abs .ABS_MT_PRESSURE 50,
           .input_report_abs .ABS_MT_TOUCH_MAJOR 50] ++
          (if ic.GTP_TYPE_B_PROTOCOL then [] else [.input_mt_sync])) ∧
    (gt1x_touch_up ic 0 s).log =
      s.log ++
        (if ic.GTP_TYPE_B_PROTOCOL then [.input_mt_slot 0, .input_mt_report_slot_state false]
         else [.input_mt_sync]) := by
  have hb1 : fingerByte env1 &&& 0x80 = 0 := by rw [hs1]; rfl
  have hb2 : fingerByte env2 &&& 0x80 = 0 := by rw [hs2]; rfl
  have r1 := no_event_without_ready_bit cfg env1 s h1 hok1 hk hb1
  have r2 := no_event_without_ready_bit cfg env2 _ h2 hok2 hk hb2
  refine ⟨⟨r1.1, r1.2.1⟩, ⟨r2.1, r2.2.1, ?_⟩, ?_, ?_⟩
  · rw [r2.2.2, if_pos hs2]
  · rw [touch_down_spec]
    rfl
  · rw [touch_up_spec]
    rfl

theorem report_without_ready_bit_yields_no_event_witness :
    ((issued Config.plain WorkEnv.statusTwo Dev.claimed).filter isDecode = [] ∧
      (issued Config.plain WorkEnv.statusTwo Dev.claimed).filter isTouchEvent = []) ∧
    (gt1x_touch_down InputConfig.panel 100 200 50 0 Dev.claimed).log =
      Dev.claimed.log ++
        [.input_report_key .BTN_TOUCH 1, .input_mt_slot 0, .input_mt_report_slot_state true,
         .input_report_abs .ABS_MT_POSITION_X 100, .input_report_abs .ABS_MT_POSITION_Y 200,
         .input_report_abs .ABS_MT_PRESSURE 50, .input_report_abs .ABS_MT_TOUCH_MAJOR 50] ∧
    (gt1x_touch_up InputConfig.panel 0 Dev.claimed).log =
      Dev.claimed.log ++ [.input_mt_slot 0, .input_mt_report_slot_state false] := by
  have h := report_without_ready_bit_yields_no_event Config.plain WorkEnv.statusTwo
    WorkEnv.statusZero Dev.claimed InputConfig.panel rfl (by decide) (by decide) (by decide)
    (by decide) (by decide) (by decide)
  exact ⟨h.1, by simpa [InputConfig.panel] using h.2.2.1, by simpa [InputConfig.panel] using h.2.2.2⟩

/-! ## Theorems: power state across the retry -/

theorem powerState_append (pwr pwrio : Int) (l1 l2 : List Action) :
    powerState pwr pwrio (l1 ++ l2) = l2.foldl (powerStep pwr pwrio) (powerState pwr pwrio l1) := by
  simp [powerState, List.foldl_append]

/-- Effect of the calls of a power-on that does not fail. -/
theorem powerOn_effect (pe : PowerEnv) (s : Dev) (p : PowerState)
    (h : 0 ≤ powerRet pe s) :
    (powerCalls pe SWITCH_ON s).foldl (powerStep s.gt1x_pwr_gpio s.gt1x_pwrio_gpio) p =
      { pwr_level := some 1, pwrio_level := some 1,
        rail_count := p.rail_count + (if s.vdd_ana.isSome then 1 else 0),
        pin_state := p.pin_state } := by
  unfold powerRet at h
  unfold powerCalls
  cases hv : s.vdd_ana with
  | none => simp [SWITCH_ON, powerStep]
  | some v =>
    simp only [hv, Option.isSome_some, if_true] at h
    simp [SWITCH_ON, powerStep, not_lt.mpr h]

/-- Effect of the calls of a power-off that does not fail. -/
theorem powerOff_effect (pe : PowerEnv) (s : Dev) (p : PowerState)
    (h : 0 ≤ powerRet pe s) :
    (powerCalls pe SWITCH_OFF s).foldl (powerStep s.gt1x_pwr_gpio s.gt1x_pwrio_gpio) p =
      { pwr_level := some 0, pwrio_level := some 0,
        rail_count := p.rail_count - (if s.vdd_ana.isSome then 1 else 0),
        pin_state := p.pin_state } := by
  unfold powerRet at h
  unfold powerCalls
  cases hv : s.vdd_ana with
  | none => simp [SWITCH_OFF, powerStep]
  | some v =>
    simp only [hv, Option.isSome_some, if_true] at h
    simp [SWITCH_OFF, powerStep, not_lt.mpr h]

theorem pinctrl_init_bound (pe : PinctrlEnv) (s : Dev) :
    (goodix_pinctrl_init pe s).2.client_bound = s.client_bound := by
  unfold goodix_pinctrl_init pinctrl_exit_put
  cases hs : s.gt_pinctrl with
  | none =>
    cases hk : pe.kmalloc_result with
    | none => simp [emit, hk]
    | some k =>
      simp only [emit, hk]
      split_ifs <;> simp [emit]
  | some p =>
    simp only [hs]
    split_ifs <;> simp [emit]

/-- A run that reaches reset-and-verify in `mid` continues as `probe_reset`
from `mid`; `mid` is the state after the first power-on, which did not fail. -/
theorem resetEntry_spec (cfg : Config) (env : ProbeEnv) (s mid : Dev)
    (hb : s.client_bound = true) (h : resetEntry env s = some mid) :
    probe_acquire cfg env s = probe_reset cfg env mid ∧ mid.client_bound = true ∧
    ∃ r3 : Dev, mid = r3.extend (powerCalls env.power_on SWITCH_ON r3) ∧
      0 ≤ powerRet env.power_on r3 := by
  unfold resetEntry at h
  unfold probe_acquire
  dsimp only at h ⊢
  have b1 := pinctrl_init_bound env.pinctrl s
  generalize goodix_pinctrl_init env.pinctrl s = r1 at b1 h ⊢
  by_cases c1 : r1.1 < 0
  · simp [c1] at h
  rw [if_neg c1] at h ⊢
  have b2 := (select_poweroff_frame env r1.1 r1.2).1
  generalize probe_select_poweroff env r1.1 r1.2 = r2 at b2 h ⊢
  by_cases c2 : r2.1 < 0
  · simp [c2] at h
  rw [if_neg c2] at h ⊢
  have b3 := (request_gpio_frame env.gpio r2.2).1
  generalize gt1x_request_gpio env.gpio r2.2 = r3 at b3 h ⊢
  by_cases c3 : r3.1 < 0
  · simp [c3] at h
  have hb3 : r3.2.client_bound = true := by rw [b3, b2, b1, hb]
  rw [if_neg c3, power_switch_spec _ _ _ hb3] at h ⊢
  dsimp only at h ⊢
  by_cases c4 : powerRet env.power_on r3.2 < 0
  · simp [c4] at h
  rw [if_neg c4] at h ⊢
  have hm : r3.2.extend (powerCalls env.power_on SWITCH_ON r3.2) = mid := Option.some.inj h
  subst hm
  exact ⟨rfl, hb3, r3.2, rfl, not_lt.mp c4⟩

/-! ## Theorems: the state in which the cleanup starts -/

/-- Lines 824-864 follow their path summary. -/
theorem probe_after_reset_eq_exit (cfg : Config) (env : ProbeEnv) (s : Dev) :
    probe_after_reset cfg env s = (afterResetExit cfg env s).finish cfg env := by
  unfold probe_after_reset afterResetExit probe_err_input
  dsimp only
  split_ifs <;> rfl

/-- Lines 808-864 follow their path summary. -/
theorem probe_reset_eq_exit (cfg : Config) (env : ProbeEnv) (s : Dev) :
    probe_reset cfg env s = (resetExit cfg env s).finish cfg env := by
  unfold probe_reset resetExit
  dsimp only
  split_ifs <;> first | rfl | exact probe_after_reset_eq_exit cfg env _

/-- Lines 779-864 follow their path summary. -/
theorem probe_acquire_eq_exit (cfg : Config) (env : ProbeEnv) (s : Dev) :
    probe_acquire cfg env s = (acquireExit cfg env s).finish cfg env := by
  unfold probe_acquire acquireExit
  dsimp only
  split_ifs <;> first | rfl | exact probe_reset_eq_exit cfg env _

theorem isRelease_of_relOrPut (a : Action) (h : isRelOrPut a = false) : isRelease a = false := by
  simp only [isRelOrPut, Bool.or_eq_false_iff] at h
  exact h.1

theorem isPut_of_relOrPut (a : Action) (h : isRelOrPut a = false) : isPut a = false := by
  simp only [isRelOrPut, Bool.or_eq_false_iff] at h
  exact h.2

theorem powerCalls_keep (pe : PowerEnv) (sw : Int) (s : Dev) :
    ∀ a ∈ powerCalls pe sw s, isRelOrPut a = false := by
  unfold powerCalls
  split_ifs <;> simp [isRelOrPut, isRelease, isPut]

theorem parse_dt_keep (cfg : Config) (dt : DtEnv) (s : Dev) :
    Quiet isRelOrPut s (gt1x_parse_dt cfg dt false s).2 := by
  rw [quiet_iff_drop]
  unfold gt1x_parse_dt
  simp only [Bool.false_eq_true, if_false]
  split_ifs <;> simp [emit, isRelOrPut, isRelease, isPut]

theorem select_poweroff_keep (env : ProbeEnv) (ret : Int) (s : Dev) :
    Quiet isRelOrPut s (probe_select_poweroff env ret s).2 := by
  rw [quiet_iff_drop]
  unfold probe_select_poweroff
  cases hs : s.gt_pinctrl with
  | none => simp [hs]
  | some p =>
    simp only []
    split_ifs <;> simp [hs, emit, isRelOrPut, isRelease, isPut]

theorem request_gpio_keep (ge : GpioEnv) (s : Dev) :
    Quiet isRelOrPut s (gt1x_request_gpio ge s).2 := by
  rw [quiet_iff_drop]
  unfold gt1x_request_gpio gpio_request
  by_cases h1 : ge.int_ret < 0 <;> by_cases h2 : ge.rst_ret < 0 <;>
    by_cases h3 : ge.pwr_ret < 0 <;> by_cases h4 : ge.pwrio_ret < 0 <;>
    simp [h1, h2, h3, h4, emit, isRelOrPut, isRelease, isPut]

theorem request_input_dev_keep (ie : InputEnv) (s : Dev) :
    Quiet isRelOrPut s (gt1x_request_input_dev ie s).2 := by
  rw [quiet_iff_drop]
  unfold gt1x_request_input_dev
  cases ie.alloc <;> simp only [] <;> (try split_ifs) <;>
    simp [emit, isRelOrPut, isRelease, isPut]

theorem request_irq_keep (irq_ret : Int) (s : Dev) :
    Quiet isRelOrPut s (gt1x_request_irq irq_ret s).2 := by
  rw [quiet_iff_drop]
  unfold gt1x_request_irq gt1x_irq_disable disable_irq
  by_cases h1 : irq_ret = 0 <;> by_cases h2 : s.irq_disabled = 0 <;>
    simp [h1, h2, emit, isRelOrPut, isRelease, isPut]

/-- A run of lines 824-859 that jumps to the cleanup does so with
`client_bound` and `gt_pinctrl` as on entry and without having given anything
back. -/
theorem afterResetExit_clean (cfg : Config) (env : ProbeEnv) (s mid : Dev)
    (h : afterResetExit cfg env s = .clean mid) :
    mid.client_bound = s.client_bound ∧ mid.gt_pinctrl = s.gt_pinctrl ∧
    Quiet isRelOrPut s mid := by
  unfold afterResetExit at h
  dsimp only at h
  obtain ⟨b1, g1, -⟩ := request_input_dev_frame env.input (emit .gt1x_init s)
  have q1 := request_input_dev_keep env.input (emit .gt1x_init s)
  generalize gt1x_request_input_dev env.input (emit .gt1x_init s) = r1 at b1 g1 q1 h
  have q0 : Quiet isRelOrPut s (emit .gt1x_init s) := (Quiet.refl _ s).emit .gt1x_init rfl
  by_cases c1 : r1.1 < 0
  · rw [if_pos c1] at h
    have hm : emit .gt1x_deinit r1.2 = mid := ProbeExit.clean.inj h
    subst hm
    exact ⟨b1, g1, (q0.trans q1).emit .gt1x_deinit rfl⟩
  rw [if_neg c1] at h
  obtain ⟨b2, g2, -⟩ := request_irq_frame env.irq_ret r1.2
  have q2 := request_irq_keep env.irq_ret r1.2
  generalize gt1x_request_irq env.irq_ret r1.2 = r2 at b2 g2 q2 h
  by_cases c2 : r2.1 < 0
  · rw [if_pos c2] at h
    have hm : emit .gt1x_deinit r2.2 = mid := ProbeExit.clean.inj h
    subst hm
    exact ⟨b2.trans b1, g2.trans g1, ((q0.trans q1).trans q2).emit .gt1x_deinit rfl⟩
  · rw [if_neg c2] at h
    exact absurd h (by simp)

/-- Lines 808-822 with `gt1x_power_switch` replaced by its result and calls. -/
theorem resetExit_eq (cfg : Config) (env : ProbeEnv) (s : Dev) (hb : s.client_bound = true) :
    resetExit cfg env s =
      if env.reset_ret ≠ 0 then
        if powerRet env.retry_off s < 0 then .clean (afterRetryOff env s)
        else if powerRet env.retry_on s < 0 then .clean (afterRetryOn env s)
        else if env.retry_reset_ret ≠ 0 then .clean (afterSecondReset env s)
        else afterResetExit cfg env (afterSecondReset env s)
      else afterResetExit cfg env (afterFirstReset env s) := by
  unfold resetExit
  dsimp only
  rw [power_switch_spec env.retry_off SWITCH_OFF (emit (.gt1x_reset_guitar env.reset_ret) s) hb]
  dsimp only
  rw [power_switch_spec env.retry_on SWITCH_ON
    ((emit (.gt1x_reset_guitar env.reset_ret) s).extend
      (powerCalls env.retry_off SWITCH_OFF (emit (.gt1x_reset_guitar env.reset_ret) s))) hb]
  rfl

theorem keep_afterFirstReset (env : ProbeEnv) (s : Dev) :
    Quiet isRelOrPut s (afterFirstReset env s) :=
  (Quiet.refl _ s).emit _ rfl

theorem keep_afterRetryOff (env : ProbeEnv) (s : Dev) :
    Quiet isRelOrPut s (afterRetryOff env s) :=
  (keep_afterFirstReset env s).extend _ (powerCalls_keep _ _ _)

theorem keep_afterRetryOn (env : ProbeEnv) (s : Dev) :
    Quiet isRelOrPut s (afterRetryOn env s) :=
  (keep_afterRetryOff env s).extend _ (powerCalls_keep _ _ _)

theorem keep_afterSecondReset (env : ProbeEnv) (s : Dev) :
    Quiet isRelOrPut s (afterSecondReset env s) :=
  (keep_afterRetryOn env s).emit _ rfl

/-- A run of lines 808-859 that jumps to the cleanup does so with
`client_bound` and `gt_pinctrl` as on entry and without having given anything
back. -/
theorem resetExit_clean (cfg : Config) (env : ProbeEnv) (s mid : Dev)
    (hb : s.client_bound = true) (h : resetExit cfg env s = .clean mid) :
    mid.client_bound = s.client_bound ∧ mid.gt_pinctrl = s.gt_pinctrl ∧
    Quiet isRelOrPut s mid := by
  rw [resetExit_eq cfg env s hb] at h
  split_ifs at h
  · have hm : afterRetryOff env s = mid := ProbeExit.clean.inj h
    subst hm
    exact ⟨rfl, rfl, keep_afterRetryOff env s⟩
  · have hm : afterRetryOn env s = mid := ProbeExit.clean.inj h
    subst hm
    exact ⟨rfl, rfl, keep_afterRetryOn env s⟩
  · have hm : afterSecondReset env s = mid := ProbeExit.clean.inj h
    subst hm
    exact ⟨rfl, rfl, keep_afterSecondReset env s⟩
  · obtain ⟨b, g, q⟩ := afterResetExit_clean cfg env _ mid h
    exact ⟨b, g, (keep_afterSecondReset env s).trans q⟩
  · obtain ⟨b, g, q⟩ := afterResetExit_clean cfg env _ mid h
    exact ⟨b, g, (keep_afterFirstReset env s).trans q⟩

theorem putAtMostOnce_iff_drop (s t : Dev) :
    PutAtMostOnce s t ↔
      s.log <+: t.log ∧ (∀ a ∈ t.log.drop s.log.length, isRelease a = false) ∧
      ((t.log.drop s.log.length).count .devm_pinctrl_put = 0 ∨
        ((t.log.drop s.log.length).count .devm_pinctrl_put = 1 ∧ releasePinCalls t = [])) := by
  constructor
  · rintro ⟨l, hl, h1, h2⟩
    rw [hl]
    exact ⟨List.prefix_append _ _, by simpa using h1, by simpa using h2⟩
  · rintro ⟨⟨l, hl⟩, h1, h2⟩
    refine ⟨l, hl.symm, ?_, ?_⟩
    · rw [← hl] at h1
      simpa using h1
    · rw [← hl] at h2
      simpa using h2

theorem count_put_of_keep {l : List Action} (h : ∀ a ∈ l, isRelOrPut a = false) :
    l.count .devm_pinctrl_put = 0 := by
  rw [List.count_eq_zero]
  intro hmem
  have := h _ hmem
  simp [isRelOrPut, isPut, isRelease] at this

/-- Whatever its outcome, `goodix_pinctrl_init` puts the pin-mux handle at most
once, and then leaves it NULL. -/
theorem pinctrl_init_putOnce (pe : PinctrlEnv) (s : Dev) :
    PutAtMostOnce s (goodix_pinctrl_init pe s).2 := by
  rw [putAtMostOnce_iff_drop]
  unfold goodix_pinctrl_init pinctrl_exit_put
  cases hs : s.gt_pinctrl with
  | none =>
    cases hk : pe.kmalloc_result with
    | none => simp [emit, hk, isRelease]
    | some k =>
      simp only [emit, hk]
      split_ifs <;>
        simp [emit, isRelease, releasePinCalls, GoodixPinctrl.cleared]
  | some p =>
    simp only [hs]
    split_ifs <;>
      simp [emit, isRelease, releasePinCalls, GoodixPinctrl.cleared]

theorem putAtMostOnce_pre {s a b : Dev} (q : Quiet isRelOrPut s a) (p : PutAtMostOnce a b) :
    PutAtMostOnce s b := by
  obtain ⟨l0, e0, h0⟩ := q
  obtain ⟨l1, e1, r1, c1⟩ := p
  refine ⟨l0 ++ l1, by rw [e1, e0, List.append_assoc], ?_, ?_⟩
  · intro x hx
    rcases List.mem_append.mp hx with h | h
    · exact isRelease_of_relOrPut x (h0 x h)
    · exact r1 x h
  · rw [List.count_append, count_put_of_keep h0, Nat.zero_add]
    exact c1

theorem putAtMostOnce_post {s b mid : Dev} (p : PutAtMostOnce s b) (q : Quiet isRelOrPut b mid)
    (hg : mid.gt_pinctrl = b.gt_pinctrl) : PutAtMostOnce s mid := by
  obtain ⟨l1, e1, r1, c1⟩ := p
  obtain ⟨l2, e2, h2⟩ := q
  have hr : releasePinCalls mid = releasePinCalls b := by
    unfold releasePinCalls
    rw [hg]
  refine ⟨l1 ++ l2, by rw [e2, e1, List.append_assoc], ?_, ?_⟩
  · intro x hx
    rcases List.mem_append.mp hx with h | h
    · exact r1 x h
    · exact isRelease_of_relOrPut x (h2 x h)
  · rw [List.count_append, count_put_of_keep h2, Nat.add_zero, hr]
    exact c1

/-- A run of lines 779-859 that jumps to the cleanup does so with the client
bound and `gt_pinctrl` allocated, having freed no GPIO, put no regulator,
unregistered no input device, and put the pin-mux handle at most once. -/
theorem acquireExit_clean (cfg : Config) (env : ProbeEnv) (s mid : Dev)
    (hb : s.client_bound = true)
    (halloc : s.gt_pinctrl ≠ none ∨ env.pinctrl.kmalloc_result ≠ none)
    (h : acquireExit cfg env s = .clean mid) :
    Good mid ∧ PutAtMostOnce s mid := by
  unfold acquireExit at h
  dsimp only at h
  obtain ⟨b1, g1, -⟩ := pinctrl_init_frame env.pinctrl s halloc
  have p1 := pinctrl_init_putOnce env.pinctrl s
  generalize goodix_pinctrl_init env.pinctrl s = r1 at b1 g1 p1 h
  have G1 : Good r1.2 := ⟨b1.trans hb, g1⟩
  by_cases c1 : r1.1 < 0
  · rw [if_pos c1] at h
    have hm : r1.2 = mid := ProbeExit.clean.inj h
    subst hm
    exact ⟨G1, p1⟩
  rw [if_neg c1] at h
  obtain ⟨b2, g2, -⟩ := select_poweroff_frame env r1.1 r1.2
  have q2 := select_poweroff_keep env r1.1 r1.2
  generalize probe_select_poweroff env r1.1 r1.2 = r2 at b2 g2 q2 h
  have G2 : Good r2.2 := ⟨b2.trans G1.1, by rw [g2]; exact G1.2⟩
  have P2 : PutAtMostOnce s r2.2 := putAtMostOnce_post p1 q2 g2
  by_cases c2 : r2.1 < 0
  · rw [if_pos c2] at h
    have hm : r2.2 = mid := ProbeExit.clean.inj h
    subst hm
    exact ⟨G2, P2⟩
  rw [if_neg c2] at h
  obtain ⟨b3, g3, -⟩ := request_gpio_frame env.gpio r2.2
  have q3 := request_gpio_keep env.gpio r2.2
  generalize gt1x_request_gpio env.gpio r2.2 = r3 at b3 g3 q3 h
  have G3 : Good r3.2 := ⟨b3.trans G2.1, by rw [g3]; exact G2.2⟩
  have P3 : PutAtMostOnce s r3.2 := putAtMostOnce_post P2 q3 g3
  by_cases c3 : r3.1 < 0
  · rw [if_pos c3] at h
    have hm : r3.2 = mid := ProbeExit.clean.inj h
    subst hm
    exact ⟨G3, P3⟩
  rw [if_neg c3, power_switch_spec _ _ _ G3.1] at h
  dsimp only at h
  have P4 : PutAtMostOnce s (r3.2.extend (powerCalls env.power_on SWITCH_ON r3.2)) :=
    putAtMostOnce_post P3 ((Quiet.refl _ _).extend _ (powerCalls_keep _ _ _)) rfl
  have G4 : Good (r3.2.extend (powerCalls env.power_on SWITCH_ON r3.2)) := G3
  by_cases c4 : powerRet env.power_on r3.2 < 0
  · rw [if_pos c4] at h
    have hm : r3.2.extend (powerCalls env.power_on SWITCH_ON r3.2) = mid :=
      ProbeExit.clean.inj h
    subst hm
    exact ⟨G4, P4⟩
  · rw [if_neg c4] at h
    obtain ⟨b5, g5, q5⟩ := resetExit_clean cfg env _ mid G4.1 h
    exact ⟨⟨b5.trans G4.1, by rw [g5]; exact G4.2⟩, putAtMostOnce_post P4 q5 g5⟩

theorem acquireEntry_keep (cfg : Config) (env : ProbeEnv) (s : Dev) :
    Quiet isRelOrPut s (acquireEntry cfg env s) := by
  unfold acquireEntry
  cases env.has_of_node
  · exact Quiet.refl _ _
  · exact parse_dt_keep cfg env.dt { s with client_bound := true }

theorem releaseGpioCalls_kinds (cfg : Config) (s : Dev) :
    Action.regulator_put .vdd_ana ∉ releaseGpioCalls cfg s ∧
    Action.devm_pinctrl_put ∉ releaseGpioCalls cfg s ∧
    Action.input_unregister_device ∉ releaseGpioCalls cfg s := by
  unfold releaseGpioCalls
  split_ifs <;> simp

theorem releaseRailCalls_kinds (pe : PowerEnv) (s : Dev) :
    (Action.regulator_put .vdd_ana ∈ releaseRailCalls pe s ↔ s.vdd_ana.isSome = true) ∧
    Action.devm_pinctrl_put ∉ releaseRailCalls pe s ∧
    Action.input_unregister_device ∉ releaseRailCalls pe s := by
  unfold releaseRailCalls powerCalls
  cases s.vdd_ana <;> simp [SWITCH_OFF]

theorem releasePinCalls_kinds (s : Dev) :
    Action.regulator_put .vdd_ana ∉ releasePinCalls s ∧
    (Action.devm_pinctrl_put ∈ releasePinCalls s ↔ pinHeld s = true) ∧
    Action.input_unregister_device ∉ releasePinCalls s := by
  unfold releasePinCalls pinHeld
  cases s.gt_pinctrl with
  | none => simp
  | some p =>
    simp only []
    split_ifs <;> simp_all

theorem releaseInputCalls_kinds (s : Dev) :
    Action.regulator_put .vdd_ana ∉ releaseInputCalls s ∧
    Action.devm_pinctrl_put ∉ releaseInputCalls s ∧
    (Action.input_unregister_device ∈ releaseInputCalls s ↔ s.input_dev.isSome = true) := by
  unfold releaseInputCalls
  cases s.input_dev <;> simp

/-- In the cleanup, each of the rail, the pin-mux handle and the input device is
given back exactly when it is held. -/
theorem cleanupCalls_iff_held (cfg : Config) (pe : PowerEnv) (s : Dev) :
    (Action.regulator_put .vdd_ana ∈ cleanupCalls cfg pe s ↔ s.vdd_ana.isSome = true) ∧
    (Action.devm_pinctrl_put ∈ cleanupCalls cfg pe s ↔ pinHeld s = true) ∧
    (Action.input_unregister_device ∈ cleanupCalls cfg pe s ↔ s.input_dev.isSome = true) := by
  obtain ⟨g1, g2, g3⟩ := releaseGpioCalls_kinds cfg s
  obtain ⟨r1, r2, r3⟩ := releaseRailCalls_kinds pe s
  obtain ⟨p1, p2, p3⟩ := releasePinCalls_kinds s
  obtain ⟨i1, i2, i3⟩ := releaseInputCalls_kinds s
  unfold cleanupCalls
  simp only [List.mem_append]
  refine ⟨?_, ?_, ?_⟩
  · rw [← r1]; tauto
  · rw [← p2]; tauto
  · rw [← i3]; tauto

/-- C5 (amended). Take a run of `gt1x_ts_probe` that gets as far as pin-mux
initialisation (with `gt_pinctrl` allocated or allocatable).  If its path ends
at `return 0` the probe returns 0.  If its path ends at a jump to `exit_clean`
with the driver in state `mid`, the probe returns `-ENODEV` with the state
`gt1x_release_resource` produces from `mid`, and:
* before the jump no GPIO was freed, no regulator put and no input device
  unregistered, and the pin-mux handle was put at most once (by the `exit_put`
  of `goodix_pinctrl_init`), in which case it is NULL in `mid`;
* the calls of the cleanup are, in this fixed order whatever step failed: calls
  on the INT and RST GPIOs only (among them `gpio_free` of each of the two that
  is valid and held), then the power-off and `regulator_put` of the analog rail,
  then `devm_pinctrl_put`, then `input_unregister_device`;
* `regulator_put`, `devm_pinctrl_put` and `input_unregister_device` occur in the
  cleanup exactly when `vdd_ana`, the pin-mux handle and `input_dev` are held
  in `mid`;
* afterwards `vdd_ana`, the pin-mux handle and `input_dev` are NULL and a valid
  INT or RST GPIO number is no longer requested. -/
theorem probe_failure_cleanup (cfg : Config) (env : ProbeEnv) (s : Dev)
    (hreach : ReachesAcquire cfg env s)
    (halloc : s.gt_pinctrl ≠ none ∨ env.pinctrl.kmalloc_result ≠ none) :
    (∀ s1, acquireExit cfg env (acquireEntry cfg env s) = .done s1 →
      gt1x_ts_probe cfg env s = some (0, s1)) ∧
    (∀ mid, acquireExit cfg env (acquireEntry cfg env s) = .clean mid →
      ∃ s1 pre gpioPart,
        gt1x_ts_probe cfg env s = some (-ENODEV, s1) ∧
        gt1x_release_resource cfg env.cleanup_off mid = some s1 ∧
        mid.log = s.log ++ pre ∧ (∀ a ∈ pre, isRelease a = false) ∧
        (pre.count .devm_pinctrl_put = 0 ∨
          (pre.count .devm_pinctrl_put = 1 ∧ pinHeld mid = false)) ∧
        s1.log = mid.log ++ (gpioPart ++ releaseRailCalls env.cleanup_off mid ++
          releasePinCalls mid ++ releaseInputCalls mid) ∧
        (∀ a ∈ gpioPart,
          a = .gpio_direction_input mid.gt1x_int_gpio ∨ a = .gpio_free mid.gt1x_int_gpio ∨
          a = .gpio_direction_output mid.gt1x_rst_gpio 0 ∨
          a = .gpio_free mid.gt1x_rst_gpio) ∧
        (gpio_is_valid cfg mid.gt1x_int_gpio = true → mid.gt1x_int_gpio ∈ mid.gpio_held →
          Action.gpio_free mid.gt1x_int_gpio ∈ gpioPart) ∧
        (gpio_is_valid cfg mid.gt1x_rst_gpio = true → mid.gt1x_rst_gpio ∈ mid.gpio_held →
          Action.gpio_free mid.gt1x_rst_gpio ∈ gpioPart) ∧
        (Action.regulator_put .vdd_ana ∈ s1.log.drop mid.log.length ↔
          mid.vdd_ana.isSome = true) ∧
        (Action.devm_pinctrl_put ∈ s1.log.drop mid.log.length ↔ pinHeld mid = true) ∧
        (Action.input_unregister_device ∈ s1.log.drop mid.log.length ↔
          mid.input_dev.isSome = true) ∧
        s1.vdd_ana = none ∧ s1.input_dev = none ∧
        s1.gt_pinctrl = some GoodixPinctrl.cleared ∧
        (gpio_is_valid cfg mid.gt1x_int_gpio = true → mid.gt1x_int_gpio ∉ s1.gpio_held) ∧
        (gpio_is_valid cfg mid.gt1x_rst_gpio = true → mid.gt1x_rst_gpio ∉ s1.gpio_held)) := by
  have hp : gt1x_ts_probe cfg env s =
      (acquireExit cfg env (acquireEntry cfg env s)).finish cfg env := by
    rw [probe_eq_acquire cfg env s hreach, probe_acquire_eq_exit]
  obtain ⟨b0, g0, -⟩ := acquireEntry_frame cfg env s
  have q0 := acquireEntry_keep cfg env s
  have halloc1 : (acquireEntry cfg env s).gt_pinctrl ≠ none ∨
      env.pinctrl.kmalloc_result ≠ none := by rw [g0]; exact halloc
  refine ⟨?_, ?_⟩
  · intro s1 h
    rw [hp, h]
    rfl
  · intro mid h
    obtain ⟨gm, pm⟩ := acquireExit_clean cfg env _ mid b0 halloc1 h
    obtain ⟨pre, hpre, hrel, hcount⟩ := putAtMostOnce_pre q0 pm
    have hres : gt1x_ts_probe cfg env s = probe_exit_clean cfg env mid := by
      rw [hp, h]
      rfl
    have hpin : releasePinCalls mid = [] → pinHeld mid = false := by
      intro hnil
      have := (releasePinCalls_kinds mid).2.1
      rw [hnil] at this
      cases hh : pinHeld mid
      · rfl
      · exact absurd (this.mpr hh) (by simp)
    have hcl := cleanupCalls_iff_held cfg env.cleanup_off mid
    rw [exit_clean_spec cfg env mid gm] at hres
    refine ⟨_, pre, releaseGpioCalls cfg mid, hres, ?_, hpre, hrel, ?_, ?_, ?_, ?_, ?_, ?_, ?_,
      ?_, rfl, rfl, rfl, ?_, ?_⟩
    · rw [release_spec cfg env.cleanup_off mid gm]
      rfl
    · rcases hcount with h0 | ⟨h1, hnil⟩
      · exact Or.inl h0
      · exact Or.inr ⟨h1, hpin hnil⟩
    · simp [cleanupCalls]
    · exact (releaseGpioCalls_mem cfg mid).1
    · exact fun hv _ => (releaseGpioCalls_mem cfg mid).2.1 hv
    · exact fun hv _ => (releaseGpioCalls_mem cfg mid).2.2 hv
    · simpa using hcl.1
    · simpa using hcl.2.1
    · simpa using hcl.2.2
    · exact (heldAfterRelease_spec cfg mid).1
    · exact (heldAfterRelease_spec cfg mid).2

theorem probe_failure_cleanup_witness :
    ReachesAcquire Config.plain ProbeEnv.chipSilent Dev.init ∧
    acquireExit Config.plain ProbeEnv.chipSilent
      (acquireEntry Config.plain ProbeEnv.chipSilent Dev.init) = .clean Dev.atCleanup ∧
    ∃ s1 pre gpioPart,
      gt1x_ts_probe Config.plain ProbeEnv.chipSilent Dev.init = some (-ENODEV, s1) ∧
      gt1x_release_resource Config.plain ProbeEnv.chipSilent.cleanup_off Dev.atCleanup =
        some s1 ∧
      Dev.atCleanup.log = Dev.init.log ++ pre ∧ (∀ a ∈ pre, isRelease a = false) ∧
      (pre.count .devm_pinctrl_put = 0 ∨
        (pre.count .devm_pinctrl_put = 1 ∧ pinHeld Dev.atCleanup = false)) ∧
      s1.log = Dev.atCleanup.log ++ (gpioPart ++
        releaseRailCalls ProbeEnv.chipSilent.cleanup_off Dev.atCleanup ++
        releasePinCalls Dev.atCleanup ++ releaseInputCalls Dev.atCleanup) ∧
      (∀ a ∈ gpioPart,
        a = .gpio_direction_input Dev.atCleanup.gt1x_int_gpio ∨
        a = .gpio_free Dev.atCleanup.gt1x_int_gpio ∨
        a = .gpio_direction_output Dev.atCleanup.gt1x_rst_gpio 0 ∨
        a = .gpio_free Dev.atCleanup.gt1x_rst_gpio) ∧
      (gpio_is_valid Config.plain Dev.atCleanup.gt1x_int_gpio = true →
        Dev.atCleanup.gt1x_int_gpio ∈ Dev.atCleanup.gpio_held →
        Action.gpio_free Dev.atCleanup.gt1x_int_gpio ∈ gpioPart) ∧
      (gpio_is_valid Config.plain Dev.atCleanup.gt1x_rst_gpio = true →
        Dev.atCleanup.gt1x_rst_gpio ∈ Dev.atCleanup.gpio_held →
        Action.gpio_free Dev.atCleanup.gt1x_rst_gpio ∈ gpioPart) ∧
      (Action.regulator_put .vdd_ana ∈ s1.log.drop Dev.atCleanup.log.length ↔
        Dev.atCleanup.vdd_ana.isSome = true) ∧
      (Action.devm_pinctrl_put ∈ s1.log.drop Dev.atCleanup.log.length ↔
        pinHeld Dev.atCleanup = true) ∧
      (Action.input_unregister_device ∈ s1.log.drop Dev.atCleanup.log.length ↔
        Dev.atCleanup.input_dev.isSome = true) ∧
      s1.vdd_ana = none ∧ s1.input_dev = none ∧
      s1.gt_pinctrl = some GoodixPinctrl.cleared ∧
      (gpio_is_valid Config.plain Dev.atCleanup.gt1x_int_gpio = true →
        Dev.atCleanup.gt1x_int_gpio ∉ s1.gpio_held) ∧
      (gpio_is_valid Config.plain Dev.atCleanup.gt1x_rst_gpio = true →
        Dev.atCleanup.gt1x_rst_gpio ∉ s1.gpio_held) :=
  have hreach : ReachesAcquire Config.plain ProbeEnv.chipSilent Dev.init := by
    refine ⟨by decide, by decide, by decide⟩
  have hexit : acquireExit Config.plain ProbeEnv.chipSilent
      (acquireEntry Config.plain ProbeEnv.chipSilent Dev.init) = .clean Dev.atCleanup := by
    decide
  ⟨hreach, hexit,
    (probe_failure_cleanup Config.plain ProbeEnv.chipSilent Dev.init hreach
      (Or.inr (by decide))).2 Dev.atCleanup hexit⟩

/-! ## Theorems: the net enable count of the analog rail -/

theorem railStep_spec (pwr pwrio : Int) (p : PowerState) (a : Action) :
    (powerStep pwr pwrio p a).rail_count = p.rail_count + railStep a := by
  cases a with
  | regulator_enable r ret =>
    cases r <;> simp only [powerStep, railStep] <;> (try split_ifs) <;> simp
  | regulator_disable r ret =>
    cases r <;> simp only [powerStep, railStep] <;> (try split_ifs) <;> simp [sub_eq_add_neg]
  | pinctrl_select_state st ret =>
    simp only [powerStep, railStep]
    split_ifs <;> simp
  | _ => simp [powerStep, railStep]

theorem rail_count_foldl (pwr pwrio : Int) (l : List Action) (p : PowerState) :
    (l.foldl (powerStep pwr pwrio) p).rail_count = p.rail_count + railDelta l := by
  induction l generalizing p with
  | nil => simp [railDelta]
  | cons a l ih =>
    rw [List.foldl_cons, ih, railStep_spec]
    simp only [railDelta, List.map_cons, List.sum_cons]
    ring

theorem railDelta_append (l1 l2 : List Action) :
    railDelta (l1 ++ l2) = railDelta l1 + railDelta l2 := by
  simp [railDelta]

theorem railStep_of_not_rail (a : Action) (h : isRail a = false) : railStep a = 0 := by
  cases a <;> simp_all [isRail, railStep]

theorem railDelta_quiet (l : List Action) (h : ∀ a ∈ l, isRail a = false) :
    railDelta l = 0 := by
  induction l with
  | nil => simp [railDelta]
  | cons a l ih =>
    have h1 := railStep_of_not_rail a (h a (List.mem_cons_self _ _))
    have h2 := ih (fun b hb => h b (List.mem_cons_of_mem _ hb))
    simp only [railDelta, List.map_cons, List.sum_cons] at h2 ⊢
    rw [h1, h2]
    rfl

theorem parse_dt_rail (cfg : Config) (dt : DtEnv) (s : Dev)
    (h : ¬ (gt1x_parse_dt cfg dt false s).1 < 0) :
    ∃ l, (gt1x_parse_dt cfg dt false s).2.log = s.log ++ l ∧
      railDelta l =
        -(if IS_ERR dt.vdd_ana_get = false ∧ 0 ≤ dt.vdd_ana_disable_ret then 1 else 0) := by
  unfold gt1x_parse_dt at h ⊢
  simp only [Bool.false_eq_true, if_false] at h ⊢
  by_cases hv : (!gpio_is_valid cfg dt.int_gpio || !gpio_is_valid cfg dt.rst_gpio) = true
  · simp [emit, hv, EINVAL] at h
  · by_cases h1 : IS_ERR dt.vdd_ana_get = true <;> by_cases h2 : IS_ERR dt.vcc_i2c_get = true <;>
      by_cases h3 : dt.vdd_ana_disable_ret < 0 <;>
      simp [emit, hv, h1, h2, h3, railDelta, railStep, not_le.mpr, not_lt.mp]

theorem acquireEntry_rail (cfg : Config) (env : ProbeEnv) (s : Dev)
    (hreach : ReachesAcquire cfg env s) :
    ∃ l, (acquireEntry cfg env s).log = s.log ++ l ∧
      railDelta l =
        -(if env.has_of_node = true ∧ IS_ERR env.dt.vdd_ana_get = false ∧
            0 ≤ env.dt.vdd_ana_disable_ret then 1 else 0) := by
  unfold acquireEntry
  by_cases hn : env.has_of_node = true
  · have h : ¬ (gt1x_parse_dt cfg env.dt false { s with client_bound := true }).1 < 0 :=
      fun hlt => hreach.2.2 ⟨hn, hlt⟩
    obtain ⟨l, hl, hd⟩ := parse_dt_rail cfg env.dt _ h
    refine ⟨l, ?_, ?_⟩
    · rw [if_pos hn, hl]
    · rw [hd]
      simp [hn]
  · refine ⟨[], ?_, ?_⟩
    · rw [if_neg hn]
      simp
    · simp [hn, railDelta]

theorem pinctrl_init_rail (pe : PinctrlEnv) (s : Dev) :
    Quiet isRail s (goodix_pinctrl_init pe s).2 := by
  rw [quiet_iff_drop]
  unfold goodix_pinctrl_init pinctrl_exit_put
  cases hs : s.gt_pinctrl with
  | none =>
    cases hk : pe.kmalloc_result with
    | none => simp [emit, hk, isRail]
    | some k =>
      simp only [emit, hk]
      split_ifs <;> simp [emit, isRail]
  | some p =>
    simp only [hs]
    split_ifs <;> simp [emit, isRail]

theorem select_poweroff_rail (env : ProbeEnv) (ret : Int) (s : Dev) :
    Quiet isRail s (probe_select_poweroff env ret s).2 := by
  rw [quiet_iff_drop]
  unfold probe_select_poweroff
  cases hs : s.gt_pinctrl with
  | none => simp [hs]
  | some p =>
    simp only []
    split_ifs <;> simp [hs, emit, isRail]

theorem request_gpio_rail (ge : GpioEnv) (s : Dev) :
    Quiet isRail s (gt1x_request_gpio ge s).2 := by
  rw [quiet_iff_drop]
  unfold gt1x_request_gpio gpio_request
  by_cases h1 : ge.int_ret < 0 <;> by_cases h2 : ge.rst_ret < 0 <;>
    by_cases h3 : ge.pwr_ret < 0 <;> by_cases h4 : ge.pwrio_ret < 0 <;>
    simp [h1, h2, h3, h4, emit, isRail]

/-- Between pin-mux initialisation and the first power-on no regulator is
enabled or disabled. -/
theorem resetEntry_rail (env : ProbeEnv) (s mid : Dev)
    (hb : s.client_bound = true) (h : resetEntry env s = some mid) :
    ∃ r3 : Dev, mid = r3.extend (powerCalls env.power_on SWITCH_ON r3) ∧
      Quiet isRail s r3 := by
  unfold resetEntry at h
  dsimp only at h
  have b1 := pinctrl_init_bound env.pinctrl s
  have q1 := pinctrl_init_rail env.pinctrl s
  generalize goodix_pinctrl_init env.pinctrl s = r1 at b1 q1 h
  by_cases c1 : r1.1 < 0
  · simp [c1] at h
  rw [if_neg c1] at h
  have b2 := (select_poweroff_frame env r1.1 r1.2).1
  have q2 := select_poweroff_rail env r1.1 r1.2
  generalize probe_select_poweroff env r1.1 r1.2 = r2 at b2 q2 h
  by_cases c2 : r2.1 < 0
  · simp [c2] at h
  rw [if_neg c2] at h
  have b3 := (request_gpio_frame env.gpio r2.2).1
  have q3 := request_gpio_rail env.gpio r2.2
  generalize gt1x_request_gpio env.gpio r2.2 = r3 at b3 q3 h
  by_cases c3 : r3.1 < 0
  · simp [c3] at h
  have hb3 : r3.2.client_bound = true := by rw [b3, b2, b1, hb]
  rw [if_neg c3, power_switch_spec _ _ _ hb3] at h
  dsimp only at h
  by_cases c4 : powerRet env.power_on r3.2 < 0
  · simp [c4] at h
  rw [if_neg c4] at h
  exact ⟨r3.2, (Option.some.inj h).symm, (q1.trans q2).trans q3⟩

/-- The power state after a first power-on, a failed reset, a power-off, a
second power-on and a second reset, and after a first power-on and one reset,
when the calls `X` came before and no power switch fails. -/
theorem retry_power_effect (env : ProbeEnv) (mid : Dev) (X : List Action) (r1 r2 r : Int)
    (hon1 : 0 ≤ powerRet env.power_on mid) (hoff : 0 ≤ powerRet env.retry_off mid)
    (hon : 0 ≤ powerRet env.retry_on mid) :
    powerState mid.gt1x_pwr_gpio mid.gt1x_pwrio_gpio
      (X ++ (powerCalls env.power_on SWITCH_ON mid ++ ([.gt1x_reset_guitar r1] ++
        (powerCalls env.retry_off SWITCH_OFF mid ++
          (powerCalls env.retry_on SWITCH_ON mid ++ [.gt1x_reset_guitar r2]))))) =
      { pwr_level := some 1, pwrio_level := some 1,
        rail_count := railDelta X + (if mid.vdd_ana.isSome then 1 else 0),
        pin_state := (powerState mid.gt1x_pwr_gpio mid.gt1x_pwrio_gpio X).pin_state } ∧
    powerState mid.gt1x_pwr_gpio mid.gt1x_pwrio_gpio
      (X ++ (powerCalls env.power_on SWITCH_ON mid ++ [.gt1x_reset_guitar r])) =
      { pwr_level := some 1, pwrio_level := some 1,
        rail_count := railDelta X + (if mid.vdd_ana.isSome then 1 else 0),
        pin_state := (powerState mid.gt1x_pwr_gpio mid.gt1x_pwrio_gpio X).pin_state } := by
  have hX : (powerState mid.gt1x_pwr_gpio mid.gt1x_pwrio_gpio X).rail_count = railDelta X := by
    unfold powerState
    rw [rail_count_foldl]
    simp [PowerState.init]
  constructor
  · rw [powerState_append, List.foldl_append, List.foldl_append, List.foldl_append,
      List.foldl_append]
    simp only [List.foldl_cons, List.foldl_nil, powerStep]
    rw [powerOn_effect _ _ _ hon1, powerOff_effect _ _ _ hoff, powerOn_effect _ _ _ hon, hX]
    simp
  · rw [powerState_append, List.foldl_append]
    simp only [List.foldl_cons, List.foldl_nil, powerStep]
    rw [powerOn_effect _ _ _ hon1, hX]

/-- C14 (amended). Take a run of `gt1x_ts_probe` that reaches reset-and-verify
in state `mid`, whose first `gt1x_reset_guitar` fails, whose power-off and
power-on do not fail and whose second `gt1x_reset_guitar` succeeds, and the run
that differs only in that the first `gt1x_reset_guitar` succeeds.  Both reach
`gt1x_init` (the entry of `probe_after_reset`), and the power state there is the
same in both, whether computed from the whole log or from the calls of the run
alone: pwr and pwrio GPIOs at 1, the same active pin-mux state, and the analog
rail enabled once more than before the first power-on if it is present (and
untouched if absent).  Counted over the calls of the run, the net enable count
of the rail is 1 for a rail that is present, minus 1 when `gt1x_parse_dt` got
the rail and its `regulator_disable` ("disable first", line 345) did not fail:
a present rail is then enabled 0 times net, not once. -/
theorem retry_restores_power_state (cfg : Config) (env : ProbeEnv) (s mid : Dev)
    (hreach : ReachesAcquire cfg env s)
    (hentry : resetEntry env (acquireEntry cfg env s) = some mid)
    (hfail : env.reset_ret ≠ 0)
    (hoff : 0 ≤ powerRet env.retry_off mid) (hon : 0 ≤ powerRet env.retry_on mid)
    (hretry : env.retry_reset_ret = 0) :
    gt1x_ts_probe cfg env s = probe_after_reset cfg env (afterSecondReset env mid) ∧
    gt1x_ts_probe cfg { env with reset_ret := 0 } s =
      probe_after_reset cfg { env with reset_ret := 0 }
        (afterFirstReset { env with reset_ret := 0 } mid) ∧
    powerState mid.gt1x_pwr_gpio mid.gt1x_pwrio_gpio (afterSecondReset env mid).log =
      powerState mid.gt1x_pwr_gpio mid.gt1x_pwrio_gpio
        (afterFirstReset { env with reset_ret := 0 } mid).log ∧
    (powerState mid.gt1x_pwr_gpio mid.gt1x_pwrio_gpio
      (afterSecondReset env mid).log).pwr_level = some 1 ∧
    (powerState mid.gt1x_pwr_gpio mid.gt1x_pwrio_gpio
      (afterSecondReset env mid).log).pwrio_level = some 1 ∧
    powerState mid.gt1x_pwr_gpio mid.gt1x_pwrio_gpio
        ((afterSecondReset env mid).log.drop s.log.length) =
      powerState mid.gt1x_pwr_gpio mid.gt1x_pwrio_gpio
        ((afterFirstReset { env with reset_ret := 0 } mid).log.drop s.log.length) ∧
    (powerState mid.gt1x_pwr_gpio mid.gt1x_pwrio_gpio
      ((afterSecondReset env mid).log.drop s.log.length)).pwr_level = some 1 ∧
    (powerState mid.gt1x_pwr_gpio mid.gt1x_pwrio_gpio
      ((afterSecondReset env mid).log.drop s.log.length)).pwrio_level = some 1 ∧
    (powerState mid.gt1x_pwr_gpio mid.gt1x_pwrio_gpio
      ((afterSecondReset env mid).log.drop s.log.length)).rail_count =
      (if mid.vdd_ana.isSome then 1 else 0) -
        (if env.has_of_node = true ∧ IS_ERR env.dt.vdd_ana_get = false ∧
            0 ≤ env.dt.vdd_ana_disable_ret then 1 else 0) ∧
    ∃ pre, mid.log = pre ++ powerCalls env.power_on SWITCH_ON mid ∧
      (powerState mid.gt1x_pwr_gpio mid.gt1x_pwrio_gpio
        (afterSecondReset env mid).log).rail_count =
        (powerState mid.gt1x_pwr_gpio mid.gt1x_pwrio_gpio pre).rail_count +
          (if mid.vdd_ana.isSome then 1 else 0) ∧
      (powerState mid.gt1x_pwr_gpio mid.gt1x_pwrio_gpio
        (afterSecondReset env mid).log).pin_state =
        (powerState mid.gt1x_pwr_gpio mid.gt1x_pwrio_gpio pre).pin_state := by
  have hb0 := (acquireEntry_frame cfg env s).1
  obtain ⟨hacq, hbm, r3, hmid, hon1⟩ :=
    resetEntry_spec cfg env (acquireEntry cfg env s) mid hb0 hentry
  have hreach1 : ReachesAcquire cfg { env with reset_ret := 0 } s := hreach
  have hentry1 : resetEntry { env with reset_ret := 0 }
      (acquireEntry cfg { env with reset_ret := 0 } s) = some mid := hentry
  obtain ⟨hacq1, -, -⟩ := resetEntry_spec cfg { env with reset_ret := 0 }
    (acquireEntry cfg { env with reset_ret := 0 } s) mid hb0 hentry1
  -- the state before the first power-on and the power state after it
  have hlog : mid.log = r3.log ++ powerCalls env.power_on SWITCH_ON mid := by
    rw [hmid]; rfl
  have hon1m : 0 ≤ powerRet env.power_on mid := by rw [hmid]; exact hon1
  have hP : powerState mid.gt1x_pwr_gpio mid.gt1x_pwrio_gpio mid.log =
      { pwr_level := some 1, pwrio_level := some 1,
        rail_count := (powerState mid.gt1x_pwr_gpio mid.gt1x_pwrio_gpio r3.log).rail_count +
          (if mid.vdd_ana.isSome then 1 else 0),
        pin_state := (powerState mid.gt1x_pwr_gpio mid.gt1x_pwrio_gpio r3.log).pin_state } := by
    rw [hlog, powerState_append, powerOn_effect _ _ _ hon1m]
  -- the power state after the second reset
  have hS : powerState mid.gt1x_pwr_gpio mid.gt1x_pwrio_gpio (afterSecondReset env mid).log =
      powerState mid.gt1x_pwr_gpio mid.gt1x_pwrio_gpio mid.log := by
    have e : (afterSecondReset env mid).log =
        mid.log ++ ([.gt1x_reset_guitar env.reset_ret] ++
          (powerCalls env.retry_off SWITCH_OFF mid ++
            (powerCalls env.retry_on SWITCH_ON mid ++
              [.gt1x_reset_guitar env.retry_reset_ret]))) := by
      simp [afterSecondReset, afterRetryOn, afterRetryOff, afterFirstReset, emit, Dev.extend]
    rw [e, powerState_append, List.foldl_append, List.foldl_append, List.foldl_append]
    simp only [List.foldl_cons, List.foldl_nil, powerStep]
    rw [powerOff_effect _ _ _ hoff, powerOn_effect _ _ _ hon, hP]
    simp
  have hF : powerState mid.gt1x_pwr_gpio mid.gt1x_pwrio_gpio
      (afterFirstReset { env with reset_ret := 0 } mid).log =
      powerState mid.gt1x_pwr_gpio mid.gt1x_pwrio_gpio mid.log := by
    have e : (afterFirstReset { env with reset_ret := 0 } mid).log =
        mid.log ++ [.gt1x_reset_guitar 0] := rfl
    rw [e, powerState_append]
    rfl
  -- the calls of the run itself
  obtain ⟨A, hA, hdA⟩ := acquireEntry_rail cfg env s hreach
  obtain ⟨r3b, hmidb, B, hB, hqB⟩ := resetEntry_rail env (acquireEntry cfg env s) mid hb0 hentry
  have hlogb : mid.log = s.log ++ ((A ++ B) ++ powerCalls env.power_on SWITCH_ON mid) := by
    have e : mid.log = r3b.log ++ powerCalls env.power_on SWITCH_ON mid := by
      rw [hmidb]; rfl
    rw [e, hB, hA]
    simp
  have hdrop2 : (afterSecondReset env mid).log.drop s.log.length =
      (A ++ B) ++ (powerCalls env.power_on SWITCH_ON mid ++ ([.gt1x_reset_guitar env.reset_ret] ++
        (powerCalls env.retry_off SWITCH_OFF mid ++
          (powerCalls env.retry_on SWITCH_ON mid ++
            [.gt1x_reset_guitar env.retry_reset_ret])))) := by
    have e : (afterSecondReset env mid).log =
        mid.log ++ ([.gt1x_reset_guitar env.reset_ret] ++
          (powerCalls env.retry_off SWITCH_OFF mid ++
            (powerCalls env.retry_on SWITCH_ON mid ++
              [.gt1x_reset_guitar env.retry_reset_ret]))) := by
      simp [afterSecondReset, afterRetryOn, afterRetryOff, afterFirstReset, emit, Dev.extend]
    rw [e, hlogb]
    simp
  have hdrop1 : (afterFirstReset { env with reset_ret := 0 } mid).log.drop s.log.length =
      (A ++ B) ++ (powerCalls env.power_on SWITCH_ON mid ++ [.gt1x_reset_guitar 0]) := by
    have e : (afterFirstReset { env with reset_ret := 0 } mid).log =
        mid.log ++ [.gt1x_reset_guitar 0] := rfl
    rw [e, hlogb]
    simp
  obtain ⟨hR2, hR1⟩ := retry_power_effect env mid (A ++ B) env.reset_ret env.retry_reset_ret 0
    hon1m hoff hon
  have hAB : railDelta (A ++ B) =
      -(if env.has_of_node = true ∧ IS_ERR env.dt.vdd_ana_get = false ∧
          0 ≤ env.dt.vdd_ana_disable_ret then 1 else 0) := by
    rw [railDelta_append, railDelta_quiet B hqB, hdA]
    simp
  refine ⟨?_, ?_, ?_, ?_, ?_, ?_, ?_, ?_, ?_, r3.log, hlog, ?_, ?_⟩
  · rw [probe_eq_acquire cfg env s hreach, hacq, probe_reset_eq cfg env mid hbm]
    simp [hfail, hretry, not_lt.mpr hoff, not_lt.mpr hon]
  · rw [probe_eq_acquire cfg _ s hreach1, hacq1, probe_reset_eq cfg _ mid hbm]
    simp
  · rw [hS, hF]
  · rw [hS, hP]
  · rw [hS, hP]
  · rw [hdrop2, hdrop1, hR2, hR1]
  · rw [hdrop2, hR2]
  · rw [hdrop2, hR2]
  · rw [hdrop2, hR2, hAB]
    show -_ + _ = _ - _
    ring
  · rw [hS, hP]
  · rw [hS, hP]

theorem retry_restores_power_state_witness :
    (ReachesAcquire Config.plain ProbeEnv.secondTry Dev.init ∧
      resetEntry ProbeEnv.secondTry (acquireEntry Config.plain ProbeEnv.secondTry Dev.init) =
        some Dev.atReset ∧
      powerState Dev.atReset.gt1x_pwr_gpio Dev.atReset.gt1x_pwrio_gpio
          (afterSecondReset ProbeEnv.secondTry Dev.atReset).log =
        powerState Dev.atReset.gt1x_pwr_gpio Dev.atReset.gt1x_pwrio_gpio
          (afterFirstReset { ProbeEnv.secondTry with reset_ret := 0 } Dev.atReset).log ∧
      (powerState Dev.atReset.gt1x_pwr_gpio Dev.atReset.gt1x_pwrio_gpio
        ((afterSecondReset ProbeEnv.secondTry Dev.atReset).log.drop
          Dev.init.log.length)).rail_count =
        (if Dev.atReset.vdd_ana.isSome then 1 else 0) -
          (if ProbeEnv.secondTry.has_of_node = true ∧
              IS_ERR ProbeEnv.secondTry.dt.vdd_ana_get = false ∧
              0 ≤ ProbeEnv.secondTry.dt.vdd_ana_disable_ret then 1 else 0)) ∧
    (ReachesAcquire Config.plain ProbeEnv.secondTryDisabled Dev.init ∧
      resetEntry ProbeEnv.secondTryDisabled
          (acquireEntry Config.plain ProbeEnv.secondTryDisabled Dev.init) =
        some Dev.atResetDisabled ∧
      powerState Dev.atResetDisabled.gt1x_pwr_gpio Dev.atResetDisabled.gt1x_pwrio_gpio
          (afterSecondReset ProbeEnv.secondTryDisabled Dev.atResetDisabled).log =
        powerState Dev.atResetDisabled.gt1x_pwr_gpio Dev.atResetDisabled.gt1x_pwrio_gpio
          (afterFirstReset { ProbeEnv.secondTryDisabled with reset_ret := 0 }
            Dev.atResetDisabled).log ∧
      (powerState Dev.atResetDisabled.gt1x_pwr_gpio Dev.atResetDisabled.gt1x_pwrio_gpio
        ((afterSecondReset ProbeEnv.secondTryDisabled Dev.atResetDisabled).log.drop
          Dev.init.log.length)).rail_count =
        (if Dev.atResetDisabled.vdd_ana.isSome then 1 else 0) -
          (if ProbeEnv.secondTryDisabled.has_of_node = true ∧
              IS_ERR ProbeEnv.secondTryDisabled.dt.vdd_ana_get = false ∧
              0 ≤ ProbeEnv.secondTryDisabled.dt.vdd_ana_disable_ret then 1 else 0)) :=
  have hreach : ReachesAcquire Config.plain ProbeEnv.secondTry Dev.init := by
    refine ⟨by decide, by decide, by decide⟩
  have hentry : resetEntry ProbeEnv.secondTry
      (acquireEntry Config.plain ProbeEnv.secondTry Dev.init) = some Dev.atReset := by
    decide
  have hreachD : ReachesAcquire Config.plain ProbeEnv.secondTryDisabled Dev.init := by
    refine ⟨by decide, by decide, by decide⟩
  have hentryD : resetEntry ProbeEnv.secondTryDisabled
      (acquireEntry Config.plain ProbeEnv.secondTryDisabled Dev.init) =
      some Dev.atResetDisabled := by
    decide
  have h := retry_restores_power_state Config.plain ProbeEnv.secondTry Dev.init Dev.atReset
    hreach hentry (by decide) (by decide) (by decide) (by decide)
  have hD := retry_restores_power_state Config.plain ProbeEnv.secondTryDisabled Dev.init
    Dev.atResetDisabled hreachD hentryD (by decide) (by decide) (by decide) (by decide)
  ⟨⟨hreach, hentry, h.2.2.1, h.2.2.2.2.2.2.2.2.1⟩,
    ⟨hreachD, hentryD, hD.2.2.1, hD.2.2.2.2.2.2.2.2.1⟩⟩

/-- C14 (as stated, refuted). In the run of `ProbeEnv.secondTryDisabled` the
analog rail is present, the first `gt1x_reset_guitar` fails, the power-off and
power-on of the retry succeed and the second `gt1x_reset_guitar` succeeds, so
the run reaches `gt1x_init` and the probe returns 0.  The `regulator_disable`
that `gt1x_parse_dt` issues right after `regulator_get` succeeded as well, so
at `gt1x_init` the rail has been disabled twice and enabled twice: its net
enable count is 0, not 1 - in this run and in the run whose first reset
succeeds (one disable, one enable). -/
theorem retry_rail_not_enabled_once :
    ProbeEnv.secondTryDisabled.reset_ret ≠ 0 ∧
    ProbeEnv.secondTryDisabled.retry_reset_ret = 0 ∧
    resetEntry ProbeEnv.secondTryDisabled
        (acquireEntry Config.plain ProbeEnv.secondTryDisabled Dev.init) =
      some Dev.atResetDisabled ∧
    Dev.atResetDisabled.vdd_ana.isSome = true ∧
    0 ≤ powerRet ProbeEnv.secondTryDisabled.power_on Dev.atResetDisabled ∧
    0 ≤ powerRet ProbeEnv.secondTryDisabled.retry_off Dev.atResetDisabled ∧
    0 ≤ powerRet ProbeEnv.secondTryDisabled.retry_on Dev.atResetDisabled ∧
    gt1x_ts_probe Config.plain ProbeEnv.secondTryDisabled Dev.init =
      probe_after_reset Config.plain ProbeEnv.secondTryDisabled
        (afterSecondReset ProbeEnv.secondTryDisabled Dev.atResetDisabled) ∧
    (gt1x_ts_probe Config.plain ProbeEnv.secondTryDisabled Dev.init).map (fun r => r.1) =
      some 0 ∧
    (afterSecondReset ProbeEnv.secondTryDisabled Dev.atResetDisabled).log.filter isRail =
      [.regulator_disable .vdd_ana 0, .regulator_enable .vdd_ana 0,
       .regulator_disable .vdd_ana 0, .regulator_enable .vdd_ana 0] ∧
    (powerState 68 69
      (afterSecondReset ProbeEnv.secondTryDisabled Dev.atResetDisabled).log).rail_count = 0 ∧
    (powerState 68 69
      (afterSecondReset ProbeEnv.secondTryDisabled Dev.atResetDisabled).log).pwr_level =
      some 1 ∧
    (powerState 68 69
      (afterSecondReset ProbeEnv.secondTryDisabled Dev.atResetDisabled).log).pwrio_level =
      some 1 ∧
    (afterFirstReset { ProbeEnv.secondTryDisabled with reset_ret := 0 }
      Dev.atResetDisabled).log.filter isRail =
      [.regulator_disable .vdd_ana 0, .regulator_enable .vdd_ana 0] ∧
    (powerState 68 69
      (afterFirstReset { ProbeEnv.secondTryDisabled with reset_ret := 0 }
        Dev.atResetDisabled).log).rail_count = 0 := by
  decide

end Gt1x
